import Mathlib

/-!
Network publication of the Aeron media driver.

A shallow embedding of `aeron-driver/src/main/c/aeron_network_publication.c`
and of `aeron_udp_port_resolver` and `aeron_ipv6_netmask_from_prefixlen` of
`aeron-driver/src/main/c/util/aeron_netutil.c`.

* `int32_t` and `int64_t` values are integers; every operation of the C code
  that can leave the range is followed by `wrap32` or `wrap64`
  (two's complement), `size_t` values are natural numbers modulo `2 ^ 64`.
* The publication structure, the three position counters and the system
  counters it points to are the fields of `Publication`.
* The collaborators that are called through pointers (the term scanner, the
  send channel endpoint, the flow control strategy, the clocks) are the
  fields of `Env`: what they answer during one call.
* Calls that leave the publication (datagrams handed to the endpoint, calls
  to the retransmit handler, to the conductor, to the counters manager and
  `memset`) are recorded, in order, as a list of `Event`.
-/

namespace Aeron

/-! ## Machine integers -/

/-- Conversion to `int32_t`: the value modulo `2 ^ 32`, in `[-2 ^ 31, 2 ^ 31)`. -/
def wrap32 (x : Int) : Int := (x + 2147483648) % 4294967296 - 2147483648

/-- Conversion to `int64_t`: the value modulo `2 ^ 64`, in `[-2 ^ 63, 2 ^ 63)`. -/
def wrap64 (x : Int) : Int :=
  (x + 9223372036854775808) % 18446744073709551616 - 9223372036854775808

/-- The number of values of `size_t`. -/
def SIZE_MOD : Nat := 18446744073709551616

/-- Conversion of a signed integer to `size_t`. -/
def toSize (x : Int) : Nat := (x % 18446744073709551616).toNat

/-- A value that an `int64_t` can hold. -/
def InRange64 (x : Int) : Prop := -9223372036854775808 ≤ x ∧ x < 9223372036854775808

instance (x : Int) : Decidable (InRange64 x) := by
  unfold InRange64
  exact inferInstance

/-! ## Frames -/

/-- Modelled from the spec: the flag bits of a data frame (`BEGIN=0x80`),
whose header file is not among the sources. -/
def AERON_DATA_HEADER_BEGIN_FLAG : Nat := 0x80

/-- Modelled from the spec: the flag bits of a data frame (`END=0x40`). -/
def AERON_DATA_HEADER_END_FLAG : Nat := 0x40

/-- Modelled from the spec: the flag bits of a data frame (`EOS=0x20`). -/
def AERON_DATA_HEADER_EOS_FLAG : Nat := 0x20

/-- Modelled from the spec: the flag bits of an RTTM frame (`REPLY=0x80`). -/
def AERON_RTTM_HEADER_REPLY_FLAG : Nat := 0x80

/-- Modelled from the spec: the frame types of the protocol header file, which
is not among the sources; only their names are used. -/
inductive HdrType where
  | DATA
  | SETUP
  | RTTM
deriving DecidableEq

/-- Modelled from the spec: the frame header
`frame_length:i32, version:u8, flags:u8, type:u16`. -/
structure FrameHeader where
  frame_length : Int
  version : Nat
  flags : Nat
  type : HdrType
deriving DecidableEq

/-- Modelled from the spec: the data frame header, 32 bytes. -/
structure DataHeader where
  frame_header : FrameHeader
  term_offset : Int
  session_id : Int
  stream_id : Int
  term_id : Int
  reserved_value : Int
deriving DecidableEq

/-- Modelled from the spec: the setup frame, 40 bytes. -/
structure SetupHeader where
  frame_header : FrameHeader
  term_offset : Int
  session_id : Int
  stream_id : Int
  initial_term_id : Int
  active_term_id : Int
  term_length : Int
  mtu : Int
  ttl : Int
deriving DecidableEq

/-- Modelled from the spec: the RTTM frame, 40 bytes. -/
structure RttmHeader where
  frame_header : FrameHeader
  session_id : Int
  stream_id : Int
  echo_timestamp : Int
  reception_delta : Int
  receiver_id : Int
deriving DecidableEq

/-- Modelled from the spec: `sizeof(aeron_data_header_t)`, from the layout of
the data frame header (8 + 4 + 4 + 4 + 4 + 8 bytes). -/
def SIZEOF_DATA_HEADER : Nat := 32

/-- Modelled from the spec: `sizeof(aeron_setup_header_t)`, from the layout of
the setup frame (8 + 8 * 4 bytes). -/
def SIZEOF_SETUP_HEADER : Nat := 40

/-- Modelled from the spec: `sizeof(aeron_rttm_header_t)`, from the layout of
the RTTM frame (8 + 4 + 4 + 8 + 8 + 8 bytes). -/
def SIZEOF_RTTM_HEADER : Nat := 40

/-- An `iovec` that points into a term buffer:
`iov_base = term_buffers[index].addr + offset`, `iov_len = len`. -/
structure Iovec where
  index : Nat
  offset : Int
  len : Nat
deriving DecidableEq

/-! ## Calls that leave the publication -/

/-- A call made by the publication to a collaborator, with its arguments.
The retransmit handler is reached through `retransmit_on_nak` and
`process_timeouts`; the resends it asks for in return are calls of
`aeron_network_publication_resend`. -/
inductive Event where
  | sendmsg_setup (frame : SetupHeader)
  | sendmsg_data_header (frame : DataHeader)
  | sendmsg_rttm (frame : RttmHeader)
  | sendmsg_iov (iov : Iovec)
  | sendmmsg (iovs : List Iovec)
  | flow_control_on_idle (now_ns snd_lmt : Int)
  | flow_control_on_status_message (buffer : List Nat) (length addr : Nat) (snd_lmt : Int)
      (initial_term_id : Int) (position_bits_to_shift : Nat) (now_ns : Int)
  | process_timeouts (now_ns : Int)
  | retransmit_on_nak (term_id term_offset : Int) (length term_length : Nat) (now_ns : Int)
  | counters_manager_free (counter_id : Int)
  | cleanup_spies
  | cleanup_network_publication
  | memset (index : Nat) (offset : Int) (length : Nat)
deriving DecidableEq

/-! ## The publication -/

/-- The values of `aeron_network_publication_status_t`. -/
inductive Status where
  | ACTIVE
  | DRAINING
  | LINGER
  | CLOSING
deriving DecidableEq

/-- An `aeron_position_t`: a counter id and the value stored at `value_addr`. -/
structure Position where
  counter_id : Int
  value : Int
deriving DecidableEq

/-- The fields of `aeron_network_publication_t` that the functions of
`aeron_network_publication.c` read or write, the counters they point to and
`time_of_last_status_message` of the log meta data. -/
structure Publication where
  subscribeable : List Position
  subscribeable_capacity : Nat
  registration_id : Int
  time_of_last_status_change : Int
  has_reached_end_of_life : Bool
  clean_position : Int
  status : Status
  refcnt : Int
  time_of_last_activity_ns : Int
  last_snd_pos : Int
  time_of_last_status_message : Int
  session_id : Int
  stream_id : Int
  initial_term_id : Int
  term_length_mask : Int
  position_bits_to_shift : Nat
  mtu_length : Nat
  term_window_length : Int
  linger_timeout_ns : Int
  time_of_last_send_or_heartbeat_ns : Int
  time_of_last_setup_ns : Int
  is_exclusive : Bool
  should_send_setup_frame : Bool
  is_connected : Bool
  is_complete : Bool
  track_sender_limits : Bool
  has_sender_released : Bool
  pub_lmt_position : Position
  snd_pos_position : Position
  snd_lmt_position : Position
  multicast_ttl : Int
  short_sends_counter : Int
  heartbeats_sent_counter : Int
  sender_flow_control_limits_counter : Int
  retransmits_sent_counter : Int
deriving DecidableEq

/-- The constants of header files that are not among the sources. -/
structure Constants where
  AERON_NETWORK_PUBLICATION_MAX_MESSAGES_PER_SEND : Nat
  AERON_NETWORK_PUBLICATION_HEARTBEAT_TIMEOUT_NS : Int
  AERON_NETWORK_PUBLICATION_SETUP_TIMEOUT_NS : Int
  AERON_NETWORK_PUBLICATION_CONNECTION_TIMEOUT_MS : Int
  AERON_FRAME_HEADER_VERSION : Nat
  AERON_LOGBUFFER_PARTITION_COUNT : Nat

/-- Modelled from the spec: the default values of the constants
(`MAX_MESSAGES_PER_SEND` 2, heartbeat and setup timeout 100 ms, connection
timeout 5 s, three term buffers); the frame header version is 0. -/
def defaults : Constants where
  AERON_NETWORK_PUBLICATION_MAX_MESSAGES_PER_SEND := 2
  AERON_NETWORK_PUBLICATION_HEARTBEAT_TIMEOUT_NS := 100000000
  AERON_NETWORK_PUBLICATION_SETUP_TIMEOUT_NS := 100000000
  AERON_NETWORK_PUBLICATION_CONNECTION_TIMEOUT_MS := 5000
  AERON_FRAME_HEADER_VERSION := 0
  AERON_LOGBUFFER_PARTITION_COUNT := 3

/-- What the collaborators answer during one call.

* `scan index term_offset term_length_left max_length` is the pair
  `(available, padding)` of `aeron_term_scanner_scan_for_availability` called
  on `term_buffers[index].addr + term_offset`;
* `sendmsg_setup`, `sendmsg_data_header`, `sendmsg_rttm`, `sendmsg_iov` are the
  values `aeron_send_channel_sendmsg` returns for the message, `sendmmsg`
  the value of `aeron_send_channel_sendmmsg`;
* `on_idle now_ns snd_lmt` and
  `on_status_message buffer length addr snd_lmt initial_term_id bits now_ns`
  are the values returned by the flow control strategy;
* `nano_clock` and `epoch_clock` are the readings of the two clocks. -/
structure Env where
  scan : Nat → Int → Nat → Nat → Nat × Nat
  sendmsg_setup : SetupHeader → Int
  sendmsg_data_header : DataHeader → Int
  sendmsg_rttm : RttmHeader → Int
  sendmsg_iov : Iovec → Int
  sendmmsg : List Iovec → Int
  on_idle : Int → Int → Int
  on_status_message : List Nat → Nat → Nat → Int → Int → Nat → Int → Int
  nano_clock : Int
  epoch_clock : Int

/-- The publication after a call, the calls it made to collaborators, in
order, and the value it returned. -/
structure Outcome where
  pub : Publication
  events : List Event
  result : Int

/-- The publication after a call of a function that returns nothing, and the
calls it made to collaborators, in order. -/
structure Effect where
  pub : Publication
  events : List Event

/-! ## Log buffer descriptor -/

/-- Modelled from the spec: `aeron_logbuffer_index_by_position`, of a header
that is not among the sources: `(position >> bits_to_shift) mod N`. -/
def aeron_logbuffer_index_by_position (c : Constants) (position : Int)
    (position_bits_to_shift : Nat) : Nat :=
  toSize ((position >>> position_bits_to_shift) % c.AERON_LOGBUFFER_PARTITION_COUNT)

/-- Modelled from the spec: `aeron_logbuffer_compute_term_id_from_position`,
of a header that is not among the sources:
`initial_term_id + (position >> bits_to_shift)`, a 32-bit value. -/
def aeron_logbuffer_compute_term_id_from_position (position : Int)
    (position_bits_to_shift : Nat) (initial_term_id : Int) : Int :=
  wrap32 (wrap32 (position >>> position_bits_to_shift) + initial_term_id)

/-- Modelled from the spec: `aeron_logbuffer_compute_position`, of a header that
is not among the sources, the inverse of the decomposition of a position:
the terms since the initial one (term ids are 32-bit and may wrap), shifted,
plus the term offset. -/
def aeron_logbuffer_compute_position (term_id term_offset : Int)
    (position_bits_to_shift : Nat) (initial_term_id : Int) : Int :=
  wrap64 (wrap64 (wrap32 (term_id - initial_term_id) * 2 ^ position_bits_to_shift) + term_offset)

/-! ## Setup and heartbeat -/

/-- The function `aeron_network_publication_setup_message_check`. -/
def aeron_network_publication_setup_message_check (c : Constants) (e : Env)
    (publication : Publication) (now_ns active_term_id term_offset : Int) : Outcome :=
  if now_ns > wrap64 (publication.time_of_last_setup_ns +
      c.AERON_NETWORK_PUBLICATION_SETUP_TIMEOUT_NS) then
    let setup_header : SetupHeader :=
      { frame_header :=
          { frame_length := SIZEOF_SETUP_HEADER
            version := c.AERON_FRAME_HEADER_VERSION
            flags := 0
            type := HdrType.SETUP }
        term_offset := term_offset
        session_id := publication.session_id
        stream_id := publication.stream_id
        initial_term_id := publication.initial_term_id
        active_term_id := active_term_id
        term_length := wrap32 (publication.term_length_mask + 1)
        mtu := wrap32 publication.mtu_length
        ttl := publication.multicast_ttl }
    let result := e.sendmsg_setup setup_header
    let p1 : Publication :=
      if result ≠ SIZEOF_SETUP_HEADER ∧ result ≥ 0 then
        { publication with short_sends_counter := wrap64 (publication.short_sends_counter + 1) }
      else publication
    let p2 : Publication :=
      { p1 with time_of_last_setup_ns := now_ns, time_of_last_send_or_heartbeat_ns := now_ns }
    let p3 : Publication :=
      if p2.is_connected then { p2 with should_send_setup_frame := false } else p2
    { pub := p3, events := [Event.sendmsg_setup setup_header], result := result }
  else
    { pub := publication, events := [], result := 0 }

/-- The function `aeron_network_publication_heartbeat_message_check`. -/
def aeron_network_publication_heartbeat_message_check (c : Constants) (e : Env)
    (publication : Publication) (now_ns active_term_id term_offset : Int) : Outcome :=
  if now_ns > wrap64 (publication.time_of_last_send_or_heartbeat_ns +
      c.AERON_NETWORK_PUBLICATION_HEARTBEAT_TIMEOUT_NS) then
    let flags :=
      if publication.is_complete then
        AERON_DATA_HEADER_BEGIN_FLAG ||| AERON_DATA_HEADER_END_FLAG ||| AERON_DATA_HEADER_EOS_FLAG
      else
        AERON_DATA_HEADER_BEGIN_FLAG ||| AERON_DATA_HEADER_END_FLAG
    let data_header : DataHeader :=
      { frame_header :=
          { frame_length := 0
            version := c.AERON_FRAME_HEADER_VERSION
            flags := flags
            type := HdrType.DATA }
        term_offset := term_offset
        session_id := publication.session_id
        stream_id := publication.stream_id
        term_id := active_term_id
        reserved_value := 0 }
    let bytes_sent := e.sendmsg_data_header data_header
    let p1 : Publication :=
      if bytes_sent ≠ SIZEOF_DATA_HEADER ∧ bytes_sent ≥ 0 then
        { publication with short_sends_counter := wrap64 (publication.short_sends_counter + 1) }
      else publication
    let p2 : Publication :=
      { p1 with
        heartbeats_sent_counter := wrap64 (p1.heartbeats_sent_counter + 1)
        time_of_last_send_or_heartbeat_ns := now_ns }
    { pub := p2, events := [Event.sendmsg_data_header data_header], result := bytes_sent }
  else
    { pub := publication, events := [], result := 0 }

/-! ## Sending data -/

/-- One iteration of the scan loop of `aeron_network_publication_send_data`:
the locals `available_window` and `term_offset` when the term scanner is
called, the arguments `term_length_left` and `scan_limit` of the call, and
the `available` and `padding` it returned. -/
structure ScanCall where
  available_window : Int
  term_offset : Int
  term_length_left : Nat
  scan_limit : Nat
  available : Nat
  padding : Nat
deriving DecidableEq

/-- The locals of the scan loop of `aeron_network_publication_send_data`;
`iov` holds `iov[0]` to `iov[vlen - 1]`, `scans` the calls of the scanner made
so far. -/
structure SendDataLoop where
  available_window : Int
  term_offset : Int
  highest_pos : Int
  bytes_sent : Int
  iov : List Iovec
  scans : List ScanCall
deriving DecidableEq

/-- The call of the term scanner in the body of the scan loop of
`aeron_network_publication_send_data`, made with the locals `s`. -/
def send_data_scan (c : Constants) (e : Env) (publication : Publication) (snd_pos : Int)
    (term_length : Nat) (s : SendDataLoop) : ScanCall :=
  let scan_limit : Nat :=
    if toSize s.available_window < publication.mtu_length then toSize s.available_window
    else publication.mtu_length
  let active_index :=
    aeron_logbuffer_index_by_position c snd_pos publication.position_bits_to_shift
  let term_length_left : Nat := (term_length + SIZE_MOD - toSize s.term_offset) % SIZE_MOD
  let r := e.scan active_index s.term_offset term_length_left scan_limit
  { available_window := s.available_window
    term_offset := s.term_offset
    term_length_left := term_length_left
    scan_limit := scan_limit
    available := r.1
    padding := r.2 }

/-- The block `if (available > 0) { ... }` of the scan loop of
`aeron_network_publication_send_data`, after the scanner call `call`. -/
def send_data_collect (active_index : Nat) (s : SendDataLoop) (call : ScanCall) : SendDataLoop :=
  if call.available > 0 then
    { available_window :=
        wrap32 (s.available_window - ((call.available + call.padding) % SIZE_MOD : Nat))
      term_offset := wrap32 (s.term_offset + ((call.available + call.padding) % SIZE_MOD : Nat))
      highest_pos := wrap64 (s.highest_pos + ((call.available + call.padding) % SIZE_MOD : Nat))
      bytes_sent := wrap32 (s.bytes_sent + call.available)
      iov := s.iov ++ [{ index := active_index, offset := s.term_offset, len := call.available }]
      scans := s.scans ++ [call] }
  else
    { s with scans := s.scans ++ [call] }

/-- The scan loop of `aeron_network_publication_send_data`; the first argument
counts the iterations left before `i` reaches
`AERON_NETWORK_PUBLICATION_MAX_MESSAGES_PER_SEND`. -/
def send_data_loop (c : Constants) (e : Env) (publication : Publication) (snd_pos : Int)
    (term_length : Nat) : Nat → SendDataLoop → SendDataLoop
  | 0, s => s
  | n + 1, s =>
    if s.available_window > 0 then
      let call := send_data_scan c e publication snd_pos term_length s
      let s1 :=
        send_data_collect
          (aeron_logbuffer_index_by_position c snd_pos publication.position_bits_to_shift) s call
      if call.available = 0 ∨ term_length = toSize s1.term_offset then s1
      else send_data_loop c e publication snd_pos term_length n s1
    else s

/-- The outcome of `aeron_network_publication_send_data`, with the calls of the
term scanner it made. -/
structure SendData where
  pub : Publication
  events : List Event
  result : Int
  scans : List ScanCall

/-- The locals of `aeron_network_publication_send_data` when its scan loop is
left. -/
def send_data_scanned (c : Constants) (e : Env) (publication : Publication)
    (snd_pos term_offset : Int) : SendDataLoop :=
  let term_length : Nat := (toSize publication.term_length_mask + 1) % SIZE_MOD
  let available_window : Int := wrap32 (wrap64 (publication.snd_lmt_position.value - snd_pos))
  send_data_loop c e publication snd_pos term_length
    c.AERON_NETWORK_PUBLICATION_MAX_MESSAGES_PER_SEND
    { available_window := available_window
      term_offset := term_offset
      highest_pos := snd_pos
      bytes_sent := 0
      iov := []
      scans := [] }

/-- The function `aeron_network_publication_send_data`. -/
def aeron_network_publication_send_data (c : Constants) (e : Env) (publication : Publication)
    (now_ns snd_pos term_offset : Int) : SendData :=
  let s := send_data_scanned c e publication snd_pos term_offset
  let vlen : Nat := s.iov.length
  let result : Int := if vlen > 0 then e.sendmmsg s.iov else 0
  let p1 : Publication :=
    if vlen > 0 then
      let p0 : Publication :=
        if result ≠ vlen ∧ result ≥ 0 then
          { publication with short_sends_counter := wrap64 (publication.short_sends_counter + 1) }
        else publication
      { p0 with
        time_of_last_send_or_heartbeat_ns := now_ns
        track_sender_limits := true
        snd_pos_position := { p0.snd_pos_position with value := s.highest_pos } }
    else publication
  let p2 : Publication :=
    if s.available_window ≤ 0 then
      { p1 with
        sender_flow_control_limits_counter := wrap64 (p1.sender_flow_control_limits_counter + 1)
        track_sender_limits := false }
    else p1
  { pub := p2
    events := if vlen > 0 then [Event.sendmmsg s.iov] else []
    result := if result < 0 then result else s.bytes_sent
    scans := s.scans }

/-- The term id that `aeron_network_publication_send` derives from the sender
position. -/
def send_active_term_id (publication : Publication) : Int :=
  aeron_logbuffer_compute_term_id_from_position
    publication.snd_pos_position.value publication.position_bits_to_shift
    publication.initial_term_id

/-- The term offset that `aeron_network_publication_send` derives from the
sender position: `(int32_t)snd_pos & publication->term_length_mask`. -/
def send_term_offset (publication : Publication) : Int :=
  Int.land (wrap32 publication.snd_pos_position.value) publication.term_length_mask

/-- The first statement of `aeron_network_publication_send` after the locals:
the setup check, made when `should_send_setup_frame` is set. -/
def send_setup (c : Constants) (e : Env) (publication : Publication) (now_ns : Int) : Outcome :=
  if publication.should_send_setup_frame then
    aeron_network_publication_setup_message_check c e publication now_ns
      (send_active_term_id publication) (send_term_offset publication)
  else { pub := publication, events := [], result := 0 }

/-- The call of `aeron_network_publication_send_data` that
`aeron_network_publication_send` makes when the setup check has not failed. -/
def send_send_data (c : Constants) (e : Env) (publication : Publication) (now_ns : Int) :
    SendData :=
  aeron_network_publication_send_data c e (send_setup c e publication now_ns).pub now_ns
    publication.snd_pos_position.value (send_term_offset publication)

/-- The function `aeron_network_publication_send`. -/
def aeron_network_publication_send (c : Constants) (e : Env) (publication : Publication)
    (now_ns : Int) : Outcome :=
  let active_term_id := send_active_term_id publication
  let term_offset := send_term_offset publication
  let setup := send_setup c e publication now_ns
  if setup.result < 0 then
    { pub := setup.pub, events := setup.events, result := -1 }
  else
    let data := send_send_data c e publication now_ns
    if data.result < 0 then
      { pub := data.pub, events := setup.events ++ data.events, result := -1 }
    else if data.result = 0 then
      let hb :=
        aeron_network_publication_heartbeat_message_check
          c e data.pub now_ns active_term_id term_offset
      if hb.result < 0 then
        { pub := hb.pub, events := setup.events ++ data.events ++ hb.events, result := -1 }
      else
        let snd_lmt := hb.pub.snd_lmt_position.value
        let flow_control_position := e.on_idle now_ns snd_lmt
        let p : Publication :=
          { hb.pub with
            snd_lmt_position := { hb.pub.snd_lmt_position with value := flow_control_position } }
        { pub := p
          events := setup.events ++ data.events ++ hb.events ++
            [Event.flow_control_on_idle now_ns snd_lmt, Event.process_timeouts now_ns]
          result := hb.result }
    else
      { pub := data.pub
        events := setup.events ++ data.events ++ [Event.process_timeouts now_ns]
        result := data.result }

/-! ## Retransmission -/

/-- The outcome of `aeron_network_publication_resend`; `finished` is false when
the loop was still running after the number of iterations it was given. -/
structure ResendOutcome where
  pub : Publication
  events : List Event
  result : Int
  finished : Bool

/-- The `do ... while (remaining_bytes > 0)` loop of
`aeron_network_publication_resend`, for at most the given number of
iterations, from the values of `bytes_sent`, `offset` and `remaining_bytes`
at the top of the loop body. -/
def resend_loop (e : Env) (publication : Publication) (index term_length : Nat) :
    Nat → Int → Int → Nat → List Event → ResendOutcome
  | 0, _, _, _, events =>
    { pub := publication, events := events, result := 0, finished := false }
  | n + 1, bytes_sent, offset, remaining_bytes, events =>
    let offset1 : Int := wrap32 (offset + bytes_sent)
    let term_length_left : Nat := (term_length + SIZE_MOD - toSize offset1) % SIZE_MOD
    let r := e.scan index offset1 term_length_left publication.mtu_length
    let available : Nat := r.1
    let padding : Nat := r.2
    if available ≤ 0 then
      { pub := publication, events := events, result := 0, finished := true }
    else
      let iov : Iovec := { index := index, offset := offset1, len := available }
      let sendmsg_result := e.sendmsg_iov iov
      let events1 := events ++ [Event.sendmsg_iov iov]
      if sendmsg_result ≠ wrap32 available then
        if sendmsg_result ≥ 0 then
          { pub :=
              { publication with
                short_sends_counter := wrap64 (publication.short_sends_counter + 1) }
            events := events1, result := 0, finished := true }
        else
          { pub := publication, events := events1, result := -1, finished := true }
      else
        let bytes_sent1 : Int := wrap32 ((available + padding) % SIZE_MOD : Nat)
        let remaining_bytes1 : Nat := toSize (remaining_bytes - bytes_sent1)
        if remaining_bytes1 > 0 then
          resend_loop e publication index term_length n bytes_sent1 offset1 remaining_bytes1 events1
        else
          { pub := publication, events := events1, result := 0, finished := true }

/-- The function `aeron_network_publication_resend`; `fuel` bounds the number
of iterations of its loop. -/
def aeron_network_publication_resend (c : Constants) (e : Env) (publication : Publication)
    (fuel : Nat) (term_id term_offset : Int) (length : Nat) : ResendOutcome :=
  let sender_position := publication.snd_pos_position.value
  let resend_position :=
    aeron_logbuffer_compute_position
      term_id term_offset publication.position_bits_to_shift publication.initial_term_id
  let term_length : Nat := toSize (wrap32 (publication.term_length_mask + 1))
  if resend_position < sender_position ∧
      resend_position ≥ wrap64 (sender_position - wrap32 term_length) then
    let index :=
      aeron_logbuffer_index_by_position c resend_position publication.position_bits_to_shift
    let l := resend_loop e publication index term_length fuel 0 term_offset length []
    if l.finished then
      { l with
        pub :=
          { l.pub with retransmits_sent_counter := wrap64 (l.pub.retransmits_sent_counter + 1) } }
    else l
  else
    { pub := publication, events := [], result := 0, finished := true }

/-- The function `aeron_network_publication_on_nak`. -/
def aeron_network_publication_on_nak (e : Env) (publication : Publication)
    (term_id term_offset length : Int) : Effect :=
  { pub := publication
    events :=
      [Event.retransmit_on_nak term_id term_offset (toSize length)
        (toSize (wrap32 (publication.term_length_mask + 1))) e.nano_clock] }

/-! ## Status messages and round-trip measurement -/

/-- The function `aeron_network_publication_on_status_message`; `buffer`,
`length` and `addr` are handed to the flow control strategy as they are. -/
def aeron_network_publication_on_status_message (e : Env) (publication : Publication)
    (buffer : List Nat) (length addr : Nat) : Effect :=
  let p1 : Publication := { publication with time_of_last_status_message := e.epoch_clock }
  let p2 : Publication := if ¬ p1.is_connected then { p1 with is_connected := true } else p1
  let snd_lmt := p2.snd_lmt_position.value
  let p3 : Publication :=
    { p2 with
      snd_lmt_position :=
        { p2.snd_lmt_position with
          value :=
            e.on_status_message buffer length addr snd_lmt p2.initial_term_id
              p2.position_bits_to_shift e.nano_clock } }
  { pub := p3
    events :=
      [Event.flow_control_on_status_message buffer length addr snd_lmt p2.initial_term_id
        p2.position_bits_to_shift e.nano_clock] }

/-- The function `aeron_network_publication_on_rttm`; `rttm_in_header` is the
header that `buffer` holds. -/
def aeron_network_publication_on_rttm (c : Constants) (e : Env) (publication : Publication)
    (rttm_in_header : RttmHeader) : Effect :=
  if rttm_in_header.frame_header.flags &&& AERON_RTTM_HEADER_REPLY_FLAG ≠ 0 then
    let rttm_out_header : RttmHeader :=
      { frame_header :=
          { frame_length := SIZEOF_RTTM_HEADER
            version := c.AERON_FRAME_HEADER_VERSION
            flags := 0
            type := HdrType.RTTM }
        session_id := publication.session_id
        stream_id := publication.stream_id
        echo_timestamp := rttm_in_header.echo_timestamp
        reception_delta := 0
        receiver_id := rttm_in_header.receiver_id }
    let result := e.sendmsg_rttm rttm_out_header
    let p1 : Publication :=
      if result ≠ SIZEOF_RTTM_HEADER ∧ result ≥ 0 then
        { publication with short_sends_counter := wrap64 (publication.short_sends_counter + 1) }
      else publication
    { pub := p1, events := [Event.sendmsg_rttm rttm_out_header] }
  else
    { pub := publication, events := [] }

/-! ## Publisher limit and cleaning -/

/-- The function `aeron_network_publication_clean_buffer`. -/
def aeron_network_publication_clean_buffer (c : Constants) (publication : Publication)
    (pub_lmt : Int) : Effect :=
  let clean_position := publication.clean_position
  let dirty_range : Int := wrap64 (pub_lmt - clean_position)
  let buffer_capacity : Int := wrap32 (publication.term_length_mask + 1)
  let reserved_range : Int := wrap32 (buffer_capacity * 2)
  if dirty_range > reserved_range then
    let dirty_index :=
      aeron_logbuffer_index_by_position c clean_position publication.position_bits_to_shift
    let term_offset : Int := wrap32 (Int.land clean_position publication.term_length_mask)
    let bytes_left_in_term : Int := wrap32 (buffer_capacity - term_offset)
    let bytes_for_cleaning : Int := wrap32 (wrap64 (dirty_range - reserved_range))
    let length : Int :=
      if bytes_for_cleaning < bytes_left_in_term then bytes_for_cleaning else bytes_left_in_term
    { pub := { publication with clean_position := wrap64 (clean_position + length) }
      events := [Event.memset dirty_index term_offset (toSize length)] }
  else
    { pub := publication, events := [] }

/-- The function `aeron_network_publication_update_pub_lmt`.
Modelled from the spec: `aeron_counter_propose_max_ordered`, of a header that
is not among the sources, stores the proposed value and returns true when it
is greater than the value of the counter, and only then. -/
def aeron_network_publication_update_pub_lmt (c : Constants) (publication : Publication) :
    Outcome :=
  let snd_pos := publication.snd_pos_position.value
  if publication.is_connected then
    let min_consumer_position : Int :=
      publication.subscribeable.foldl
        (fun min_consumer_position position =>
          if position.value < min_consumer_position then position.value
          else min_consumer_position)
        snd_pos
    let proposed_pub_lmt : Int := wrap64 (min_consumer_position + publication.term_window_length)
    if publication.pub_lmt_position.value < proposed_pub_lmt then
      let p1 : Publication :=
        { publication with
          pub_lmt_position := { publication.pub_lmt_position with value := proposed_pub_lmt } }
      let cleaned := aeron_network_publication_clean_buffer c p1 proposed_pub_lmt
      { pub := cleaned.pub, events := cleaned.events, result := 1 }
    else
      { pub := publication, events := [], result := 0 }
  else if publication.pub_lmt_position.value > snd_pos then
    { pub :=
        { publication with
          pub_lmt_position := { publication.pub_lmt_position with value := snd_pos } }
      events := [], result := 0 }
  else
    { pub := publication, events := [], result := 0 }

/-! ## Life cycle -/

/-- The function `aeron_network_publication_incref`. -/
def aeron_network_publication_incref (publication : Publication) : Publication :=
  { publication with refcnt := wrap32 (publication.refcnt + 1) }

/-- The function `aeron_network_publication_decref`. -/
def aeron_network_publication_decref (e : Env) (publication : Publication) : Publication :=
  let ref_count : Int := wrap32 (publication.refcnt - 1)
  let p1 : Publication := { publication with refcnt := ref_count }
  if 0 = ref_count then
    { p1 with status := Status.DRAINING, time_of_last_status_change := e.nano_clock }
  else p1

/-- The function `aeron_network_publication_spies_not_behind_sender`, with the
value it returns. -/
def aeron_network_publication_spies_not_behind_sender (publication : Publication)
    (snd_pos : Int) : Effect × Bool :=
  if publication.subscribeable.length > 0 then
    if publication.subscribeable.any (fun position => position.value < snd_pos) then
      ({ pub := publication, events := [] }, false)
    else
      ({ pub := { publication with subscribeable := [], subscribeable_capacity := 0 }
         events :=
           Event.cleanup_spies ::
             publication.subscribeable.map
               (fun position => Event.counters_manager_free (wrap32 position.counter_id)) },
        true)
  else
    ({ pub := publication, events := [] }, true)

/-- The function `aeron_network_publication_on_time_event`;
`aeron_network_publication_check_for_blocked_publisher` has an empty body. -/
def aeron_network_publication_on_time_event (c : Constants) (publication : Publication)
    (now_ns now_ms : Int) : Effect :=
  match publication.status with
  | Status.ACTIVE =>
    if publication.is_connected then
      if now_ms > wrap64 (publication.time_of_last_status_message +
          c.AERON_NETWORK_PUBLICATION_CONNECTION_TIMEOUT_MS) then
        { pub := { publication with is_connected := false }, events := [] }
      else { pub := publication, events := [] }
    else { pub := publication, events := [] }
  | Status.DRAINING =>
    let snd_pos := publication.snd_pos_position.value
    if snd_pos = publication.last_snd_pos then
      let spies := aeron_network_publication_spies_not_behind_sender publication snd_pos
      if spies.2 then
        { pub :=
            { spies.1.pub with
              is_complete := true
              time_of_last_activity_ns := now_ns
              status := Status.LINGER }
          events := spies.1.events }
      else spies.1
    else
      { pub := { publication with last_snd_pos := snd_pos, time_of_last_activity_ns := now_ns }
        events := [] }
  | Status.LINGER =>
    if now_ns > wrap64 (publication.time_of_last_activity_ns + publication.linger_timeout_ns) then
      { pub := { publication with status := Status.CLOSING }
        events := [Event.cleanup_network_publication] }
    else { pub := publication, events := [] }
  | Status.CLOSING => { pub := publication, events := [] }

/-! ## Creation -/

/-- Modelled from the spec: `aeron_number_of_trailing_zeroes`, of a header that
is not among the sources, on the 32 bits of its argument: the exponent `k` of
a term length `2 ^ k` (`position_bits_to_shift` is `log2(term_length)`), and
32 for the value 0. -/
def aeron_number_of_trailing_zeroes (value : Int) : Nat :=
  let bits : Nat := toSize value % 4294967296
  if bits = 0 then 32
  else ((List.range 32).filter (fun k => bits % 2 ^ (k + 1) ≠ 0)).headD 32

/-- What `aeron_network_publication_create` is given besides the ids: the
fields of the driver context and of the endpoint it reads, the counters, and
the answers of the functions it calls (`compute_log_length` stands for the
macro `AERON_LOGBUFFER_COMPUTE_LOG_LENGTH`, `term_window_length` for
`aeron_network_publication_term_window_length`, both of headers that are not
among the sources). -/
structure CreateArgs where
  usable_fs_space : Nat
  compute_log_length : Nat → Nat
  term_window_length : Nat → Nat
  publication_linger_timeout_ns : Nat
  multicast_ttl : Int
  alloc_publication : Bool
  alloc_log_file_name : Bool
  retransmit_handler_init : Bool
  map_raw_log : Bool
  registration_id : Int
  session_id : Int
  stream_id : Int
  initial_term_id : Int
  mtu_length : Nat
  pub_lmt_position : Position
  snd_pos_position : Position
  snd_lmt_position : Position
  term_buffer_length : Nat
  is_exclusive : Bool
  short_sends_counter : Int
  heartbeats_sent_counter : Int
  sender_flow_control_limits_counter : Int
  retransmits_sent_counter : Int

/-- The errors `aeron_network_publication_create` sets before returning -1. -/
inductive CreateError where
  | ENOSPC
  | ENOMEM
  | retransmit_handler_init
  | map_raw_log
deriving DecidableEq

/-- The function `aeron_network_publication_create`: the publication it
stores, or the error it sets. -/
def aeron_network_publication_create (c : Constants) (e : Env) (a : CreateArgs) :
    Except CreateError Publication :=
  let log_length := a.compute_log_length a.term_buffer_length
  let now_ns := e.nano_clock
  if a.usable_fs_space < log_length then Except.error CreateError.ENOSPC
  else if ¬ a.alloc_publication then Except.error CreateError.ENOMEM
  else if ¬ a.alloc_log_file_name then Except.error CreateError.ENOMEM
  else if ¬ a.retransmit_handler_init then Except.error CreateError.retransmit_handler_init
  else if ¬ a.map_raw_log then Except.error CreateError.map_raw_log
  else
    Except.ok
      { subscribeable := []
        subscribeable_capacity := 0
        registration_id := a.registration_id
        time_of_last_status_change := 0
        has_reached_end_of_life := false
        clean_position := 0
        status := Status.ACTIVE
        refcnt := 1
        time_of_last_activity_ns := 0
        last_snd_pos := 0
        time_of_last_status_message := 0
        session_id := a.session_id
        stream_id := a.stream_id
        initial_term_id := a.initial_term_id
        term_length_mask := wrap32 (wrap32 a.term_buffer_length - 1)
        position_bits_to_shift := aeron_number_of_trailing_zeroes (wrap32 a.term_buffer_length)
        mtu_length := a.mtu_length
        term_window_length := wrap64 (a.term_window_length a.term_buffer_length)
        linger_timeout_ns := wrap64 a.publication_linger_timeout_ns
        time_of_last_send_or_heartbeat_ns :=
          wrap64 (wrap64 (now_ns - c.AERON_NETWORK_PUBLICATION_HEARTBEAT_TIMEOUT_NS) - 1)
        time_of_last_setup_ns :=
          wrap64 (wrap64 (now_ns - c.AERON_NETWORK_PUBLICATION_SETUP_TIMEOUT_NS) - 1)
        is_exclusive := a.is_exclusive
        should_send_setup_frame := true
        is_connected := false
        is_complete := false
        track_sender_limits := true
        has_sender_released := false
        pub_lmt_position := a.pub_lmt_position
        snd_pos_position := a.snd_pos_position
        snd_lmt_position := a.snd_lmt_position
        multicast_ttl := a.multicast_ttl
        short_sends_counter := a.short_sends_counter
        heartbeats_sent_counter := a.heartbeats_sent_counter
        sender_flow_control_limits_counter := a.sender_flow_control_limits_counter
        retransmits_sent_counter := a.retransmits_sent_counter }

/-! ## Network utilities -/

/-- The value of `EINVAL` in `errno.h`. -/
def EINVAL : Int := 22

/-- The value of `ERANGE` in `errno.h`. -/
def ERANGE : Int := 34

/-- The greatest `unsigned long`, 64 bits wide. -/
def ULONG_MAX : Nat := 18446744073709551615

/-- The greatest `uint16_t`. -/
def UINT16_MAX : Nat := 65535

/-- The code of the first character of a C string; 0, the terminator, for the
empty string. -/
def head_code : List Char → Nat
  | [] => 0
  | ch :: _ => ch.toNat

/-- The function `isspace` of the C library in the C locale: space, and the
characters from tab (9) to carriage return (13). -/
def isspace (ch : Char) : Bool := ch.toNat = 32 ∨ (9 ≤ ch.toNat ∧ ch.toNat ≤ 13)

/-- The value of a character as a digit for `strtoul`: `0` to `9`, then the
letters, in either case, from 10 on. -/
def strtoul_digit (code : Nat) : Option Nat :=
  if 48 ≤ code ∧ code ≤ 57 then some (code - 48)
  else if 97 ≤ code ∧ code ≤ 122 then some (code - 97 + 10)
  else if 65 ≤ code ∧ code ≤ 90 then some (code - 65 + 10)
  else none

/-- The digits of `base` at the head of a string, read by `strtoul`: the value
accumulated, without bound, and the number of digits read. -/
def strtoul_scan (base : Nat) : List Char → Nat → Nat → Nat × Nat
  | [], value, count => (value, count)
  | ch :: rest, value, count =>
    match strtoul_digit ch.toNat with
    | some digit =>
      if digit < base then strtoul_scan base rest (value * base + digit) (count + 1)
      else (value, count)
    | none => (value, count)

/-- What a call of `strtoul` leaves: the value it returns and `errno`. -/
structure Strtoul where
  value : Nat
  errno : Int
deriving DecidableEq

/-- The sign that `strtoul` accepts before the digits: whether it is `-`, and
the string after it. -/
def strtoul_sign (str : List Char) : Bool × List Char :=
  if head_code str = 45 then (true, str.tail)
  else if head_code str = 43 then (false, str.tail)
  else (false, str)

/-- The base that `strtoul` called with base 0 reads the digits in, and the
string the digits start at: 16 after `0x` or `0X` followed by a hexadecimal
digit, 8 for a string that starts with `0`, and 10 otherwise. -/
def strtoul_base (str : List Char) : Nat × List Char :=
  if head_code str = 48 ∧ (head_code str.tail = 120 ∨ head_code str.tail = 88) ∧
      (strtoul_digit (head_code str.tail.tail)).any (fun digit => digit < 16) = true then
    (16, str.tail.tail)
  else if head_code str = 48 then (8, str)
  else (10, str)

/-- The call `strtoul(str, NULL, 0)` of the C library, as the C standard
describes it: white space is skipped, a sign is accepted, the base is 16, 8
or 10 by the prefix, and the digits of the base that follow are converted; a
value beyond `ULONG_MAX` gives `ULONG_MAX` with `errno` set to `ERANGE`, and a
negative sign negates the value as an `unsigned long`. `errno` is the value
before the call, which the function leaves when it converts a value in range;
when there is no digit to convert the value is 0 and `errno` is set to
`EINVAL` by the libraries for which `einval_without_digits` holds and left by
the others. -/
def strtoul (einval_without_digits : Bool) (errno : Int) (str : List Char) : Strtoul :=
  let signed := strtoul_sign (str.dropWhile isspace)
  let based := strtoul_base signed.2
  let scanned := strtoul_scan based.1 based.2 0 0
  if scanned.2 = 0 then
    { value := 0, errno := if einval_without_digits then EINVAL else errno }
  else if scanned.1 > ULONG_MAX then { value := ULONG_MAX, errno := ERANGE }
  else
    { value := if signed.1 then (ULONG_MAX + 1 - scanned.1) % (ULONG_MAX + 1) else scanned.1
      errno := errno }

/-- The function `aeron_udp_port_resolver`, called with `errno` at the given
value; the calls of `aeron_set_err` are left out. -/
def aeron_udp_port_resolver (einval_without_digits : Bool) (errno : Int)
    (port_str : List Char) : Int :=
  let port_str := if head_code port_str = 58 then port_str.tail else port_str
  let r := strtoul einval_without_digits errno port_str
  if 0 = r.value ∧ EINVAL = r.errno then -1
  else if r.value ≥ UINT16_MAX then -1
  else wrap32 r.value

/-- The eight bytes of a `uint64_t` in memory on a little-endian host, the
least significant first. -/
def bytes_of_uint64 (x : Nat) : List Nat :=
  (List.range 8).map (fun i => (x >>> (8 * i)) % 256)

/-- The `uint64_t` that a little-endian host reads from eight bytes. -/
def uint64_of_bytes (bytes : List Nat) : Nat :=
  bytes.foldr (fun byte value => byte + 256 * value) 0

/-- The builtin `__builtin_bswap64` of the compiler: the value whose bytes are
those of the argument in reverse order. -/
def bswap64 (x : Nat) : Nat := uint64_of_bytes (bytes_of_uint64 x).reverse

/-- The function `aeron_ipv6_netmask_from_prefixlen` on a little-endian host:
the 16 bytes copied to `addr`, in memory order. `q[0]` is the low half of the
128-bit `value` of the union and `q[1]` the high half; the second assignment
reads the `q[1]` that the first one has written. There is no result for a
`prefixlen` above 128, where the shift count is out of range. -/
def aeron_ipv6_netmask_from_prefixlen (prefixlen : Nat) : Option (List Nat) :=
  if prefixlen > 128 then none
  else
    let value : Nat :=
      if 0 = prefixlen then 0
      else
        2 ^ 128 - 1 - ((1 <<< (128 - prefixlen)) % 2 ^ 128 + 2 ^ 128 - 1) % 2 ^ 128
    let q0 : Nat := value % 2 ^ 64
    let q1 : Nat := bswap64 q0
    let q0 : Nat := bswap64 q1
    some (bytes_of_uint64 q0 ++ bytes_of_uint64 q1)

/-! ## Notions used by the statements -/

/-- The ranges collected by the scan loop: the scanner calls that returned
`available > 0`. -/
def collected (scans : List ScanCall) : List ScanCall :=
  scans.filter (fun call => 0 < call.available)

/-- The sum of `available + padding` over the collected ranges. -/
def advance (scans : List ScanCall) : Nat :=
  ((collected scans).map (fun call => call.available + call.padding)).sum

/-- The datagram that the scan loop appends for a collected range. -/
def iovec_of (active_index : Nat) (call : ScanCall) : Iovec :=
  { index := active_index, offset := call.term_offset, len := call.available }

/-- The list `calls` holds the scanner calls that the scan loop makes from the
locals `s`, one after the other: each is made with a positive window, and each
that is followed by another returned `available > 0` and left the term offset
short of `term_length`. -/
def ScanTrace (c : Constants) (e : Env) (publication : Publication) (snd_pos : Int)
    (term_length : Nat) : SendDataLoop → List ScanCall → Prop
  | _, [] => True
  | s, call :: rest =>
    0 < s.available_window ∧
    call = send_data_scan c e publication snd_pos term_length s ∧
    (rest ≠ [] →
      0 < call.available ∧
      term_length ≠ toSize (send_data_collect
        (aeron_logbuffer_index_by_position c snd_pos publication.position_bits_to_shift)
        s call).term_offset) ∧
    ScanTrace c e publication snd_pos term_length
      (send_data_collect
        (aeron_logbuffer_index_by_position c snd_pos publication.position_bits_to_shift)
        s call) rest

/-- The SETUP frames among the calls made to the endpoint. -/
def setups : List Event → List SetupHeader
  | [] => []
  | Event.sendmsg_setup frame :: rest => frame :: setups rest
  | _ :: rest => setups rest

/-- The heartbeat frames (data headers sent on their own) among the calls made
to the endpoint. -/
def heartbeats : List Event → List DataHeader
  | [] => []
  | Event.sendmsg_data_header frame :: rest => frame :: heartbeats rest
  | _ :: rest => heartbeats rest

/-- The batches of datagrams handed to `aeron_send_channel_sendmmsg`. -/
def batches : List Event → List (List Iovec)
  | [] => []
  | Event.sendmmsg iovs :: rest => iovs :: batches rest
  | _ :: rest => batches rest

/-- The calls of `on_idle` of the flow control strategy. -/
def idles : List Event → List (Int × Int)
  | [] => []
  | Event.flow_control_on_idle now_ns snd_lmt :: rest => (now_ns, snd_lmt) :: idles rest
  | _ :: rest => idles rest

/-- The calls of `aeron_retransmit_handler_process_timeouts`: their `now_ns`. -/
def timeouts : List Event → List Int
  | [] => []
  | Event.process_timeouts now_ns :: rest => now_ns :: timeouts rest
  | _ :: rest => timeouts rest

/-- The datagrams handed one by one to `aeron_send_channel_sendmsg` by a
retransmission. -/
def datagrams : List Event → List Iovec
  | [] => []
  | Event.sendmsg_iov iov :: rest => iov :: datagrams rest
  | _ :: rest => datagrams rest

/-- The sum of `available` over the collected ranges. -/
def available_total (scans : List ScanCall) : Nat :=
  ((collected scans).map (fun call => call.available)).sum

/-- The value the endpoint returns for a transmission; 0 for a call that is not
a transmission. -/
def endpoint_answer (e : Env) : Event → Int
  | Event.sendmsg_setup frame => e.sendmsg_setup frame
  | Event.sendmsg_data_header frame => e.sendmsg_data_header frame
  | Event.sendmsg_rttm frame => e.sendmsg_rttm frame
  | Event.sendmsg_iov iov => e.sendmsg_iov iov
  | Event.sendmmsg iovs => e.sendmmsg iovs
  | _ => 0

/-- Repeated calls of `aeron_network_publication_clean_buffer` with the same
`pub_lmt`: the publication after the given number of calls and the calls of
`memset` made by all of them, in order. -/
def clean_buffer_calls (c : Constants) (pub_lmt : Int) : Nat → Publication → Effect
  | 0, publication => { pub := publication, events := [] }
  | n + 1, publication =>
    let o := aeron_network_publication_clean_buffer c publication pub_lmt
    let r := clean_buffer_calls c pub_lmt n o.pub
    { pub := r.pub, events := o.events ++ r.events }

/-- The call is a `memset` whose span holds the byte at `offset` of the term
buffer `index`. -/
def memset_covers (event : Event) (index : Nat) (offset : Int) : Bool :=
  match event with
  | Event.memset i o length => decide (i = index ∧ o ≤ offset ∧ offset < o + length)
  | _ => false

/-- The byte at `offset` of the term buffer `index` is zeroed by one of the
calls. -/
def zeroed (events : List Event) (index : Nat) (offset : Int) : Prop :=
  ∃ event ∈ events, memset_covers event index offset = true

instance (events : List Event) (index : Nat) (offset : Int) :
    Decidable (zeroed events index offset) := by
  unfold zeroed
  exact inferInstance

/-- The minimum of the sender position and the positions of the spies, as
`aeron_network_publication_update_pub_lmt` computes it. -/
def min_consumer_position (publication : Publication) : Int :=
  publication.subscribeable.foldl
    (fun min_consumer_position position =>
      if position.value < min_consumer_position then position.value
      else min_consumer_position)
    publication.snd_pos_position.value

/-- A call made on a publication by the sender or by the conductor, with what
the collaborators answer during it. -/
inductive Call where
  | send (e : Env) (now_ns : Int)
  | on_status_message (e : Env) (buffer : List Nat) (length addr : Nat)
  | update_pub_lmt
  | on_time_event (now_ns now_ms : Int)

/-- The publication after a call. -/
def after_call (c : Constants) (publication : Publication) : Call → Publication
  | Call.send e now_ns => (aeron_network_publication_send c e publication now_ns).pub
  | Call.on_status_message e buffer length addr =>
    (aeron_network_publication_on_status_message e publication buffer length addr).pub
  | Call.update_pub_lmt => (aeron_network_publication_update_pub_lmt c publication).pub
  | Call.on_time_event now_ns now_ms =>
    (aeron_network_publication_on_time_event c publication now_ns now_ms).pub

/-- The publication after a sequence of calls, made one after the other. -/
def after_calls (c : Constants) : Publication → List Call → Publication
  | publication, [] => publication
  | publication, call :: rest => after_calls c (after_call c publication call) rest

/-- The arithmetic of a call stays within the machine integers: a send tick
does not take the sender position beyond 64 bits, and an update of the
publisher limit proposes a 64-bit value that is less than `2^31` bytes beyond
the reserved range above the clean position. -/
def CallInRange (c : Constants) (publication : Publication) : Call → Prop
  | Call.send e now_ns =>
    InRange64 (publication.snd_pos_position.value +
      advance (send_send_data c e publication now_ns).scans)
  | Call.update_pub_lmt =>
    InRange64 (min_consumer_position publication + publication.term_window_length) ∧
    min_consumer_position publication + publication.term_window_length -
      publication.clean_position - 2 * (publication.term_length_mask + 1) < 2147483648
  | _ => True

/-- The arithmetic of every call of a sequence stays within the machine
integers, each call taken in the state the calls before it leave. -/
def CallsInRange (c : Constants) : Publication → List Call → Prop
  | _, [] => True
  | publication, call :: rest =>
    CallInRange c publication call ∧ CallsInRange c (after_call c publication call) rest

instance CallInRange.decidable (c : Constants) (publication : Publication) :
    (call : Call) → Decidable (CallInRange c publication call)
  | Call.send _ _ => inferInstanceAs (Decidable (InRange64 _))
  | Call.update_pub_lmt => inferInstanceAs (Decidable (InRange64 _ ∧ _ < _))
  | Call.on_status_message _ _ _ _ => inferInstanceAs (Decidable True)
  | Call.on_time_event _ _ => inferInstanceAs (Decidable True)

instance CallsInRange.decidable (c : Constants) :
    (publication : Publication) → (calls : List Call) →
      Decidable (CallsInRange c publication calls)
  | _, [] => inferInstanceAs (Decidable True)
  | publication, call :: rest =>
    have := CallsInRange.decidable c (after_call c publication call) rest
    inferInstanceAs
      (Decidable (CallInRange c publication call ∧
        CallsInRange c (after_call c publication call) rest))

/-- Consecutive calls of `aeron_network_publication_on_time_event`, each with
its `now_ns` and `now_ms`: the publication after the last one and the calls
made to collaborators by all of them, in order. -/
def time_events (c : Constants) : Publication → List (Int × Int) → Effect
  | publication, [] => { pub := publication, events := [] }
  | publication, (now_ns, now_ms) :: rest =>
    let o := aeron_network_publication_on_time_event c publication now_ns now_ms
    let r := time_events c o.pub rest
    { pub := r.pub, events := o.events ++ r.events }

/-- The number of calls of `aeron_driver_conductor_cleanup_network_publication`
among the calls made. -/
def cleanups (events : List Event) : Nat :=
  events.count Event.cleanup_network_publication

/-- The place of a status in the order ACTIVE, DRAINING, LINGER, CLOSING. -/
def Status.order : Status → Nat
  | Status.ACTIVE => 0
  | Status.DRAINING => 1
  | Status.LINGER => 2
  | Status.CLOSING => 3

/-- A call that the conductor makes on the life cycle of a publication. -/
inductive LifeCall where
  | incref
  | decref (e : Env)
  | on_time_event (now_ns now_ms : Int)

/-- The publication after a call of the life cycle. -/
def after_life_call (c : Constants) (publication : Publication) : LifeCall → Publication
  | LifeCall.incref => aeron_network_publication_incref publication
  | LifeCall.decref e => aeron_network_publication_decref e publication
  | LifeCall.on_time_event now_ns now_ms =>
    (aeron_network_publication_on_time_event c publication now_ns now_ms).pub

/-- The publication after a sequence of calls of the life cycle. -/
def after_life_calls (c : Constants) : Publication → List LifeCall → Publication
  | publication, [] => publication
  | publication, call :: rest => after_life_calls c (after_life_call c publication call) rest

/-- A decimal digit as a character. -/
def digit_char (digit : Nat) : Char := Char.ofNat (48 + digit)

/-- The string of the given decimal digits, the most significant first. -/
def decimal_string (digits : List Nat) : List Char := digits.map digit_char

/-- The integer that decimal digits, the most significant first, denote. -/
def decimal_value (digits : List Nat) : Nat :=
  digits.foldl (fun value digit => value * 10 + digit) 0

/-- Bit `j` of a sequence of bytes read in network byte order: bit 0 is the
most significant bit of the first byte. -/
def network_bit (bytes : List Nat) (j : Nat) : Bool :=
  (bytes.getD (j / 8) 0).testBit (7 - j % 8)

/-- The 16 bytes are the prefix mask of length `prefixlen`: read in network
byte order, the first `prefixlen` bits are 1 and the others 0. -/
def is_prefix_mask (bytes : List Nat) (prefixlen : Nat) : Prop :=
  bytes.length = 16 ∧ (∀ byte ∈ bytes, byte < 256) ∧
    ∀ j < 128, network_bit bytes j = decide (j < prefixlen)

instance (bytes : List Nat) (prefixlen : Nat) : Decidable (is_prefix_mask bytes prefixlen) := by
  unfold is_prefix_mask
  exact inferInstance

/-- Consecutive send ticks, each with the answers of the collaborators during
it and its `now_ns`: the publication after the last tick and the calls made to
collaborators by all of them, in order. -/
def send_ticks (c : Constants) : Publication → List (Env × Int) → Effect
  | publication, [] => { pub := publication, events := [] }
  | publication, (e, now_ns) :: rest =>
    let o := aeron_network_publication_send c e publication now_ns
    let r := send_ticks c o.pub rest
    { pub := r.pub, events := o.events ++ r.events }

/-! ## Concrete inputs -/

/-- A publication with term length 64 KiB and MTU 1408, as created at time 0
with the default constants, session id 1, stream id 10, initial term id 7 and
counters at 0. -/
def demo_publication : Publication where
  subscribeable := []
  subscribeable_capacity := 0
  registration_id := 1
  time_of_last_status_change := 0
  has_reached_end_of_life := false
  clean_position := 0
  status := Status.ACTIVE
  refcnt := 1
  time_of_last_activity_ns := 0
  last_snd_pos := 0
  time_of_last_status_message := 0
  session_id := 1
  stream_id := 10
  initial_term_id := 7
  term_length_mask := 65535
  position_bits_to_shift := 16
  mtu_length := 1408
  term_window_length := 32768
  linger_timeout_ns := 5000000000
  time_of_last_send_or_heartbeat_ns := -100000001
  time_of_last_setup_ns := -100000001
  is_exclusive := false
  should_send_setup_frame := true
  is_connected := false
  is_complete := false
  track_sender_limits := true
  has_sender_released := false
  pub_lmt_position := { counter_id := 0, value := 0 }
  snd_pos_position := { counter_id := 1, value := 0 }
  snd_lmt_position := { counter_id := 2, value := 0 }
  multicast_ttl := 0
  short_sends_counter := 0
  heartbeats_sent_counter := 0
  sender_flow_control_limits_counter := 0
  retransmits_sent_counter := 0

/-- The publication `demo_publication` with the sender limit at `snd_lmt`. -/
def demo_with_limit (snd_lmt : Int) : Publication :=
  { demo_publication with snd_lmt_position := { counter_id := 2, value := snd_lmt } }

/-- Collaborators that send every message in full, a flow control strategy that
keeps the sender limit, clocks at 0, and a term scanner that answers
`scan index term_offset term_length_left max_length` with `answer`. -/
def demo_env (answer : Nat → Int → Nat → Nat → Nat × Nat) : Env where
  scan := answer
  sendmsg_setup := fun _ => 40
  sendmsg_data_header := fun _ => 32
  sendmsg_rttm := fun _ => 40
  sendmsg_iov := fun iov => iov.len
  sendmmsg := fun iovs => iovs.length
  on_idle := fun _ snd_lmt => snd_lmt
  on_status_message := fun _ _ _ snd_lmt _ _ _ => snd_lmt
  nano_clock := 0
  epoch_clock := 0

/-- A term in which one frame of 1024 bytes is committed at offset 0 and
nothing after it: the answers of the scanner. -/
def one_frame (_ : Nat) (term_offset : Int) (_ : Nat) (max_length : Nat) : Nat × Nat :=
  if term_offset = 0 ∧ 1024 ≤ max_length then (1024, 0) else (0, 0)

/-- A term that holds a frame of 32 bytes at offset 0 followed by a padding
frame that fills the term (32 bytes of header, 65472 bytes of padding): the
answers of the scanner. -/
def frame_then_padding (_ : Nat) (term_offset : Int) (_ : Nat) (max_length : Nat) : Nat × Nat :=
  if term_offset = 0 ∧ 64 ≤ max_length then (64, 65472) else (0, 0)

/-- A term without a committed frame: the answers of the scanner. -/
def no_frame (_ : Nat) (_ : Int) (_ : Nat) (_ : Nat) : Nat × Nat := (0, 0)

/-- A term in which frames of 32 bytes are committed from offset 0 up to offset
`committed` and nothing after them: the scanner answers with the whole frames
that fit in `max_length`, in what is left of the term and below `committed`. -/
def frames_of_32 (committed : Nat) (_ : Nat) (term_offset : Int) (term_length_left : Nat)
    (max_length : Nat) : Nat × Nat :=
  (min (min max_length term_length_left) (committed - term_offset.toNat) / 32 * 32, 0)

/-- The publication `demo_publication` with the sender position and the sender
limit at `position`. -/
def demo_sent (position : Int) : Publication :=
  { demo_publication with
    snd_pos_position := { counter_id := 1, value := position }
    snd_lmt_position := { counter_id := 2, value := position } }

/-- The publication `demo_publication` in status DRAINING, with the sender
position at `position`, `last_snd_pos` at `last` and the given spies. -/
def demo_draining (position last : Int) (spies : List Position) (capacity : Nat) :
    Publication :=
  { demo_publication with
    status := Status.DRAINING
    refcnt := 0
    snd_pos_position := { counter_id := 1, value := position }
    last_snd_pos := last
    subscribeable := spies
    subscribeable_capacity := capacity }

/-- The publication `demo_publication` once connected, with the publisher limit
at `limit`, the sender position at `position`, the clean position at `clean`
and the given spies. -/
def demo_connected (limit position clean : Int) (spies : List Position) : Publication :=
  { demo_publication with
    is_connected := true
    pub_lmt_position := { counter_id := 0, value := limit }
    snd_pos_position := { counter_id := 1, value := position }
    clean_position := clean
    subscribeable := spies
    subscribeable_capacity := spies.length }

/-- The publication `demo_publication` with a term length of 1 GiB. -/
def demo_gigabyte : Publication :=
  { demo_publication with term_length_mask := 1073741823, position_bits_to_shift := 30 }

/-- The collaborators `demo_env answer` with an endpoint that returns `r` for
every batch handed to `aeron_send_channel_sendmmsg`. -/
def demo_env_batch (answer : Nat → Int → Nat → Nat → Nat × Nat) (r : Int) : Env :=
  { demo_env answer with sendmmsg := fun _ => r }

/-! ## Machine integers: lemmas -/

theorem wrap64_eq_self {x : Int} (h : InRange64 x) : wrap64 x = x := by
  unfold InRange64 at h
  unfold wrap64
  omega

theorem wrap64_inRange (x : Int) : InRange64 (wrap64 x) := by
  unfold InRange64 wrap64
  omega

theorem wrap32_eq_self {x : Int} (h1 : -2147483648 ≤ x) (h2 : x < 2147483648) : wrap32 x = x := by
  unfold wrap32
  omega

theorem wrap32_bounds (x : Int) : -2147483648 ≤ wrap32 x ∧ wrap32 x < 2147483648 := by
  unfold wrap32
  omega

theorem wrap64_add_mod (x : Int) (n : Nat) :
    wrap64 (x + ((n % SIZE_MOD : Nat) : Int)) = wrap64 (x + n) := by
  unfold wrap64 SIZE_MOD
  push_cast
  omega

theorem wrap64_wrap64_add (x y : Int) : wrap64 (wrap64 x + y) = wrap64 (x + y) := by
  unfold wrap64
  omega

theorem toSize_of_nonneg {x : Int} (h1 : 0 ≤ x) (h2 : x < 18446744073709551616) :
    (toSize x : Int) = x := by
  unfold toSize
  rw [Int.emod_eq_of_lt h1 h2]
  exact Int.toNat_of_nonneg h1

/-! ## The scan loop -/

theorem send_data_loop_succ (c : Constants) (e : Env) (p : Publication) (snd_pos : Int)
    (term_length n : Nat) (s : SendDataLoop) :
    send_data_loop c e p snd_pos term_length (n + 1) s =
      if s.available_window > 0 then
        if (send_data_scan c e p snd_pos term_length s).available = 0 ∨
            term_length = toSize (send_data_collect
              (aeron_logbuffer_index_by_position c snd_pos p.position_bits_to_shift) s
              (send_data_scan c e p snd_pos term_length s)).term_offset then
          send_data_collect (aeron_logbuffer_index_by_position c snd_pos p.position_bits_to_shift)
            s (send_data_scan c e p snd_pos term_length s)
        else
          send_data_loop c e p snd_pos term_length n
            (send_data_collect
              (aeron_logbuffer_index_by_position c snd_pos p.position_bits_to_shift) s
              (send_data_scan c e p snd_pos term_length s))
      else s := rfl

theorem send_data_loop_stalled (c : Constants) (e : Env) (p : Publication) (snd_pos : Int)
    (term_length n : Nat) (s : SendDataLoop) (h : s.available_window ≤ 0) :
    send_data_loop c e p snd_pos term_length n s = s := by
  cases n with
  | zero => rfl
  | succ n =>
    rw [send_data_loop_succ]
    have h' : ¬ s.available_window > 0 := by omega
    simp [h']

/-- The scan loop is the replay of the scanner calls it makes. -/
theorem send_data_loop_trace (c : Constants) (e : Env) (p : Publication) (snd_pos : Int)
    (term_length : Nat) (n : Nat) (s : SendDataLoop) :
    ∃ calls : List ScanCall,
      calls.length ≤ n ∧
      send_data_loop c e p snd_pos term_length n s =
        calls.foldl (send_data_collect
          (aeron_logbuffer_index_by_position c snd_pos p.position_bits_to_shift)) s ∧
      ScanTrace c e p snd_pos term_length s calls := by
  induction n generalizing s with
  | zero => exact ⟨[], by simp, rfl, trivial⟩
  | succ n ih =>
    rw [send_data_loop_succ]
    by_cases hw : s.available_window > 0
    · rw [if_pos hw]
      by_cases hb : (send_data_scan c e p snd_pos term_length s).available = 0 ∨
            term_length = toSize (send_data_collect
              (aeron_logbuffer_index_by_position c snd_pos p.position_bits_to_shift) s
              (send_data_scan c e p snd_pos term_length s)).term_offset
      · rw [if_pos hb]
        refine ⟨[send_data_scan c e p snd_pos term_length s], by simp, rfl, ?_⟩
        exact ⟨hw, rfl, fun h => absurd rfl h, trivial⟩
      · rw [if_neg hb]
        obtain ⟨calls, hlen, heq, htr⟩ := ih (send_data_collect
              (aeron_logbuffer_index_by_position c snd_pos p.position_bits_to_shift) s
              (send_data_scan c e p snd_pos term_length s))
        refine ⟨send_data_scan c e p snd_pos term_length s :: calls, by simp; omega, ?_, ?_⟩
        · rw [heq]
          rfl
        · refine ⟨hw, rfl, fun _ => ?_, htr⟩
          constructor
          · have := fun h => hb (Or.inl h)
            omega
          · exact fun h => hb (Or.inr h)
    · rw [if_neg hw]
      exact ⟨[], by simp, rfl, trivial⟩

/-! ### Replaying scanner calls -/

theorem collected_cons (call : ScanCall) (rest : List ScanCall) :
    collected (call :: rest) =
      if 0 < call.available then call :: collected rest else collected rest := by
  unfold collected
  by_cases h : 0 < call.available <;> simp [List.filter_cons, h]

theorem advance_cons (call : ScanCall) (rest : List ScanCall) :
    advance (call :: rest) =
      (if 0 < call.available then call.available + call.padding else 0) + advance rest := by
  unfold advance
  rw [collected_cons]
  by_cases h : 0 < call.available <;> simp [h]

theorem advance_eq_zero_of_collected_nil {calls : List ScanCall} (h : collected calls = []) :
    advance calls = 0 := by
  unfold advance
  rw [h]
  rfl

theorem replay_scans (idx : Nat) (calls : List ScanCall) (s : SendDataLoop) :
    (calls.foldl (send_data_collect idx) s).scans = s.scans ++ calls := by
  induction calls generalizing s with
  | nil => simp
  | cons call rest ih =>
    rw [List.foldl_cons, ih]
    unfold send_data_collect
    by_cases h : call.available > 0 <;> simp [h]

theorem replay_iov_length (idx : Nat) (calls : List ScanCall) (s : SendDataLoop) :
    (calls.foldl (send_data_collect idx) s).iov.length =
      s.iov.length + (collected calls).length := by
  induction calls generalizing s with
  | nil => simp [collected]
  | cons call rest ih =>
    rw [List.foldl_cons, ih, collected_cons]
    unfold send_data_collect
    by_cases h : call.available > 0
    · have h' : 0 < call.available := h
      simp [h, h']
      omega
    · have h' : ¬ 0 < call.available := h
      simp [h, h']

theorem replay_highest_pos (idx : Nat) (calls : List ScanCall) (s : SendDataLoop) :
    (calls.foldl (send_data_collect idx) s).highest_pos =
      if collected calls = [] then s.highest_pos else wrap64 (s.highest_pos + advance calls) := by
  induction calls generalizing s with
  | nil => simp [collected]
  | cons call rest ih =>
    rw [List.foldl_cons, ih, collected_cons, advance_cons]
    unfold send_data_collect
    by_cases h : call.available > 0
    · have h' : 0 < call.available := h
      simp only [h, h', if_true]
      by_cases hr : collected rest = []
      · rw [if_pos hr, advance_eq_zero_of_collected_nil hr, wrap64_add_mod]
        simp
      · rw [if_neg hr, wrap64_wrap64_add]
        simp only [List.cons_ne_nil, if_false]
        have := wrap64_add_mod (s.highest_pos + advance rest) (call.available + call.padding)
        have e1 : s.highest_pos + ((((call.available + call.padding) % SIZE_MOD : Nat)) : Int)
            + (advance rest : Int)
            = s.highest_pos + advance rest + (((call.available + call.padding) % SIZE_MOD : Nat) : Int) := by
          ring
        rw [e1, this]
        congr 1
        push_cast
        ring
    · have h' : ¬ 0 < call.available := h
      simp [h, h']

theorem collected_eq_nil_iff (calls : List ScanCall) :
    collected calls = [] ↔ ∀ call ∈ calls, call.available = 0 := by
  unfold collected
  rw [List.filter_eq_nil_iff]
  constructor
  · intro h call hc
    have := h call hc
    simp at this
    exact this
  · intro h call hc
    simp [h call hc]

/-! ### The fields written by `aeron_network_publication_send_data` -/

theorem send_data_scans (c : Constants) (e : Env) (p : Publication) (now_ns sp off : Int) :
    (aeron_network_publication_send_data c e p now_ns sp off).scans =
      (send_data_scanned c e p sp off).scans := rfl

theorem send_data_events (c : Constants) (e : Env) (p : Publication) (now_ns sp off : Int) :
    (aeron_network_publication_send_data c e p now_ns sp off).events =
      if (send_data_scanned c e p sp off).iov.length > 0 then
        [Event.sendmmsg (send_data_scanned c e p sp off).iov]
      else [] := rfl

theorem send_data_snd_pos (c : Constants) (e : Env) (p : Publication) (now_ns sp off : Int) :
    (aeron_network_publication_send_data c e p now_ns sp off).pub.snd_pos_position =
      if (send_data_scanned c e p sp off).iov.length > 0 then
        { p.snd_pos_position with value := (send_data_scanned c e p sp off).highest_pos }
      else p.snd_pos_position := by
  unfold aeron_network_publication_send_data
  simp only []
  split_ifs <;> rfl

theorem send_data_time (c : Constants) (e : Env) (p : Publication) (now_ns sp off : Int) :
    (aeron_network_publication_send_data c e p now_ns sp off).pub.time_of_last_send_or_heartbeat_ns =
      if (send_data_scanned c e p sp off).iov.length > 0 then now_ns
      else p.time_of_last_send_or_heartbeat_ns := by
  unfold aeron_network_publication_send_data
  simp only []
  split_ifs <;> rfl

theorem send_data_scanned_eq (c : Constants) (e : Env) (p : Publication) (sp off : Int) :
    ∃ calls : List ScanCall,
      calls.length ≤ c.AERON_NETWORK_PUBLICATION_MAX_MESSAGES_PER_SEND ∧
      send_data_scanned c e p sp off =
        calls.foldl (send_data_collect
          (aeron_logbuffer_index_by_position c sp p.position_bits_to_shift))
          { available_window := wrap32 (wrap64 (p.snd_lmt_position.value - sp))
            term_offset := off
            highest_pos := sp
            bytes_sent := 0
            iov := []
            scans := [] } ∧
      ScanTrace c e p sp ((toSize p.term_length_mask + 1) % SIZE_MOD)
          { available_window := wrap32 (wrap64 (p.snd_lmt_position.value - sp))
            term_offset := off
            highest_pos := sp
            bytes_sent := 0
            iov := []
            scans := [] } calls ∧
      (send_data_scanned c e p sp off).scans = calls := by
  obtain ⟨calls, hlen, heq, htr⟩ :=
    send_data_loop_trace c e p sp ((toSize p.term_length_mask + 1) % SIZE_MOD)
      c.AERON_NETWORK_PUBLICATION_MAX_MESSAGES_PER_SEND
      { available_window := wrap32 (wrap64 (p.snd_lmt_position.value - sp))
        term_offset := off
        highest_pos := sp
        bytes_sent := 0
        iov := []
        scans := [] }
  refine ⟨calls, hlen, heq, htr, ?_⟩
  have h : send_data_scanned c e p sp off = _ := heq
  rw [h, replay_scans]
  rfl

/-! ### What a trace of scanner calls says about each call -/

theorem collect_window_lt (idx : Nat) (s : SendDataLoop) (call : ScanCall)
    (hs : s.available_window < 2147483648) :
    (send_data_collect idx s call).available_window < 2147483648 := by
  unfold send_data_collect
  by_cases h : call.available > 0
  · simp only [h, if_true]
    exact (wrap32_bounds _).2
  · simp only [h, if_false]
    exact hs

theorem collect_term_offset (idx : Nat) (s : SendDataLoop) (call : ScanCall)
    (h : 0 < call.available) :
    (send_data_collect idx s call).term_offset =
      wrap32 (s.term_offset + ((call.available + call.padding) % SIZE_MOD : Nat)) := by
  unfold send_data_collect
  have h' : call.available > 0 := h
  simp only [h', if_true]

theorem collect_window (idx : Nat) (s : SendDataLoop) (call : ScanCall)
    (h : 0 < call.available) :
    (send_data_collect idx s call).available_window =
      wrap32 (s.available_window - ((call.available + call.padding) % SIZE_MOD : Nat)) := by
  unfold send_data_collect
  have h' : call.available > 0 := h
  simp only [h', if_true]

theorem scan_trace_calls (c : Constants) (e : Env) (p : Publication) (sp : Int) (tl : Nat)
    (calls : List ScanCall) (s : SendDataLoop) (hs : s.available_window < 2147483648)
    (htr : ScanTrace c e p sp tl s calls) :
    ∀ call ∈ calls,
      0 < call.available_window ∧ call.available_window < 2147483648 ∧
      (call.scan_limit : Int) = min call.available_window (p.mtu_length : Int) ∧
      call.term_length_left = (tl + SIZE_MOD - toSize call.term_offset) % SIZE_MOD ∧
      (call.available, call.padding) =
        e.scan (aeron_logbuffer_index_by_position c sp p.position_bits_to_shift)
          call.term_offset call.term_length_left call.scan_limit := by
  induction calls generalizing s with
  | nil => intro call h; simp at h
  | cons first rest ih =>
    obtain ⟨hw, hcall, _, hrest⟩ := htr
    intro call hmem
    rcases List.mem_cons.1 hmem with h | h
    · subst h
      subst hcall
      refine ⟨hw, hs, ?_, rfl, rfl⟩
      have hsz : (toSize s.available_window : Int) = s.available_window :=
        toSize_of_nonneg (by omega) (by omega)
      show (((if toSize s.available_window < p.mtu_length then toSize s.available_window
        else p.mtu_length : Nat)) : Int) = _
      by_cases hlt : toSize s.available_window < p.mtu_length
      · rw [if_pos hlt, hsz]
        have : s.available_window ≤ (p.mtu_length : Int) := by
          rw [← hsz]
          exact_mod_cast hlt.le
        exact (min_eq_left this).symm
      · rw [if_neg hlt]
        have : (p.mtu_length : Int) ≤ s.available_window := by
          rw [← hsz]
          exact_mod_cast Nat.le_of_not_lt hlt
        exact (min_eq_right this).symm
    · exact ih _ (collect_window_lt _ s first hs) hrest call h

theorem scan_trace_iov (c : Constants) (e : Env) (p : Publication) (sp : Int) (tl : Nat)
    (calls : List ScanCall) (s : SendDataLoop) (htr : ScanTrace c e p sp tl s calls) :
    (calls.foldl (send_data_collect
        (aeron_logbuffer_index_by_position c sp p.position_bits_to_shift)) s).iov =
      s.iov ++ (collected calls).map
        (iovec_of (aeron_logbuffer_index_by_position c sp p.position_bits_to_shift)) := by
  induction calls generalizing s with
  | nil => simp [collected]
  | cons first rest ih =>
    obtain ⟨_, hcall, _, hrest⟩ := htr
    rw [List.foldl_cons, ih _ hrest, collected_cons]
    have hoff : first.term_offset = s.term_offset := by rw [hcall]; rfl
    unfold send_data_collect iovec_of
    by_cases h : first.available > 0
    · have h' : 0 < first.available := h
      simp [h, h', hoff]
    · have h' : ¬ 0 < first.available := h
      simp [h, h']

theorem scan_trace_stops (c : Constants) (e : Env) (p : Publication) (sp : Int) (tl : Nat)
    (front : List ScanCall) (call : ScanCall) (back : List ScanCall) (s : SendDataLoop)
    (htr : ScanTrace c e p sp tl s (front ++ call :: back)) (hback : back ≠ []) :
    0 < call.available ∧
    tl ≠ toSize (wrap32 (call.term_offset + ((call.available + call.padding) % SIZE_MOD : Nat))) ∧
    ∀ next ∈ back.head?, next.available_window =
      wrap32 (call.available_window - ((call.available + call.padding) % SIZE_MOD : Nat)) := by
  induction front generalizing s with
  | nil =>
    obtain ⟨_, hcall, hnext, hrest⟩ := htr
    obtain ⟨hav, hne⟩ := hnext hback
    have hoff : call.term_offset = s.term_offset := by rw [hcall]; rfl
    have hwin : call.available_window = s.available_window := by rw [hcall]; rfl
    rw [collect_term_offset _ _ _ hav] at hne
    refine ⟨hav, by rw [hoff]; exact hne, ?_⟩
    intro next hnext
    cases back with
    | nil => exact absurd rfl hback
    | cons b bs =>
      simp only [List.head?_cons, Option.mem_def, Option.some.injEq] at hnext
      subst hnext
      obtain ⟨_, hb, _, _⟩ := hrest
      rw [hb, hwin, ← collect_window _ _ _ hav]
      rfl
  | cons first rest ih =>
    obtain ⟨_, _, _, hrest⟩ := htr
    exact ih _ hrest

/-! ## Claims about sending data -/

/-- C1: in a call of `aeron_network_publication_send_data` in which at least one
scan returns `available > 0`, the sender position written is the `snd_pos` the
call was given plus the sum of `available + padding` over the collected ranges
(as a 64-bit value, and exactly that sum when it is one), and
`time_of_last_send_or_heartbeat_ns` becomes `now_ns`, whatever the batched send
returns; when no scan returns available bytes, the sender position and
`time_of_last_send_or_heartbeat_ns` are left as they were. -/
theorem send_data_advances_sender_position (c : Constants) (e : Env) (p : Publication)
    (now_ns snd_pos term_offset : Int) :
    ((∃ call ∈ (aeron_network_publication_send_data c e p now_ns snd_pos term_offset).scans,
        0 < call.available) →
      (aeron_network_publication_send_data c e p now_ns snd_pos term_offset).pub.snd_pos_position.value
        = wrap64 (snd_pos +
            advance (aeron_network_publication_send_data c e p now_ns snd_pos term_offset).scans) ∧
      (InRange64 (snd_pos +
            advance (aeron_network_publication_send_data c e p now_ns snd_pos term_offset).scans) →
        (aeron_network_publication_send_data c e p now_ns snd_pos term_offset).pub.snd_pos_position.value
          = snd_pos +
            advance (aeron_network_publication_send_data c e p now_ns snd_pos term_offset).scans) ∧
      (aeron_network_publication_send_data c e p now_ns snd_pos
        term_offset).pub.time_of_last_send_or_heartbeat_ns = now_ns) ∧
    ((∀ call ∈ (aeron_network_publication_send_data c e p now_ns snd_pos term_offset).scans,
        call.available = 0) →
      (aeron_network_publication_send_data c e p now_ns snd_pos term_offset).pub.snd_pos_position
        = p.snd_pos_position ∧
      (aeron_network_publication_send_data c e p now_ns snd_pos
        term_offset).pub.time_of_last_send_or_heartbeat_ns
        = p.time_of_last_send_or_heartbeat_ns) := by
  obtain ⟨calls, _, heq, _, hscans⟩ := send_data_scanned_eq c e p snd_pos term_offset
  have hlen := replay_iov_length
    (aeron_logbuffer_index_by_position c snd_pos p.position_bits_to_shift) calls
    { available_window := wrap32 (wrap64 (p.snd_lmt_position.value - snd_pos))
      term_offset := term_offset, highest_pos := snd_pos, bytes_sent := 0, iov := [], scans := [] }
  have hpos := replay_highest_pos
    (aeron_logbuffer_index_by_position c snd_pos p.position_bits_to_shift) calls
    { available_window := wrap32 (wrap64 (p.snd_lmt_position.value - snd_pos))
      term_offset := term_offset, highest_pos := snd_pos, bytes_sent := 0, iov := [], scans := [] }
  rw [← heq] at hlen hpos
  simp only [List.length_nil, Nat.zero_add] at hlen
  rw [send_data_scans, send_data_snd_pos, send_data_time, hscans, hlen, hpos]
  constructor
  · rintro ⟨call, hmem, hav⟩
    have hne : collected calls ≠ [] := by
      intro h
      have := (collected_eq_nil_iff calls).1 h call hmem
      omega
    have hl : (collected calls).length > 0 := List.length_pos.2 hne
    simp only [hl, hne, if_true, if_false]
    exact ⟨trivial, fun hr => wrap64_eq_self hr, trivial⟩
  · intro h
    have hnil : collected calls = [] := (collected_eq_nil_iff calls).2 h
    simp [hnil]

/-- C5: a call of `aeron_network_publication_send_data` with
`snd_lmt <= snd_pos` and `snd_pos - snd_lmt < 2^31` does not call the scanner,
hands nothing to the endpoint, returns 0 and changes the publication only by
adding 1 to `sender_flow_control_limits` and clearing `track_sender_limits`; the
sender position in particular is unchanged. -/
theorem send_data_stalled (c : Constants) (e : Env) (p : Publication)
    (now_ns snd_pos term_offset : Int)
    (hlmt : p.snd_lmt_position.value ≤ snd_pos)
    (hdiff : snd_pos - p.snd_lmt_position.value < 2147483648) :
    (aeron_network_publication_send_data c e p now_ns snd_pos term_offset).scans = [] ∧
    (aeron_network_publication_send_data c e p now_ns snd_pos term_offset).events = [] ∧
    (aeron_network_publication_send_data c e p now_ns snd_pos term_offset).result = 0 ∧
    (aeron_network_publication_send_data c e p now_ns snd_pos term_offset).pub =
      { p with
        sender_flow_control_limits_counter := wrap64 (p.sender_flow_control_limits_counter + 1)
        track_sender_limits := false } ∧
    (aeron_network_publication_send_data c e p now_ns snd_pos term_offset).pub.snd_pos_position
      = p.snd_pos_position ∧
    (InRange64 (p.sender_flow_control_limits_counter + 1) →
      (aeron_network_publication_send_data c e p now_ns snd_pos
        term_offset).pub.sender_flow_control_limits_counter
        = p.sender_flow_control_limits_counter + 1) := by
  have hw : wrap32 (wrap64 (p.snd_lmt_position.value - snd_pos)) ≤ 0 := by
    unfold wrap32 wrap64
    omega
  have hS : send_data_scanned c e p snd_pos term_offset =
      { available_window := wrap32 (wrap64 (p.snd_lmt_position.value - snd_pos))
        term_offset := term_offset, highest_pos := snd_pos, bytes_sent := 0, iov := []
        scans := [] } := by
    unfold send_data_scanned
    exact send_data_loop_stalled c e p snd_pos _ _ _ hw
  unfold aeron_network_publication_send_data
  simp only [hS, List.length_nil, gt_iff_lt, Nat.lt_irrefl, if_false, hw, if_true]
  refine ⟨trivial, trivial, by simp, trivial, trivial, fun h => wrap64_eq_self h⟩

/-- C2: one call of `aeron_network_publication_send_data` makes at most
`AERON_NETWORK_PUBLICATION_MAX_MESSAGES_PER_SEND` scans and hands the collected
ranges, at most that many datagrams, to the endpoint in one batch; every scan
is made with a positive window and with limit `min(window, MTU)`, the window of
the first scan being `(int32_t)(snd_lmt - snd_pos)` and the window of each
further scan the previous one less `available + padding`; a scan that is
followed by another returned `available > 0` and left the term offset short of
`term_length`; and when the scanner never returns more than its limit, no
datagram is longer than the MTU or than the window it was scanned with. -/
theorem send_data_batch_within_limits (c : Constants) (e : Env) (p : Publication)
    (now_ns snd_pos term_offset : Int) :
    (aeron_network_publication_send_data c e p now_ns snd_pos term_offset).scans.length
      ≤ c.AERON_NETWORK_PUBLICATION_MAX_MESSAGES_PER_SEND ∧
    (aeron_network_publication_send_data c e p now_ns snd_pos term_offset).events =
      (if collected (aeron_network_publication_send_data c e p now_ns snd_pos term_offset).scans
          = [] then []
        else [Event.sendmmsg
          ((collected (aeron_network_publication_send_data c e p now_ns snd_pos
            term_offset).scans).map
            (iovec_of (aeron_logbuffer_index_by_position c snd_pos p.position_bits_to_shift)))]) ∧
    (collected (aeron_network_publication_send_data c e p now_ns snd_pos term_offset).scans).length
      ≤ c.AERON_NETWORK_PUBLICATION_MAX_MESSAGES_PER_SEND ∧
    (∀ call ∈ (aeron_network_publication_send_data c e p now_ns snd_pos term_offset).scans,
      0 < call.available_window ∧
      (call.scan_limit : Int) = min call.available_window (p.mtu_length : Int) ∧
      (call.available, call.padding) =
        e.scan (aeron_logbuffer_index_by_position c snd_pos p.position_bits_to_shift)
          call.term_offset call.term_length_left call.scan_limit) ∧
    (∀ first ∈ (aeron_network_publication_send_data c e p now_ns snd_pos
        term_offset).scans.head?,
      first.available_window = wrap32 (wrap64 (p.snd_lmt_position.value - snd_pos))) ∧
    (∀ front call back,
      (aeron_network_publication_send_data c e p now_ns snd_pos term_offset).scans
        = front ++ call :: back →
      back ≠ [] →
      0 < call.available ∧
      (toSize p.term_length_mask + 1) % SIZE_MOD ≠
        toSize (wrap32 (call.term_offset +
          ((call.available + call.padding) % SIZE_MOD : Nat))) ∧
      ∀ next ∈ back.head?, next.available_window =
        wrap32 (call.available_window - ((call.available + call.padding) % SIZE_MOD : Nat))) ∧
    ((∀ index offset left limit, (e.scan index offset left limit).1 ≤ limit) →
      ∀ call ∈ (aeron_network_publication_send_data c e p now_ns snd_pos term_offset).scans,
        call.available ≤ p.mtu_length ∧ (call.available : Int) ≤ call.available_window) := by
  obtain ⟨calls, hlen, heq, htr, hscans⟩ := send_data_scanned_eq c e p snd_pos term_offset
  have hiov := scan_trace_iov c e p snd_pos _ calls _ htr
  rw [← heq] at hiov
  simp only [List.nil_append] at hiov
  have hcalls := scan_trace_calls c e p snd_pos _ calls _ (wrap32_bounds _).2 htr
  rw [send_data_scans, send_data_events, hscans, hiov]
  refine ⟨hlen, ?_, ?_, ?_, ?_, ?_, ?_⟩
  · by_cases hnil : collected calls = []
    · simp [hnil]
    · have : 0 < (collected calls).length := List.length_pos.2 hnil
      simp [hnil, this]
  · exact le_trans (List.length_filter_le _ _) hlen
  · intro call hmem
    obtain ⟨h1, _, h3, _, h5⟩ := hcalls call hmem
    exact ⟨h1, h3, h5⟩
  · intro first hfirst
    cases calls with
    | nil => simp at hfirst
    | cons a rest =>
      simp only [List.head?_cons, Option.mem_def, Option.some.injEq] at hfirst
      subst hfirst
      obtain ⟨_, ha, _, _⟩ := htr
      rw [ha]
      rfl
  · intro front call back hsplit hback
    rw [hsplit] at htr
    exact scan_trace_stops c e p snd_pos _ front call back _ htr hback
  · intro hscan call hmem
    obtain ⟨_, _, h3, _, h5⟩ := hcalls call hmem
    have hle := hscan (aeron_logbuffer_index_by_position c snd_pos p.position_bits_to_shift)
      call.term_offset call.term_length_left call.scan_limit
    rw [← h5] at hle
    have hle' : (call.available : Int) ≤ call.scan_limit := by exact_mod_cast hle
    rw [h3] at hle'
    have h1 := le_trans hle' (min_le_left _ _)
    have h2 := le_trans hle' (min_le_right _ _)
    exact ⟨by exact_mod_cast h2, h1⟩


theorem setup_check_snd_pos (c : Constants) (e : Env) (p : Publication) (now_ns tid off : Int) :
    (aeron_network_publication_setup_message_check c e p now_ns tid off).pub.snd_pos_position
      = p.snd_pos_position := by
  unfold aeron_network_publication_setup_message_check
  simp only []
  split_ifs <;> rfl

theorem heartbeat_check_snd_pos (c : Constants) (e : Env) (p : Publication) (now_ns tid off : Int) :
    (aeron_network_publication_heartbeat_message_check c e p now_ns tid off).pub.snd_pos_position
      = p.snd_pos_position := by
  unfold aeron_network_publication_heartbeat_message_check
  simp only []
  split_ifs <;> rfl

theorem send_setup_snd_pos (c : Constants) (e : Env) (p : Publication) (now_ns : Int) :
    (send_setup c e p now_ns).pub.snd_pos_position = p.snd_pos_position := by
  unfold send_setup
  split_ifs
  · exact setup_check_snd_pos _ _ _ _ _ _
  · rfl

theorem send_snd_pos (c : Constants) (e : Env) (p : Publication) (now_ns : Int) :
    (aeron_network_publication_send c e p now_ns).pub.snd_pos_position = p.snd_pos_position ∨
    (aeron_network_publication_send c e p now_ns).pub.snd_pos_position
      = (send_send_data c e p now_ns).pub.snd_pos_position := by
  unfold aeron_network_publication_send
  simp only []
  split_ifs
  · left; exact send_setup_snd_pos _ _ _ _
  · right; rfl
  · right; exact heartbeat_check_snd_pos _ _ _ _ _ _
  · right; exact heartbeat_check_snd_pos _ _ _ _ _ _
  · right; rfl

theorem resend_loop_snd_pos (e : Env) (p : Publication) (index tl : Nat) (fuel : Nat)
    (bytes_sent offset : Int) (remaining : Nat) (events : List Event) :
    (resend_loop e p index tl fuel bytes_sent offset remaining events).pub.snd_pos_position
      = p.snd_pos_position := by
  induction fuel generalizing bytes_sent offset remaining events with
  | zero => rfl
  | succ n ih =>
    unfold resend_loop
    simp only []
    split_ifs
    · rfl
    · rfl
    · rfl
    · exact ih _ _ _ _
    · rfl

theorem resend_snd_pos (c : Constants) (e : Env) (p : Publication) (fuel : Nat)
    (term_id term_offset : Int) (length : Nat) :
    (aeron_network_publication_resend c e p fuel term_id term_offset length).pub.snd_pos_position
      = p.snd_pos_position := by
  unfold aeron_network_publication_resend
  simp only []
  split_ifs
  · exact resend_loop_snd_pos _ _ _ _ _ _ _ _ _
  · exact resend_loop_snd_pos _ _ _ _ _ _ _ _ _
  · rfl

theorem on_status_message_snd_pos (e : Env) (p : Publication) (buffer : List Nat)
    (length addr : Nat) :
    (aeron_network_publication_on_status_message e p buffer length addr).pub.snd_pos_position
      = p.snd_pos_position := by
  unfold aeron_network_publication_on_status_message
  simp only []
  split_ifs <;> rfl

theorem on_rttm_snd_pos (c : Constants) (e : Env) (p : Publication) (h : RttmHeader) :
    (aeron_network_publication_on_rttm c e p h).pub.snd_pos_position = p.snd_pos_position := by
  unfold aeron_network_publication_on_rttm
  simp only []
  split_ifs <;> rfl

theorem update_pub_lmt_snd_pos (c : Constants) (p : Publication) :
    (aeron_network_publication_update_pub_lmt c p).pub.snd_pos_position = p.snd_pos_position := by
  unfold aeron_network_publication_update_pub_lmt aeron_network_publication_clean_buffer
  simp only []
  split_ifs <;> rfl

theorem on_time_event_snd_pos (c : Constants) (p : Publication) (now_ns now_ms : Int) :
    (aeron_network_publication_on_time_event c p now_ns now_ms).pub.snd_pos_position
      = p.snd_pos_position := by
  unfold aeron_network_publication_on_time_event
    aeron_network_publication_spies_not_behind_sender
  cases p.status <;> simp only [] <;> split_ifs <;> rfl


theorem send_data_snd_pos_value (c : Constants) (e : Env) (p : Publication)
    (now_ns sp off : Int) :
    (aeron_network_publication_send_data c e p now_ns sp off).pub.snd_pos_position.value =
      if collected (aeron_network_publication_send_data c e p now_ns sp off).scans = [] then
        p.snd_pos_position.value
      else wrap64 (sp + advance (aeron_network_publication_send_data c e p now_ns sp off).scans) := by
  obtain ⟨calls, _, heq, _, hscans⟩ := send_data_scanned_eq c e p sp off
  have hlen := replay_iov_length
    (aeron_logbuffer_index_by_position c sp p.position_bits_to_shift) calls
    { available_window := wrap32 (wrap64 (p.snd_lmt_position.value - sp))
      term_offset := off, highest_pos := sp, bytes_sent := 0, iov := [], scans := [] }
  have hpos := replay_highest_pos
    (aeron_logbuffer_index_by_position c sp p.position_bits_to_shift) calls
    { available_window := wrap32 (wrap64 (p.snd_lmt_position.value - sp))
      term_offset := off, highest_pos := sp, bytes_sent := 0, iov := [], scans := [] }
  rw [← heq] at hlen hpos
  simp only [List.length_nil, Nat.zero_add] at hlen
  rw [send_data_scans, send_data_snd_pos, hscans, hlen, hpos]
  by_cases hnil : collected calls = []
  · simp [hnil]
  · have hl : (collected calls).length > 0 := List.length_pos.2 hnil
    simp [hnil, hl]

theorem collect_window_zero (idx : Nat) (s : SendDataLoop) (call : ScanCall)
    (h : ¬ 0 < call.available) :
    (send_data_collect idx s call).available_window = s.available_window := by
  unfold send_data_collect
  have h' : ¬ call.available > 0 := h
  simp only [h', if_false]

theorem advance_le_window (c : Constants) (e : Env) (p : Publication) (sp : Int) (tl : Nat)
    (calls : List ScanCall) (s : SendDataLoop) (hs : s.available_window < 2147483648)
    (htr : ScanTrace c e p sp tl s calls)
    (hfit : ∀ call ∈ calls, 0 < call.available →
      (call.available : Int) + call.padding ≤ call.available_window) :
    (advance calls : Int) ≤ max 0 s.available_window := by
  induction calls generalizing s with
  | nil => simp [advance, collected]
  | cons first rest ih =>
    obtain ⟨hw, hcall, _, hrest⟩ := htr
    have hwin : first.available_window = s.available_window := by rw [hcall]; rfl
    have hfit' : ∀ call ∈ rest, 0 < call.available →
        (call.available : Int) + call.padding ≤ call.available_window :=
      fun call hmem => hfit call (List.mem_cons_of_mem _ hmem)
    have ih' := ih _ (collect_window_lt _ s first hs) hrest hfit'
    rw [advance_cons]
    by_cases hav : 0 < first.available
    · have hf := hfit first (List.mem_cons_self _ _) hav
      rw [hwin] at hf
      rw [collect_window _ _ _ hav] at ih'
      have hmod : (((first.available + first.padding) % SIZE_MOD : Nat) : Int)
          = (first.available : Int) + first.padding := by
        unfold SIZE_MOD
        push_cast
        omega
      rw [hmod] at ih'
      have hw32 : wrap32 (s.available_window - ((first.available : Int) + first.padding))
          = s.available_window - ((first.available : Int) + first.padding) :=
        wrap32_eq_self (by omega) (by omega)
      rw [hw32] at ih'
      simp only [hav, if_true]
      push_cast
      have h0 : max 0 (s.available_window - ((first.available : Int) + first.padding))
          = s.available_window - ((first.available : Int) + first.padding) :=
        max_eq_right (by omega)
      rw [h0] at ih'
      have h1 : max 0 s.available_window = s.available_window := max_eq_right (by omega)
      rw [h1]
      omega
    · rw [collect_window_zero _ _ _ hav] at ih'
      simp only [hav, if_false]
      push_cast
      omega

/-- C3: the sender position never decreases. A send tick leaves the sender
position at or above its value before the tick (for every state, scanner and
outcome of the sends, as long as the position plus the collected ranges is a
64-bit value), and `resend`, `on_nak`, `on_status_message`, `on_rttm`,
`update_pub_lmt` and `on_time_event` do not write the sender position. -/
theorem sender_position_never_decreases (c : Constants) (e : Env) (p : Publication)
    (now_ns : Int) :
    (InRange64 (p.snd_pos_position.value + advance (send_send_data c e p now_ns).scans) →
      p.snd_pos_position.value
        ≤ (aeron_network_publication_send c e p now_ns).pub.snd_pos_position.value) ∧
    (∀ (fuel : Nat) (term_id term_offset : Int) (length : Nat),
      (aeron_network_publication_resend c e p fuel term_id term_offset
        length).pub.snd_pos_position = p.snd_pos_position) ∧
    (∀ term_id term_offset length : Int,
      (aeron_network_publication_on_nak e p term_id term_offset length).pub.snd_pos_position
        = p.snd_pos_position) ∧
    (∀ (buffer : List Nat) (length addr : Nat),
      (aeron_network_publication_on_status_message e p buffer length addr).pub.snd_pos_position
        = p.snd_pos_position) ∧
    (∀ rttm_in_header : RttmHeader,
      (aeron_network_publication_on_rttm c e p rttm_in_header).pub.snd_pos_position
        = p.snd_pos_position) ∧
    (aeron_network_publication_update_pub_lmt c p).pub.snd_pos_position = p.snd_pos_position ∧
    (∀ now_ms : Int,
      (aeron_network_publication_on_time_event c p now_ns now_ms).pub.snd_pos_position
        = p.snd_pos_position) := by
  refine ⟨?_, fun _ _ _ _ => resend_snd_pos _ _ _ _ _ _ _, fun _ _ _ => rfl,
    fun _ _ _ => on_status_message_snd_pos _ _ _ _ _, fun _ => on_rttm_snd_pos _ _ _ _,
    update_pub_lmt_snd_pos _ _, fun _ => on_time_event_snd_pos _ _ _ _⟩
  intro hr
  rcases send_snd_pos c e p now_ns with h | h
  · rw [h]
  · rw [h]
    unfold send_send_data at hr ⊢
    rw [send_data_snd_pos_value]
    split_ifs
    · rw [send_setup_snd_pos]
    · rw [wrap64_eq_self hr]
      omega

/-- C4, as amended: if `snd_pos <= snd_lmt` holds for the sender position and the
sender limit that `aeron_network_publication_send_data` reads, and every
collected range has `available + padding` within the window it was scanned
with, the sender position after the call is `<= snd_lmt`. -/
theorem send_data_keeps_position_within_limit (c : Constants) (e : Env) (p : Publication)
    (now_ns snd_pos term_offset : Int)
    (hpos : p.snd_pos_position.value = snd_pos)
    (hle : snd_pos ≤ p.snd_lmt_position.value)
    (hr1 : InRange64 snd_pos) (hr2 : InRange64 p.snd_lmt_position.value)
    (hfit : ∀ call ∈ (aeron_network_publication_send_data c e p now_ns snd_pos term_offset).scans,
      0 < call.available → (call.available : Int) + call.padding ≤ call.available_window) :
    (aeron_network_publication_send_data c e p now_ns snd_pos term_offset).pub.snd_pos_position.value
      ≤ p.snd_lmt_position.value := by
  rw [send_data_snd_pos_value]
  split_ifs with hnil
  · omega
  · obtain ⟨calls, _, _, htr, hscans⟩ := send_data_scanned_eq c e p snd_pos term_offset
    rw [send_data_scans, hscans] at hfit hnil ⊢
    have hadv := advance_le_window c e p snd_pos _ calls _ (wrap32_bounds _).2 htr hfit
    simp only [] at hadv
    have hwin : max 0 (wrap32 (wrap64 (p.snd_lmt_position.value - snd_pos)))
        ≤ p.snd_lmt_position.value - snd_pos := by
      unfold InRange64 at hr1 hr2
      unfold wrap32 wrap64
      omega
    have hnn : (0 : Int) ≤ advance calls := Int.natCast_nonneg _
    unfold InRange64 at hr1 hr2
    rw [wrap64_eq_self (by unfold InRange64; omega)]
    omega

/-- C4, as stated, fails: with the sender limit at 100 and a term that holds a
frame of 32 bytes followed by a padding frame that fills the term, the scanner
returns 64 available bytes, within the scan limit of 100, and 65472 bytes of
padding, and the call writes the sender position 65536. -/
theorem send_data_padding_passes_limit :
    (demo_with_limit 100).snd_pos_position.value ≤ (demo_with_limit 100).snd_lmt_position.value ∧
    (∀ call ∈ (aeron_network_publication_send_data defaults (demo_env frame_then_padding)
        (demo_with_limit 100) 5 0 0).scans, call.available ≤ call.scan_limit) ∧
    (aeron_network_publication_send_data defaults (demo_env frame_then_padding)
      (demo_with_limit 100) 5 0 0).pub.snd_pos_position.value = 65536 ∧
    ¬ (aeron_network_publication_send_data defaults (demo_env frame_then_padding)
        (demo_with_limit 100) 5 0 0).pub.snd_pos_position.value
      ≤ (demo_with_limit 100).snd_lmt_position.value := by
  decide

/-- C6, the code at the failing input: two consecutive send ticks with the
window exhausted (`snd_lmt = snd_pos = 0`) and no data sent add 2 to
`sender_flow_control_limits`, not 1. -/
theorem stalled_ticks_count_each :
    batches (send_ticks defaults (demo_with_limit 0)
      [(demo_env no_frame, 5), (demo_env no_frame, 6)]).events = [] ∧
    (aeron_network_publication_send defaults (demo_env no_frame) (demo_with_limit 0)
      5).pub.sender_flow_control_limits_counter = 1 ∧
    (send_ticks defaults (demo_with_limit 0)
      [(demo_env no_frame, 5), (demo_env no_frame, 6)]).pub.sender_flow_control_limits_counter
      = 2 := by
  decide


/-! ## Setup frames and heartbeats -/

theorem setups_append (a b : List Event) : setups (a ++ b) = setups a ++ setups b := by
  induction a with
  | nil => rfl
  | cons x xs ih => cases x <;> simp [setups, ih]

theorem idles_append (a b : List Event) : idles (a ++ b) = idles a ++ idles b := by
  induction a with
  | nil => rfl
  | cons x xs ih => cases x <;> simp [idles, ih]

theorem setups_send_data (c : Constants) (e : Env) (p : Publication) (now_ns sp off : Int) :
    setups (aeron_network_publication_send_data c e p now_ns sp off).events = [] := by
  rw [send_data_events]
  split_ifs <;> rfl

theorem idles_send_data (c : Constants) (e : Env) (p : Publication) (now_ns sp off : Int) :
    idles (aeron_network_publication_send_data c e p now_ns sp off).events = [] := by
  rw [send_data_events]
  split_ifs <;> rfl

theorem setups_heartbeat_check (c : Constants) (e : Env) (p : Publication)
    (now_ns tid off : Int) :
    setups (aeron_network_publication_heartbeat_message_check c e p now_ns tid off).events
      = [] := by
  unfold aeron_network_publication_heartbeat_message_check
  simp only []
  split_ifs <;> rfl

theorem idles_heartbeat_check (c : Constants) (e : Env) (p : Publication)
    (now_ns tid off : Int) :
    idles (aeron_network_publication_heartbeat_message_check c e p now_ns tid off).events
      = [] := by
  unfold aeron_network_publication_heartbeat_message_check
  simp only []
  split_ifs <;> rfl

theorem idles_send_setup (c : Constants) (e : Env) (p : Publication) (now_ns : Int) :
    idles (send_setup c e p now_ns).events = [] := by
  unfold send_setup aeron_network_publication_setup_message_check
  simp only []
  split_ifs <;> rfl

theorem send_setups (c : Constants) (e : Env) (p : Publication) (now_ns : Int) :
    setups (aeron_network_publication_send c e p now_ns).events
      = setups (send_setup c e p now_ns).events := by
  unfold aeron_network_publication_send send_send_data
  simp only []
  split_ifs <;>
    simp [setups_append, setups_send_data, setups_heartbeat_check, setups]

theorem heartbeat_check_pub_setup_fields (c : Constants) (e : Env) (p : Publication)
    (now_ns tid off : Int) :
    (aeron_network_publication_heartbeat_message_check c e p now_ns tid off).pub.time_of_last_setup_ns
      = p.time_of_last_setup_ns ∧
    (aeron_network_publication_heartbeat_message_check c e p now_ns tid
      off).pub.should_send_setup_frame = p.should_send_setup_frame ∧
    (aeron_network_publication_heartbeat_message_check c e p now_ns tid off).pub.snd_lmt_position
      = p.snd_lmt_position ∧
    ((aeron_network_publication_heartbeat_message_check c e p now_ns tid
        off).pub.time_of_last_send_or_heartbeat_ns = now_ns ∨
      (aeron_network_publication_heartbeat_message_check c e p now_ns tid
        off).pub.time_of_last_send_or_heartbeat_ns = p.time_of_last_send_or_heartbeat_ns) := by
  unfold aeron_network_publication_heartbeat_message_check
  simp only []
  split_ifs <;> simp

theorem send_data_pub_setup_fields (c : Constants) (e : Env) (p : Publication)
    (now_ns sp off : Int) :
    (aeron_network_publication_send_data c e p now_ns sp off).pub.time_of_last_setup_ns
      = p.time_of_last_setup_ns ∧
    (aeron_network_publication_send_data c e p now_ns sp off).pub.should_send_setup_frame
      = p.should_send_setup_frame ∧
    (aeron_network_publication_send_data c e p now_ns sp off).pub.snd_lmt_position
      = p.snd_lmt_position ∧
    ((aeron_network_publication_send_data c e p now_ns sp
        off).pub.time_of_last_send_or_heartbeat_ns = now_ns ∨
      (aeron_network_publication_send_data c e p now_ns sp
        off).pub.time_of_last_send_or_heartbeat_ns = p.time_of_last_send_or_heartbeat_ns) := by
  unfold aeron_network_publication_send_data
  simp only []
  split_ifs <;> simp

theorem send_setup_snd_lmt (c : Constants) (e : Env) (p : Publication) (now_ns : Int) :
    (send_setup c e p now_ns).pub.snd_lmt_position = p.snd_lmt_position := by
  unfold send_setup aeron_network_publication_setup_message_check
  simp only []
  split_ifs <;> rfl

/-- What a send tick leaves in the fields that the setup check writes. -/
theorem send_pub_setup_fields (c : Constants) (e : Env) (p : Publication) (now_ns : Int) :
    (aeron_network_publication_send c e p now_ns).pub.time_of_last_setup_ns
      = (send_setup c e p now_ns).pub.time_of_last_setup_ns ∧
    (aeron_network_publication_send c e p now_ns).pub.should_send_setup_frame
      = (send_setup c e p now_ns).pub.should_send_setup_frame ∧
    ((send_setup c e p now_ns).pub.time_of_last_send_or_heartbeat_ns = now_ns →
      (aeron_network_publication_send c e p now_ns).pub.time_of_last_send_or_heartbeat_ns
        = now_ns) := by
  have hd := send_data_pub_setup_fields c e (send_setup c e p now_ns).pub now_ns
    p.snd_pos_position.value (send_term_offset p)
  have hh := heartbeat_check_pub_setup_fields c e (send_send_data c e p now_ns).pub now_ns
    (send_active_term_id p) (send_term_offset p)
  unfold send_send_data at hh
  unfold aeron_network_publication_send send_send_data
  simp only []
  obtain ⟨hd1, hd2, _, hd4⟩ := hd
  obtain ⟨hh1, hh2, _, hh4⟩ := hh
  split_ifs
  · exact ⟨rfl, rfl, fun h => h⟩
  · exact ⟨hd1, hd2, fun h => by rcases hd4 with h' | h' <;> simp [h', h]⟩
  · refine ⟨by rw [hh1, hd1], by rw [hh2, hd2], fun h => ?_⟩
    rcases hh4 with h' | h'
    · exact h'
    · rw [h']
      rcases hd4 with h'' | h'' <;> simp [h'', h]
  · refine ⟨by simp only []; rw [hh1, hd1], by simp only []; rw [hh2, hd2], fun h => ?_⟩
    simp only []
    rcases hh4 with h' | h'
    · exact h'
    · rw [h']
      rcases hd4 with h'' | h'' <;> simp [h'', h]
  · exact ⟨hd1, hd2, fun h => by rcases hd4 with h' | h' <;> simp [h', h]⟩

/-- The setup check: what it emits and what it leaves in the fields it writes. -/
theorem send_setup_cases (c : Constants) (e : Env) (p : Publication) (now_ns : Int) :
    (p.should_send_setup_frame = true →
      now_ns > wrap64 (p.time_of_last_setup_ns + c.AERON_NETWORK_PUBLICATION_SETUP_TIMEOUT_NS) →
        (setups (send_setup c e p now_ns).events).length = 1 ∧
        (send_setup c e p now_ns).pub.time_of_last_setup_ns = now_ns ∧
        (send_setup c e p now_ns).pub.time_of_last_send_or_heartbeat_ns = now_ns ∧
        (send_setup c e p now_ns).pub.should_send_setup_frame = !p.is_connected) ∧
    ((p.should_send_setup_frame = false ∨
      ¬ now_ns > wrap64 (p.time_of_last_setup_ns + c.AERON_NETWORK_PUBLICATION_SETUP_TIMEOUT_NS)) →
        (send_setup c e p now_ns).events = [] ∧ (send_setup c e p now_ns).pub = p) := by
  unfold send_setup aeron_network_publication_setup_message_check
  constructor
  · intro hs ht
    simp only [hs, ht, if_true]
    cases hc : p.is_connected <;> split_ifs <;> simp_all [setups]
  · rintro (hs | ht)
    · simp [hs]
    · simp only [ht, if_false]
      split_ifs <;> simp


theorem send_quiet (c : Constants) (e : Env) (p : Publication) (now_ns : Int)
    (h : p.should_send_setup_frame = false ∨
      ¬ now_ns > wrap64 (p.time_of_last_setup_ns + c.AERON_NETWORK_PUBLICATION_SETUP_TIMEOUT_NS)) :
    setups (aeron_network_publication_send c e p now_ns).events = [] ∧
    (aeron_network_publication_send c e p now_ns).pub.time_of_last_setup_ns
      = p.time_of_last_setup_ns ∧
    (aeron_network_publication_send c e p now_ns).pub.should_send_setup_frame
      = p.should_send_setup_frame := by
  obtain ⟨h1, h2, _⟩ := send_pub_setup_fields c e p now_ns
  obtain ⟨he, hp⟩ := (send_setup_cases c e p now_ns).2 h
  rw [send_setups, h1, h2, he, hp]
  exact ⟨rfl, rfl, rfl⟩

theorem send_due (c : Constants) (e : Env) (p : Publication) (now_ns : Int)
    (hs : p.should_send_setup_frame = true)
    (ht : now_ns > wrap64 (p.time_of_last_setup_ns +
      c.AERON_NETWORK_PUBLICATION_SETUP_TIMEOUT_NS)) :
    (setups (aeron_network_publication_send c e p now_ns).events).length = 1 ∧
    (aeron_network_publication_send c e p now_ns).pub.time_of_last_setup_ns = now_ns ∧
    (aeron_network_publication_send c e p now_ns).pub.time_of_last_send_or_heartbeat_ns
      = now_ns ∧
    (aeron_network_publication_send c e p now_ns).pub.should_send_setup_frame
      = !p.is_connected := by
  obtain ⟨h1, h2, h3⟩ := send_pub_setup_fields c e p now_ns
  obtain ⟨hl, hts, hth, hf⟩ := (send_setup_cases c e p now_ns).1 hs ht
  rw [send_setups, h1, h2]
  exact ⟨hl, hts, h3 hth, hf⟩

theorem send_ticks_quiet (c : Constants) (ticks : List (Env × Int)) (p : Publication)
    (h : ∀ tick ∈ ticks, ¬ tick.2 > wrap64 (p.time_of_last_setup_ns +
      c.AERON_NETWORK_PUBLICATION_SETUP_TIMEOUT_NS)) :
    setups (send_ticks c p ticks).events = [] ∧
    (send_ticks c p ticks).pub.time_of_last_setup_ns = p.time_of_last_setup_ns ∧
    (send_ticks c p ticks).pub.should_send_setup_frame = p.should_send_setup_frame := by
  induction ticks generalizing p with
  | nil => exact ⟨rfl, rfl, rfl⟩
  | cons tick rest ih =>
    obtain ⟨e, now_ns⟩ := tick
    obtain ⟨h1, h2, h3⟩ := send_quiet c e p now_ns (Or.inr (h (e, now_ns) (List.mem_cons_self _ _)))
    have hrest : ∀ tick ∈ rest, ¬ tick.2 > wrap64
        ((aeron_network_publication_send c e p now_ns).pub.time_of_last_setup_ns +
          c.AERON_NETWORK_PUBLICATION_SETUP_TIMEOUT_NS) := by
      intro tick hmem
      rw [h2]
      exact h tick (List.mem_cons_of_mem _ hmem)
    obtain ⟨i1, i2, i3⟩ := ih _ hrest
    show setups ((aeron_network_publication_send c e p now_ns).events ++
        (send_ticks c (aeron_network_publication_send c e p now_ns).pub rest).events) = [] ∧
      (send_ticks c (aeron_network_publication_send c e p now_ns).pub rest).pub.time_of_last_setup_ns
        = p.time_of_last_setup_ns ∧
      (send_ticks c (aeron_network_publication_send c e p now_ns).pub
        rest).pub.should_send_setup_frame = p.should_send_setup_frame
    rw [setups_append, h1, i1, i2, i3, h2, h3]
    exact ⟨rfl, rfl, rfl⟩

theorem create_setup_fields (c : Constants) (e0 : Env) (a : CreateArgs) (fresh : Publication)
    (h : aeron_network_publication_create c e0 a = Except.ok fresh) :
    fresh.should_send_setup_frame = true ∧
    fresh.time_of_last_setup_ns =
      wrap64 (wrap64 (e0.nano_clock - c.AERON_NETWORK_PUBLICATION_SETUP_TIMEOUT_NS) - 1) := by
  unfold aeron_network_publication_create at h
  simp only [] at h
  split_ifs at h
  cases h
  exact ⟨rfl, rfl⟩

/-- C7: `aeron_network_publication_heartbeat_message_check` emits a frame exactly
when `now_ns > time_of_last_send_or_heartbeat_ns + HEARTBEAT_TIMEOUT` (the sum
being a 64-bit value): then it hands one DATA header to the endpoint, with
frame length 0, the session and stream id of the publication, the given term
id and term offset and flags `0xC0` (BEGIN|END), or `0xE0` (BEGIN|END|EOS) when
`is_complete` is set, adds 1 to `heartbeats_sent` and sets
`time_of_last_send_or_heartbeat_ns` to `now_ns`; otherwise it sends nothing and
leaves the publication as it is. -/
theorem heartbeat_check_emits_when_due (c : Constants) (e : Env) (p : Publication)
    (now_ns active_term_id term_offset : Int)
    (hr : InRange64 (p.time_of_last_send_or_heartbeat_ns +
      c.AERON_NETWORK_PUBLICATION_HEARTBEAT_TIMEOUT_NS)) :
    (now_ns > p.time_of_last_send_or_heartbeat_ns +
        c.AERON_NETWORK_PUBLICATION_HEARTBEAT_TIMEOUT_NS →
      (aeron_network_publication_heartbeat_message_check c e p now_ns active_term_id
        term_offset).events =
        [Event.sendmsg_data_header
          { frame_header :=
              { frame_length := 0
                version := c.AERON_FRAME_HEADER_VERSION
                flags := if p.is_complete then 224 else 192
                type := HdrType.DATA }
            term_offset := term_offset
            session_id := p.session_id
            stream_id := p.stream_id
            term_id := active_term_id
            reserved_value := 0 }] ∧
      (aeron_network_publication_heartbeat_message_check c e p now_ns active_term_id
        term_offset).pub.heartbeats_sent_counter = wrap64 (p.heartbeats_sent_counter + 1) ∧
      (InRange64 (p.heartbeats_sent_counter + 1) →
        (aeron_network_publication_heartbeat_message_check c e p now_ns active_term_id
          term_offset).pub.heartbeats_sent_counter = p.heartbeats_sent_counter + 1) ∧
      (aeron_network_publication_heartbeat_message_check c e p now_ns active_term_id
        term_offset).pub.time_of_last_send_or_heartbeat_ns = now_ns) ∧
    (¬ now_ns > p.time_of_last_send_or_heartbeat_ns +
        c.AERON_NETWORK_PUBLICATION_HEARTBEAT_TIMEOUT_NS →
      (aeron_network_publication_heartbeat_message_check c e p now_ns active_term_id
        term_offset).events = [] ∧
      (aeron_network_publication_heartbeat_message_check c e p now_ns active_term_id
        term_offset).pub = p ∧
      (aeron_network_publication_heartbeat_message_check c e p now_ns active_term_id
        term_offset).result = 0) := by
  unfold aeron_network_publication_heartbeat_message_check
  rw [wrap64_eq_self hr]
  constructor
  · intro h
    simp only [h, if_true]
    refine ⟨?_, ?_, ?_, ?_⟩
    · cases p.is_complete <;> rfl
    · split_ifs <;> rfl
    · intro hc
      rw [← wrap64_eq_self hc]
      split_ifs <;> rfl
    · trivial
  · intro h
    simp only [h, if_false]
    exact ⟨trivial, trivial, trivial⟩

/-- C8: while `should_send_setup_frame` is set, a send tick emits a SETUP frame
exactly when `now_ns > time_of_last_setup_ns + SETUP_TIMEOUT` (the sum being a
64-bit value), and then leaves `time_of_last_setup_ns` and
`time_of_last_send_or_heartbeat_ns` at `now_ns`; ticks at
`now_ns <= time_of_last_setup_ns + SETUP_TIMEOUT` emit none, however many there
are, and the first tick after them with `now_ns` beyond that emits one; the
first send of a publication just created, at any `now_ns` from the creation time
on, emits one SETUP. -/
theorem setup_frame_cadence (c : Constants) :
    (∀ p : Publication, p.should_send_setup_frame = true →
      InRange64 (p.time_of_last_setup_ns + c.AERON_NETWORK_PUBLICATION_SETUP_TIMEOUT_NS) →
      (∀ (e : Env) (now_ns : Int),
        (now_ns > p.time_of_last_setup_ns + c.AERON_NETWORK_PUBLICATION_SETUP_TIMEOUT_NS →
          (setups (aeron_network_publication_send c e p now_ns).events).length = 1 ∧
          (aeron_network_publication_send c e p now_ns).pub.time_of_last_setup_ns = now_ns ∧
          (aeron_network_publication_send c e p now_ns).pub.time_of_last_send_or_heartbeat_ns
            = now_ns) ∧
        (now_ns ≤ p.time_of_last_setup_ns + c.AERON_NETWORK_PUBLICATION_SETUP_TIMEOUT_NS →
          setups (aeron_network_publication_send c e p now_ns).events = [])) ∧
      (∀ ticks : List (Env × Int),
        (∀ tick ∈ ticks, tick.2 ≤
          p.time_of_last_setup_ns + c.AERON_NETWORK_PUBLICATION_SETUP_TIMEOUT_NS) →
        setups (send_ticks c p ticks).events = [] ∧
        ∀ (e : Env) (now_ns : Int),
          now_ns > p.time_of_last_setup_ns + c.AERON_NETWORK_PUBLICATION_SETUP_TIMEOUT_NS →
          (setups (aeron_network_publication_send c e (send_ticks c p ticks).pub
            now_ns).events).length = 1)) ∧
    (∀ (e0 : Env) (a : CreateArgs) (fresh : Publication),
      aeron_network_publication_create c e0 a = Except.ok fresh →
      InRange64 (e0.nano_clock - 1) →
      ∀ (e : Env) (now_ns : Int), e0.nano_clock ≤ now_ns →
        (setups (aeron_network_publication_send c e fresh now_ns).events).length = 1) := by
  constructor
  · intro p hflag hr
    have hw := wrap64_eq_self hr
    constructor
    · intro e now_ns
      constructor
      · intro h
        obtain ⟨h1, h2, h3, _⟩ := send_due c e p now_ns hflag (by rw [hw]; exact h)
        exact ⟨h1, h2, h3⟩
      · intro h
        exact (send_quiet c e p now_ns (Or.inr (by rw [hw]; omega))).1
    · intro ticks hticks
      obtain ⟨h1, h2, h3⟩ := send_ticks_quiet c ticks p (by
        intro tick hmem
        rw [hw]
        have := hticks tick hmem
        omega)
      refine ⟨h1, fun e now_ns h => ?_⟩
      exact (send_due c e _ now_ns (by rw [h3]; exact hflag) (by rw [h2, hw]; exact h)).1
  · intro e0 a fresh hcreate hr e now_ns hnow
    obtain ⟨hflag, htime⟩ := create_setup_fields c e0 a fresh hcreate
    refine (send_due c e fresh now_ns hflag ?_).1
    rw [htime]
    unfold InRange64 at hr
    unfold wrap64
    omega


theorem on_status_message_setup_fields (e : Env) (p : Publication) (buffer : List Nat)
    (length addr : Nat) :
    (aeron_network_publication_on_status_message e p buffer length addr).pub.is_connected
      = true ∧
    (aeron_network_publication_on_status_message e p buffer length addr).pub.time_of_last_setup_ns
      = p.time_of_last_setup_ns ∧
    (aeron_network_publication_on_status_message e p buffer length
      addr).pub.should_send_setup_frame = p.should_send_setup_frame := by
  unfold aeron_network_publication_on_status_message
  cases hc : p.is_connected <;> simp [hc]

/-- C9, as stated, fails: a publication created at time 0 sends its first SETUP
at time 0, receives a status message and is connected, and its next send, at
`now_ns = 100000001`, more than `SETUP_TIMEOUT` later, emits a second SETUP. -/
theorem connected_send_emits_setup :
    (setups (aeron_network_publication_send defaults (demo_env no_frame) demo_publication
      0).events).length = 1 ∧
    (aeron_network_publication_on_status_message (demo_env no_frame)
      (aeron_network_publication_send defaults (demo_env no_frame) demo_publication 0).pub
      [] 0 0).pub.is_connected = true ∧
    (setups (aeron_network_publication_send defaults (demo_env no_frame)
      (aeron_network_publication_on_status_message (demo_env no_frame)
        (aeron_network_publication_send defaults (demo_env no_frame) demo_publication 0).pub
        [] 0 0).pub 100000001).events).length = 1 := by
  decide

/-- C9, as amended: after a status message the publication is connected, and the
next send emits no SETUP frame when `should_send_setup_frame` is clear or
`now_ns <= time_of_last_setup_ns + SETUP_TIMEOUT`; when the flag is still set and
more than `SETUP_TIMEOUT` has passed since the last SETUP, that send emits one
SETUP and clears `should_send_setup_frame`, and the send after it emits none,
for every `now_ns`. -/
theorem connected_send_setup (c : Constants) (e_sm : Env) (p : Publication)
    (buffer : List Nat) (length addr : Nat)
    (hr : InRange64 (p.time_of_last_setup_ns + c.AERON_NETWORK_PUBLICATION_SETUP_TIMEOUT_NS)) :
    (aeron_network_publication_on_status_message e_sm p buffer length addr).pub.is_connected
      = true ∧
    ∀ (e : Env) (now_ns : Int),
      ((p.should_send_setup_frame = false ∨
          now_ns ≤ p.time_of_last_setup_ns + c.AERON_NETWORK_PUBLICATION_SETUP_TIMEOUT_NS) →
        setups (aeron_network_publication_send c e
          (aeron_network_publication_on_status_message e_sm p buffer length addr).pub
          now_ns).events = []) ∧
      (p.should_send_setup_frame = true →
        now_ns > p.time_of_last_setup_ns + c.AERON_NETWORK_PUBLICATION_SETUP_TIMEOUT_NS →
        (setups (aeron_network_publication_send c e
          (aeron_network_publication_on_status_message e_sm p buffer length addr).pub
          now_ns).events).length = 1 ∧
        (aeron_network_publication_send c e
          (aeron_network_publication_on_status_message e_sm p buffer length addr).pub
          now_ns).pub.should_send_setup_frame = false ∧
        ∀ (e1 : Env) (now1 : Int),
          setups (aeron_network_publication_send c e1
            (aeron_network_publication_send c e
              (aeron_network_publication_on_status_message e_sm p buffer length addr).pub
              now_ns).pub now1).events = []) := by
  obtain ⟨hc, ht, hf⟩ := on_status_message_setup_fields e_sm p buffer length addr
  have hw := wrap64_eq_self hr
  refine ⟨hc, fun e now_ns => ⟨?_, ?_⟩⟩
  · intro h
    refine (send_quiet c e _ now_ns ?_).1
    rcases h with h | h
    · left
      rw [hf, h]
    · right
      rw [ht, hw]
      omega
  · intro hs hnow
    obtain ⟨h1, _, _, h4⟩ := send_due c e _ now_ns (by rw [hf]; exact hs)
      (by rw [ht, hw]; exact hnow)
    rw [hc] at h4
    exact ⟨h1, h4, fun e1 now1 => (send_quiet c e1 _ now1 (Or.inl h4)).1⟩

/-- C10: in a send tick that does not fail, if the call of
`aeron_network_publication_send_data` returned 0 (no data sent), `on_idle` is
called once, with `now_ns` and the sender limit as it was before the tick, and
the sender limit after the tick is the value it returned, whether or not a
heartbeat was emitted; if the call returned a positive number of bytes,
`on_idle` is not called and the sender limit is not written. -/
theorem send_idle_updates_sender_limit (c : Constants) (e : Env) (p : Publication)
    (now_ns : Int) (hok : 0 ≤ (aeron_network_publication_send c e p now_ns).result) :
    ((send_send_data c e p now_ns).result = 0 →
      (aeron_network_publication_send c e p now_ns).pub.snd_lmt_position.value
        = e.on_idle now_ns p.snd_lmt_position.value ∧
      idles (aeron_network_publication_send c e p now_ns).events
        = [(now_ns, p.snd_lmt_position.value)]) ∧
    ((send_send_data c e p now_ns).result ≠ 0 →
      (aeron_network_publication_send c e p now_ns).pub.snd_lmt_position = p.snd_lmt_position ∧
      idles (aeron_network_publication_send c e p now_ns).events = []) := by
  have hd := (send_data_pub_setup_fields c e (send_setup c e p now_ns).pub now_ns
    p.snd_pos_position.value (send_term_offset p)).2.2.1
  have hh := (heartbeat_check_pub_setup_fields c e (send_send_data c e p now_ns).pub now_ns
    (send_active_term_id p) (send_term_offset p)).2.2.1
  have hs := send_setup_snd_lmt c e p now_ns
  have hid := idles_send_data c e (send_setup c e p now_ns).pub now_ns
    p.snd_pos_position.value (send_term_offset p)
  have hih := idles_heartbeat_check c e (send_send_data c e p now_ns).pub now_ns
    (send_active_term_id p) (send_term_offset p)
  have his := idles_send_setup c e p now_ns
  have hlmt : (send_send_data c e p now_ns).pub.snd_lmt_position = p.snd_lmt_position := by
    unfold send_send_data
    rw [hd, hs]
  have hidd : idles (send_send_data c e p now_ns).events = [] := hid
  unfold aeron_network_publication_send at hok ⊢
  simp only [] at hok ⊢
  split_ifs at hok ⊢ with h1 h2 h3 h4
  · simp at hok
  · simp at hok
  · simp at hok
  · constructor
    · intro _
      simp only [idles_append, his, hidd, hih, List.nil_append]
      rw [hh, hlmt]
      exact ⟨rfl, rfl⟩
    · intro hne
      exact absurd h3 hne
  · constructor
    · intro h0
      exact absurd h0 h3
    · intro _
      simp only [idles_append, his, hidd, List.nil_append]
      exact ⟨hlmt, rfl⟩


/-! ## The statements at concrete inputs -/

theorem one_frame_within_limit (index : Nat) (offset : Int) (left limit : Nat) :
    (one_frame index offset left limit).1 ≤ limit := by
  unfold one_frame
  split_ifs with h
  · exact h.2
  · exact Nat.zero_le _

/-- C1 at a concrete input: one frame of 1024 bytes committed at offset 0, the
sender limit at 4096, `snd_pos = 0` and `now_ns = 5`. -/
theorem send_data_advances_sender_position_witness :
    (aeron_network_publication_send_data defaults (demo_env one_frame) (demo_with_limit 4096)
      5 0 0).pub.snd_pos_position.value = 0 + 1024 ∧
    (aeron_network_publication_send_data defaults (demo_env one_frame) (demo_with_limit 4096)
      5 0 0).pub.time_of_last_send_or_heartbeat_ns = 5 :=
  have h := (send_data_advances_sender_position defaults (demo_env one_frame)
    (demo_with_limit 4096) 5 0 0).1
      ⟨⟨4096, 0, 65536, 1408, 1024, 0⟩, by decide, by decide⟩
  ⟨h.2.1 (by decide), h.2.2⟩

/-- C2 at a concrete input: one frame of 1024 bytes committed at offset 0 and the
sender limit at 4096. -/
theorem send_data_batch_within_limits_witness :
    ∀ call ∈ (aeron_network_publication_send_data defaults (demo_env one_frame)
        (demo_with_limit 4096) 5 0 0).scans,
      call.available ≤ (demo_with_limit 4096).mtu_length ∧
      (call.available : Int) ≤ call.available_window :=
  (send_data_batch_within_limits defaults (demo_env one_frame) (demo_with_limit 4096)
    5 0 0).2.2.2.2.2.2 one_frame_within_limit

/-- C3 at a concrete input: a send tick of a publication with one frame of 1024
bytes to send. -/
theorem sender_position_never_decreases_witness :
    InRange64 ((demo_with_limit 4096).snd_pos_position.value +
      advance (send_send_data defaults (demo_env one_frame) (demo_with_limit 4096) 5).scans) ∧
    (demo_with_limit 4096).snd_pos_position.value ≤
      (aeron_network_publication_send defaults (demo_env one_frame) (demo_with_limit 4096)
        5).pub.snd_pos_position.value :=
  ⟨by decide,
    (sender_position_never_decreases defaults (demo_env one_frame) (demo_with_limit 4096) 5).1
      (by decide)⟩

/-- C4, as amended, at a concrete input: one frame of 1024 bytes, no padding, the
sender limit at 4096. -/
theorem send_data_keeps_position_within_limit_witness :
    (demo_with_limit 4096).snd_pos_position.value = 0 ∧
    (0 : Int) ≤ (demo_with_limit 4096).snd_lmt_position.value ∧
    InRange64 0 ∧ InRange64 (demo_with_limit 4096).snd_lmt_position.value ∧
    (∀ call ∈ (aeron_network_publication_send_data defaults (demo_env one_frame)
        (demo_with_limit 4096) 5 0 0).scans,
      0 < call.available → (call.available : Int) + call.padding ≤ call.available_window) ∧
    (aeron_network_publication_send_data defaults (demo_env one_frame) (demo_with_limit 4096)
      5 0 0).pub.snd_pos_position.value ≤ (demo_with_limit 4096).snd_lmt_position.value :=
  ⟨rfl, by decide, by decide, by decide, by decide,
    send_data_keeps_position_within_limit defaults (demo_env one_frame) (demo_with_limit 4096)
      5 0 0 rfl (by decide) (by decide) (by decide) (by decide)⟩

/-- C5 at a concrete input: the sender limit and the sender position both at 0. -/
theorem send_data_stalled_witness :
    (demo_with_limit 0).snd_lmt_position.value ≤ 0 ∧
    (0 : Int) - (demo_with_limit 0).snd_lmt_position.value < 2147483648 ∧
    (aeron_network_publication_send_data defaults (demo_env one_frame) (demo_with_limit 0)
      5 0 0).events = [] ∧
    (aeron_network_publication_send_data defaults (demo_env one_frame) (demo_with_limit 0)
      5 0 0).pub.sender_flow_control_limits_counter = 0 + 1 :=
  have h := send_data_stalled defaults (demo_env one_frame) (demo_with_limit 0) 5 0 0
    (by decide) (by decide)
  ⟨by decide, by decide, h.2.1, h.2.2.2.2.2 (by decide)⟩

/-- C7 at a concrete input: a publication created at time 0 and a check at
`now_ns = 5`, for term id 7 and term offset 0. -/
theorem heartbeat_check_emits_when_due_witness :
    InRange64 (demo_publication.time_of_last_send_or_heartbeat_ns +
      defaults.AERON_NETWORK_PUBLICATION_HEARTBEAT_TIMEOUT_NS) ∧
    (aeron_network_publication_heartbeat_message_check defaults (demo_env no_frame)
      demo_publication 5 7 0).pub.time_of_last_send_or_heartbeat_ns = 5 ∧
    (aeron_network_publication_heartbeat_message_check defaults (demo_env no_frame)
      demo_publication 5 7 0).pub.heartbeats_sent_counter = 0 + 1 :=
  have h := (heartbeat_check_emits_when_due defaults (demo_env no_frame) demo_publication 5 7 0
    (by decide)).1 (by decide)
  ⟨by decide, h.2.2.2, h.2.2.1 (by decide)⟩

/-- C8 at a concrete input: the first send of a publication created at time 0,
and a second send within the setup timeout. -/
theorem setup_frame_cadence_witness :
    (setups (aeron_network_publication_send defaults (demo_env no_frame) demo_publication
      0).events).length = 1 ∧
    setups (send_ticks defaults
      { demo_publication with time_of_last_setup_ns := 0 }
      [(demo_env no_frame, 50), (demo_env no_frame, 100000000)]).events = [] :=
  ⟨(((setup_frame_cadence defaults).1 demo_publication rfl (by decide)).1
      (demo_env no_frame) 0).1 (by decide) |>.1,
    (((setup_frame_cadence defaults).1 { demo_publication with time_of_last_setup_ns := 0 }
      rfl (by decide)).2
      [(demo_env no_frame, 50), (demo_env no_frame, 100000000)] (by decide)).1⟩

/-- C9, as amended, at a concrete input: a status message received by a
publication that has never sent a SETUP, and the two sends after it. -/
theorem connected_send_setup_witness :
    InRange64 (demo_publication.time_of_last_setup_ns +
      defaults.AERON_NETWORK_PUBLICATION_SETUP_TIMEOUT_NS) ∧
    (aeron_network_publication_send defaults (demo_env no_frame)
      (aeron_network_publication_on_status_message (demo_env no_frame) demo_publication
        [] 0 0).pub 5).pub.should_send_setup_frame = false ∧
    setups (aeron_network_publication_send defaults (demo_env no_frame)
      (aeron_network_publication_send defaults (demo_env no_frame)
        (aeron_network_publication_on_status_message (demo_env no_frame) demo_publication
          [] 0 0).pub 5).pub 200000000).events = [] :=
  have h := ((connected_send_setup defaults (demo_env no_frame) demo_publication [] 0 0
    (by decide)).2 (demo_env no_frame) 5).2 rfl (by decide)
  ⟨by decide, h.2.1, h.2.2 (demo_env no_frame) 200000000⟩

/-- C10 at a concrete input: a tick that sends one frame of 1024 bytes leaves the
sender limit at 4096. -/
theorem send_idle_updates_sender_limit_witness :
    0 ≤ (aeron_network_publication_send defaults (demo_env one_frame) (demo_with_limit 4096)
      5).result ∧
    (aeron_network_publication_send defaults (demo_env one_frame) (demo_with_limit 4096)
      5).pub.snd_lmt_position = (demo_with_limit 4096).snd_lmt_position ∧
    idles (aeron_network_publication_send defaults (demo_env one_frame) (demo_with_limit 4096)
      5).events = [] :=
  ⟨by decide,
    (send_idle_updates_sender_limit defaults (demo_env one_frame) (demo_with_limit 4096) 5
      (by decide)).2 (by decide)⟩


/-! ## Failure of a transmission -/

theorem timeouts_append (a b : List Event) : timeouts (a ++ b) = timeouts a ++ timeouts b := by
  induction a with
  | nil => rfl
  | cons x xs ih => cases x <;> simp [timeouts, ih]

theorem timeouts_send_setup (c : Constants) (e : Env) (p : Publication) (now_ns : Int) :
    timeouts (send_setup c e p now_ns).events = [] := by
  unfold send_setup aeron_network_publication_setup_message_check
  simp only []
  split_ifs <;> rfl

theorem timeouts_send_data (c : Constants) (e : Env) (p : Publication) (now_ns sp off : Int) :
    timeouts (aeron_network_publication_send_data c e p now_ns sp off).events = [] := by
  rw [send_data_events]
  split_ifs <;> rfl

theorem timeouts_heartbeat_check (c : Constants) (e : Env) (p : Publication)
    (now_ns tid off : Int) :
    timeouts (aeron_network_publication_heartbeat_message_check c e p now_ns tid off).events
      = [] := by
  unfold aeron_network_publication_heartbeat_message_check
  simp only []
  split_ifs <;> rfl

/-- C11, as amended: a call of `aeron_network_publication_send` that does not fail
(its result is not negative) calls `process_timeouts(now_ns)` exactly once; a
call that returns -1 does not call it; the result is -1 or not negative. -/
theorem send_process_timeouts (c : Constants) (e : Env) (p : Publication) (now_ns : Int) :
    (0 ≤ (aeron_network_publication_send c e p now_ns).result →
      timeouts (aeron_network_publication_send c e p now_ns).events = [now_ns]) ∧
    ((aeron_network_publication_send c e p now_ns).result < 0 →
      timeouts (aeron_network_publication_send c e p now_ns).events = []) ∧
    ((aeron_network_publication_send c e p now_ns).result = -1 ∨
      0 ≤ (aeron_network_publication_send c e p now_ns).result) := by
  have hs := timeouts_send_setup c e p now_ns
  have hd : timeouts (send_send_data c e p now_ns).events = [] :=
    timeouts_send_data c e _ now_ns _ _
  have hh := timeouts_heartbeat_check c e (send_send_data c e p now_ns).pub now_ns
    (send_active_term_id p) (send_term_offset p)
  unfold aeron_network_publication_send
  simp only []
  split_ifs with h1 h2 h3 h4
  · simp [hs]
  · simp [timeouts_append, hs, hd]
  · simp [timeouts_append, hs, hd, hh]
  · simp only [timeouts_append, hs, hd, hh, List.nil_append]
    refine ⟨fun _ => rfl, fun h => absurd h h4, Or.inr (by omega)⟩
  · simp only [timeouts_append, hs, hd, List.nil_append]
    refine ⟨fun _ => rfl, fun h => absurd h h2, Or.inr (by omega)⟩

/-- C11, as stated, fails: when the batched send of one frame returns -1, the
send tick returns -1 and has not called `process_timeouts`. -/
theorem send_failure_skips_process_timeouts :
    (aeron_network_publication_send defaults (demo_env_batch one_frame (-1))
      (demo_with_limit 4096) 5).result = -1 ∧
    timeouts (aeron_network_publication_send defaults (demo_env_batch one_frame (-1))
      (demo_with_limit 4096) 5).events = [] := by
  decide


theorem available_total_cons (call : ScanCall) (rest : List ScanCall) :
    available_total (call :: rest) =
      (if 0 < call.available then call.available else 0) + available_total rest := by
  unfold available_total
  rw [collected_cons]
  by_cases h : 0 < call.available <;> simp [h]

theorem available_total_eq_zero_of_collected_nil {calls : List ScanCall}
    (h : collected calls = []) : available_total calls = 0 := by
  unfold available_total
  rw [h]
  rfl

theorem wrap32_wrap32_add (x y : Int) : wrap32 (wrap32 x + y) = wrap32 (x + y) := by
  unfold wrap32
  omega

theorem replay_bytes_sent (idx : Nat) (calls : List ScanCall) (s : SendDataLoop) :
    (calls.foldl (send_data_collect idx) s).bytes_sent =
      if collected calls = [] then s.bytes_sent
      else wrap32 (s.bytes_sent + available_total calls) := by
  induction calls generalizing s with
  | nil => simp [collected]
  | cons call rest ih =>
    rw [List.foldl_cons, ih, collected_cons, available_total_cons]
    unfold send_data_collect
    by_cases h : call.available > 0
    · have h' : 0 < call.available := h
      simp only [h, h', if_true]
      by_cases hr : collected rest = []
      · rw [if_pos hr, available_total_eq_zero_of_collected_nil hr]
        simp
      · rw [if_neg hr, wrap32_wrap32_add]
        simp only [List.cons_ne_nil, if_false]
        congr 1
        push_cast
        ring
    · have h' : ¬ 0 < call.available := h
      simp [h, h']

theorem send_data_scanned_bytes_sent (c : Constants) (e : Env) (p : Publication)
    (sp off : Int) :
    (send_data_scanned c e p sp off).bytes_sent =
      if collected (send_data_scanned c e p sp off).scans = [] then 0
      else wrap32 (available_total (send_data_scanned c e p sp off).scans) := by
  obtain ⟨calls, _, heq, _, hscans⟩ := send_data_scanned_eq c e p sp off
  have hb := replay_bytes_sent
    (aeron_logbuffer_index_by_position c sp p.position_bits_to_shift) calls
    { available_window := wrap32 (wrap64 (p.snd_lmt_position.value - sp))
      term_offset := off, highest_pos := sp, bytes_sent := 0, iov := [], scans := [] }
  rw [← heq] at hb
  rw [hscans, hb]
  simp

theorem send_data_scanned_iov (c : Constants) (e : Env) (p : Publication) (sp off : Int) :
    (send_data_scanned c e p sp off).iov =
      (collected (send_data_scanned c e p sp off).scans).map
        (iovec_of (aeron_logbuffer_index_by_position c sp p.position_bits_to_shift)) := by
  obtain ⟨calls, _, heq, htr, hscans⟩ := send_data_scanned_eq c e p sp off
  have hiov := scan_trace_iov c e p sp _ calls _ htr
  rw [← heq] at hiov
  simp only [List.nil_append] at hiov
  rw [hscans, hiov]

theorem send_data_result (c : Constants) (e : Env) (p : Publication) (now_ns sp off : Int) :
    (aeron_network_publication_send_data c e p now_ns sp off).result =
      if (if (send_data_scanned c e p sp off).iov.length > 0 then
            e.sendmmsg (send_data_scanned c e p sp off).iov else 0) < 0 then
        (if (send_data_scanned c e p sp off).iov.length > 0 then
            e.sendmmsg (send_data_scanned c e p sp off).iov else 0)
      else (send_data_scanned c e p sp off).bytes_sent := rfl

theorem send_data_short_sends (c : Constants) (e : Env) (p : Publication)
    (now_ns sp off : Int) :
    (aeron_network_publication_send_data c e p now_ns sp off).pub.short_sends_counter =
      if (send_data_scanned c e p sp off).iov.length > 0 ∧
          e.sendmmsg (send_data_scanned c e p sp off).iov
            ≠ (send_data_scanned c e p sp off).iov.length ∧
          e.sendmmsg (send_data_scanned c e p sp off).iov ≥ 0 then
        wrap64 (p.short_sends_counter + 1)
      else p.short_sends_counter := by
  unfold aeron_network_publication_send_data
  simp only []
  split_ifs <;> simp_all

/-- C12: a short data send is counted and is not fatal. When the batched send
returns `r` with `0 <= r <` the number of datagrams handed over, `short_sends`
increases by 1, `aeron_network_publication_send_data` returns the number of
bytes scanned as available (as an `int`; the number itself, not negative, when
it is below `2^31`), the sender position is advanced past every collected range,
and the data call of the next send tick is made from the advanced position. -/
theorem send_data_short_send (c : Constants) (e : Env) (p : Publication)
    (now_ns snd_pos term_offset : Int)
    (h0 : 0 ≤ e.sendmmsg
      ((collected (aeron_network_publication_send_data c e p now_ns snd_pos term_offset).scans).map
        (iovec_of (aeron_logbuffer_index_by_position c snd_pos p.position_bits_to_shift))))
    (h1 : e.sendmmsg
      ((collected (aeron_network_publication_send_data c e p now_ns snd_pos term_offset).scans).map
        (iovec_of (aeron_logbuffer_index_by_position c snd_pos p.position_bits_to_shift)))
      < ((collected (aeron_network_publication_send_data c e p now_ns snd_pos
          term_offset).scans).length : Int)) :
    (aeron_network_publication_send_data c e p now_ns snd_pos term_offset).events =
      [Event.sendmmsg
        ((collected (aeron_network_publication_send_data c e p now_ns snd_pos
          term_offset).scans).map
          (iovec_of (aeron_logbuffer_index_by_position c snd_pos p.position_bits_to_shift)))] ∧
    (aeron_network_publication_send_data c e p now_ns snd_pos term_offset).pub.short_sends_counter
      = wrap64 (p.short_sends_counter + 1) ∧
    (InRange64 (p.short_sends_counter + 1) →
      (aeron_network_publication_send_data c e p now_ns snd_pos term_offset).pub.short_sends_counter
        = p.short_sends_counter + 1) ∧
    (aeron_network_publication_send_data c e p now_ns snd_pos term_offset).result =
      wrap32 (available_total
        (aeron_network_publication_send_data c e p now_ns snd_pos term_offset).scans) ∧
    (available_total
        (aeron_network_publication_send_data c e p now_ns snd_pos term_offset).scans
          < 2147483648 →
      (aeron_network_publication_send_data c e p now_ns snd_pos term_offset).result =
        available_total
          (aeron_network_publication_send_data c e p now_ns snd_pos term_offset).scans) ∧
    (aeron_network_publication_send_data c e p now_ns snd_pos term_offset).pub.snd_pos_position.value
      = wrap64 (snd_pos +
          advance (aeron_network_publication_send_data c e p now_ns snd_pos term_offset).scans) ∧
    (InRange64 (snd_pos +
          advance (aeron_network_publication_send_data c e p now_ns snd_pos term_offset).scans) →
      (aeron_network_publication_send_data c e p now_ns snd_pos term_offset).pub.snd_pos_position.value
        = snd_pos +
          advance (aeron_network_publication_send_data c e p now_ns snd_pos term_offset).scans) ∧
    (∀ (e2 : Env) (now2 : Int),
      send_send_data c e2
          (aeron_network_publication_send_data c e p now_ns snd_pos term_offset).pub now2 =
        aeron_network_publication_send_data c e2
          (send_setup c e2
            (aeron_network_publication_send_data c e p now_ns snd_pos term_offset).pub now2).pub
          now2
          (wrap64 (snd_pos +
            advance (aeron_network_publication_send_data c e p now_ns snd_pos term_offset).scans))
          (send_term_offset
            (aeron_network_publication_send_data c e p now_ns snd_pos term_offset).pub)) := by
  have hiov := send_data_scanned_iov c e p snd_pos term_offset
  have hbytes := send_data_scanned_bytes_sent c e p snd_pos term_offset
  have hpos := send_data_snd_pos_value c e p now_ns snd_pos term_offset
  have hshort := send_data_short_sends c e p now_ns snd_pos term_offset
  rw [send_data_scans] at h0 h1 hpos ⊢
  have hlen : (send_data_scanned c e p snd_pos term_offset).iov.length
      = (collected (send_data_scanned c e p snd_pos term_offset).scans).length := by
    rw [hiov, List.length_map]
  rw [← hiov] at h0 h1
  rw [← hlen] at h1
  have hpos_len : (send_data_scanned c e p snd_pos term_offset).iov.length > 0 := by
    have : (0 : Int) < ((send_data_scanned c e p snd_pos term_offset).iov.length : Int) := by
      omega
    exact_mod_cast this
  have hne : collected (send_data_scanned c e p snd_pos term_offset).scans ≠ [] := by
    intro h
    rw [hlen, h] at hpos_len
    exact absurd hpos_len (by simp)
  have hres : (aeron_network_publication_send_data c e p now_ns snd_pos term_offset).result
      = wrap32 (available_total (send_data_scanned c e p snd_pos term_offset).scans) := by
    have hnn : ¬ e.sendmmsg (send_data_scanned c e p snd_pos term_offset).iov < 0 := by omega
    rw [send_data_result, if_pos hpos_len, if_neg hnn, hbytes, if_neg hne]
  have hsc : (aeron_network_publication_send_data c e p now_ns snd_pos
      term_offset).pub.short_sends_counter = wrap64 (p.short_sends_counter + 1) := by
    have hneq : e.sendmmsg (send_data_scanned c e p snd_pos term_offset).iov
        ≠ (send_data_scanned c e p snd_pos term_offset).iov.length := by omega
    rw [hshort, if_pos ⟨hpos_len, hneq, h0⟩]
  rw [if_neg hne] at hpos
  refine ⟨?_, hsc, fun h => ?_, hres, fun h => ?_, hpos, fun h => ?_, fun e2 now2 => ?_⟩
  · rw [send_data_events, if_pos hpos_len, hiov]
  · rw [hsc, wrap64_eq_self h]
  · rw [hres]
    exact wrap32_eq_self (by omega) (by exact_mod_cast h)
  · rw [hpos, wrap64_eq_self h]
  · unfold send_send_data
    rw [hpos]


theorem send_setup_neg_iff (c : Constants) (e : Env) (p : Publication) (now_ns : Int) :
    (send_setup c e p now_ns).result < 0 ↔
      ∃ ev ∈ (send_setup c e p now_ns).events, endpoint_answer e ev < 0 := by
  unfold send_setup aeron_network_publication_setup_message_check
  simp only []
  split_ifs <;> simp [endpoint_answer]

theorem heartbeat_check_neg_iff (c : Constants) (e : Env) (p : Publication)
    (now_ns tid off : Int) :
    (aeron_network_publication_heartbeat_message_check c e p now_ns tid off).result < 0 ↔
      ∃ ev ∈ (aeron_network_publication_heartbeat_message_check c e p now_ns tid off).events,
        endpoint_answer e ev < 0 := by
  unfold aeron_network_publication_heartbeat_message_check
  simp only []
  split_ifs <;> simp [endpoint_answer]

theorem send_data_neg_of_event (c : Constants) (e : Env) (p : Publication)
    (now_ns sp off : Int)
    (h : ∃ ev ∈ (aeron_network_publication_send_data c e p now_ns sp off).events,
      endpoint_answer e ev < 0) :
    (aeron_network_publication_send_data c e p now_ns sp off).result < 0 ∧
    (aeron_network_publication_send_data c e p now_ns sp off).pub.short_sends_counter
      = p.short_sends_counter := by
  rw [send_data_events] at h
  rw [send_data_result, send_data_short_sends]
  by_cases hl : (send_data_scanned c e p sp off).iov.length > 0
  · rw [if_pos hl] at h
    simp only [List.mem_singleton, exists_eq_left, endpoint_answer] at h
    simp only [hl, if_true, h]
    refine ⟨trivial, ?_⟩
    rw [if_neg]
    intro hc
    omega
  · rw [if_neg hl] at h
    simp at h

theorem send_data_event_of_neg (c : Constants) (e : Env) (p : Publication)
    (now_ns sp off : Int)
    (hb : available_total (aeron_network_publication_send_data c e p now_ns sp off).scans
      < 2147483648)
    (h : (aeron_network_publication_send_data c e p now_ns sp off).result < 0) :
    ∃ ev ∈ (aeron_network_publication_send_data c e p now_ns sp off).events,
      endpoint_answer e ev < 0 := by
  rw [send_data_scans] at hb
  rw [send_data_result] at h
  rw [send_data_events]
  have hbytes := send_data_scanned_bytes_sent c e p sp off
  have hnn : 0 ≤ (send_data_scanned c e p sp off).bytes_sent := by
    rw [hbytes]
    split_ifs
    · exact le_refl _
    · rw [wrap32_eq_self (by omega) (by exact_mod_cast hb)]
      omega
  by_cases hl : (send_data_scanned c e p sp off).iov.length > 0
  · simp only [hl, if_true] at h ⊢
    by_cases hr : e.sendmmsg (send_data_scanned c e p sp off).iov < 0
    · exact ⟨_, List.mem_singleton.2 rfl, hr⟩
    · rw [if_neg hr] at h
      omega
  · simp only [hl, if_false] at h
    simp only [lt_self_iff_false, if_false] at h
    omega

/-- C13: `aeron_network_publication_send` returns -1 exactly when a transmission
made in the tick (the SETUP, the batch of data, the heartbeat) returned a
negative value (the number of bytes scanned being below `2^31`), and a
non-negative value otherwise; and a transmission that returns a negative value
does not add to `short_sends`, in the setup check, in the data send and in the
heartbeat check alike. -/
theorem send_fails_iff_transmission_fails (c : Constants) (e : Env) (p : Publication)
    (now_ns : Int) :
    ((∃ ev ∈ (aeron_network_publication_send c e p now_ns).events, endpoint_answer e ev < 0) →
      (aeron_network_publication_send c e p now_ns).result = -1) ∧
    (available_total (send_send_data c e p now_ns).scans < 2147483648 →
      (aeron_network_publication_send c e p now_ns).result = -1 →
      ∃ ev ∈ (aeron_network_publication_send c e p now_ns).events, endpoint_answer e ev < 0) ∧
    ((aeron_network_publication_send c e p now_ns).result = -1 ∨
      0 ≤ (aeron_network_publication_send c e p now_ns).result) ∧
    (∀ active_term_id term_offset : Int,
      (aeron_network_publication_setup_message_check c e p now_ns active_term_id
        term_offset).result < 0 →
      (aeron_network_publication_setup_message_check c e p now_ns active_term_id
        term_offset).pub.short_sends_counter = p.short_sends_counter) ∧
    (∀ snd_pos term_offset : Int,
      (∃ ev ∈ (aeron_network_publication_send_data c e p now_ns snd_pos term_offset).events,
        endpoint_answer e ev < 0) →
      (aeron_network_publication_send_data c e p now_ns snd_pos
        term_offset).pub.short_sends_counter = p.short_sends_counter) ∧
    (∀ active_term_id term_offset : Int,
      (aeron_network_publication_heartbeat_message_check c e p now_ns active_term_id
        term_offset).result < 0 →
      (aeron_network_publication_heartbeat_message_check c e p now_ns active_term_id
        term_offset).pub.short_sends_counter = p.short_sends_counter) := by
  have hS := send_setup_neg_iff c e p now_ns
  have hD1 : (∃ ev ∈ (send_send_data c e p now_ns).events, endpoint_answer e ev < 0) →
      (send_send_data c e p now_ns).result < 0 :=
    fun h => (send_data_neg_of_event c e _ now_ns _ _ h).1
  have hD2 : available_total (send_send_data c e p now_ns).scans < 2147483648 →
      (send_send_data c e p now_ns).result < 0 →
      ∃ ev ∈ (send_send_data c e p now_ns).events, endpoint_answer e ev < 0 :=
    fun hb h => send_data_event_of_neg c e _ now_ns _ _ hb h
  have hH := heartbeat_check_neg_iff c e (send_send_data c e p now_ns).pub now_ns
    (send_active_term_id p) (send_term_offset p)
  refine ⟨?_, ?_, ?_, ?_, ?_, ?_⟩
  · unfold aeron_network_publication_send
    simp only []
    split_ifs with h1 h2 h3 h4
    · exact fun _ => rfl
    · exact fun _ => rfl
    · exact fun _ => rfl
    · rintro ⟨ev, hmem, hneg⟩
      simp only [List.mem_append, List.mem_cons, List.mem_singleton, List.not_mem_nil,
        or_false] at hmem
      rcases hmem with ((hm | hm) | hm) | hm
      · exact absurd (hS.2 ⟨ev, hm, hneg⟩) h1
      · exact absurd (hD1 ⟨ev, hm, hneg⟩) h2
      · exact absurd (hH.2 ⟨ev, hm, hneg⟩) h4
      · rcases hm with hm | hm <;> subst hm <;> simp [endpoint_answer] at hneg
    · rintro ⟨ev, hmem, hneg⟩
      simp only [List.mem_append, List.mem_singleton] at hmem
      rcases hmem with (hm | hm) | hm
      · exact absurd (hS.2 ⟨ev, hm, hneg⟩) h1
      · exact absurd (hD1 ⟨ev, hm, hneg⟩) h2
      · subst hm
        simp [endpoint_answer] at hneg
  · intro hb
    unfold aeron_network_publication_send
    simp only []
    split_ifs with h1 h2 h3 h4
    · intro _
      exact hS.1 h1
    · intro _
      obtain ⟨ev, hm, hneg⟩ := hD2 hb h2
      exact ⟨ev, List.mem_append_right _ hm, hneg⟩
    · intro _
      obtain ⟨ev, hm, hneg⟩ := hH.1 h4
      exact ⟨ev, List.mem_append_right _ hm, hneg⟩
    · intro h
      simp only [] at h
      omega
    · intro h
      simp only [] at h
      omega
  · unfold aeron_network_publication_send
    simp only []
    split_ifs with h1 h2 h3 h4
    · exact Or.inl rfl
    · exact Or.inl rfl
    · exact Or.inl rfl
    · exact Or.inr (by simp only []; omega)
    · exact Or.inr (by simp only []; omega)
  · intro tid off
    unfold aeron_network_publication_setup_message_check
    simp only []
    split_ifs <;> simp_all
  · intro sp off h
    exact (send_data_neg_of_event c e p now_ns sp off h).2
  · intro tid off
    unfold aeron_network_publication_heartbeat_message_check
    simp only []
    split_ifs <;> simp_all

/-! ## Retransmission: lemmas and claims -/

theorem term_length_left_eq (tl : Nat) (x : Int) (h0 : 0 ≤ x) (h1 : x ≤ tl)
    (h2 : tl < 18446744073709551616) :
    (((tl + SIZE_MOD - toSize x) % SIZE_MOD : Nat) : Int) = tl - x := by
  have hk : (toSize x : Int) = x := toSize_of_nonneg h0 (by omega)
  have hle : toSize x ≤ tl := by
    have : (toSize x : Int) ≤ tl := by rw [hk]; exact h1
    exact_mod_cast this
  unfold SIZE_MOD
  have : (tl + 18446744073709551616 - toSize x) % 18446744073709551616 = tl - toSize x := by
    omega
  rw [this]
  push_cast [Nat.cast_sub hle]
  rw [hk]

theorem resend_loop_finishes (e : Env) (p : Publication) (index tl : Nat)
    (htl : tl ≤ 1073741824)
    (hscan : ∀ index offset left limit,
      (e.scan index offset left limit).1 + (e.scan index offset left limit).2 ≤ left)
    (fuel : Nat) (bytes_sent offset : Int) (remaining : Nat) (events : List Event)
    (h0 : 0 ≤ offset + bytes_sent) (h1 : offset + bytes_sent ≤ tl)
    (hfuel : (tl : Int) - (offset + bytes_sent) < fuel) :
    (resend_loop e p index tl fuel bytes_sent offset remaining events).finished = true := by
  induction fuel generalizing bytes_sent offset remaining events with
  | zero =>
    simp only [Nat.cast_zero] at hfuel
    omega
  | succ n ih =>
    unfold resend_loop
    simp only []
    have hoff : wrap32 (offset + bytes_sent) = offset + bytes_sent :=
      wrap32_eq_self (by omega) (by omega)
    rw [hoff]
    have hleft := term_length_left_eq tl (offset + bytes_sent) h0 h1 (by omega)
    have hs := hscan index (offset + bytes_sent)
      ((tl + SIZE_MOD - toSize (offset + bytes_sent)) % SIZE_MOD) p.mtu_length
    generalize (tl + SIZE_MOD - toSize (offset + bytes_sent)) % SIZE_MOD = left at hleft hs ⊢
    generalize e.scan index (offset + bytes_sent) left p.mtu_length = r at hs ⊢
    obtain ⟨a, pd⟩ := r
    simp only [] at hs ⊢
    have hsum : ((a + pd : Nat) : Int) ≤ tl - (offset + bytes_sent) := by
      rw [← hleft]
      exact_mod_cast hs
    have hlt : a + pd < 18446744073709551616 := by
      have : ((a + pd : Nat) : Int) < 18446744073709551616 := by omega
      exact_mod_cast this
    have hmod : (a + pd) % SIZE_MOD = a + pd := by
      unfold SIZE_MOD
      exact Nat.mod_eq_of_lt hlt
    rw [hmod]
    have hw : wrap32 ((a + pd : Nat) : Int) = ((a + pd : Nat) : Int) :=
      wrap32_eq_self (by omega) (by omega)
    rw [hw]
    split_ifs with ha hb hc hd
    · rfl
    · rfl
    · rfl
    · apply ih
      · omega
      · omega
      · push_cast at hsum ⊢
        omega
    · rfl


theorem resend_loop_pub (e : Env) (p : Publication) (index tl : Nat) (fuel : Nat)
    (bytes_sent offset : Int) (remaining : Nat) (events : List Event) :
    (resend_loop e p index tl fuel bytes_sent offset remaining events).pub = p ∨
    (resend_loop e p index tl fuel bytes_sent offset remaining events).pub =
      { p with short_sends_counter := wrap64 (p.short_sends_counter + 1) } := by
  induction fuel generalizing bytes_sent offset remaining events with
  | zero => exact Or.inl rfl
  | succ n ih =>
    unfold resend_loop
    simp only []
    split_ifs
    · exact Or.inl rfl
    · exact Or.inr rfl
    · exact Or.inl rfl
    · exact ih _ _ _ _
    · exact Or.inl rfl

theorem resend_term_length (p : Publication) (h0 : 0 ≤ p.term_length_mask)
    (h1 : p.term_length_mask < 1073741824) :
    (toSize (wrap32 (p.term_length_mask + 1)) : Int) = p.term_length_mask + 1 ∧
    wrap32 (toSize (wrap32 (p.term_length_mask + 1)) : Int) = p.term_length_mask + 1 := by
  have hw : wrap32 (p.term_length_mask + 1) = p.term_length_mask + 1 :=
    wrap32_eq_self (by omega) (by omega)
  have hs : (toSize (wrap32 (p.term_length_mask + 1)) : Int) = p.term_length_mask + 1 := by
    rw [hw]
    exact toSize_of_nonneg (by omega) (by omega)
  exact ⟨hs, by rw [hs, hw]⟩

/-- C14: with a term length of at most 1 GiB and `sender_position - term_length`
a 64-bit value, `aeron_network_publication_resend` honours the request exactly
when `sender_position - term_length <= resend_position < sender_position`.
When it does not, it sends nothing, changes nothing and returns 0. When it
does, then once its loop is left `retransmits_sent` has increased by 1, whatever
was sent, and nothing else but possibly `short_sends` has changed; and the loop
is left, within `term_length - term_offset + 1` iterations, when the scanner
never reports more than what is left of the term. -/
theorem resend_honours_in_range (c : Constants) (e : Env) (p : Publication)
    (term_id term_offset : Int) (length : Nat)
    (hmask0 : 0 ≤ p.term_length_mask) (hmask1 : p.term_length_mask < 1073741824)
    (hr : InRange64 (p.snd_pos_position.value - (p.term_length_mask + 1))) :
    (¬ (p.snd_pos_position.value - (p.term_length_mask + 1) ≤
          aeron_logbuffer_compute_position term_id term_offset p.position_bits_to_shift
            p.initial_term_id ∧
        aeron_logbuffer_compute_position term_id term_offset p.position_bits_to_shift
            p.initial_term_id < p.snd_pos_position.value) →
      ∀ fuel : Nat,
        (aeron_network_publication_resend c e p fuel term_id term_offset length).pub = p ∧
        (aeron_network_publication_resend c e p fuel term_id term_offset length).events = [] ∧
        (aeron_network_publication_resend c e p fuel term_id term_offset length).result = 0 ∧
        (aeron_network_publication_resend c e p fuel term_id term_offset length).finished
          = true) ∧
    ((p.snd_pos_position.value - (p.term_length_mask + 1) ≤
          aeron_logbuffer_compute_position term_id term_offset p.position_bits_to_shift
            p.initial_term_id ∧
        aeron_logbuffer_compute_position term_id term_offset p.position_bits_to_shift
            p.initial_term_id < p.snd_pos_position.value) →
      (∀ fuel : Nat,
        (aeron_network_publication_resend c e p fuel term_id term_offset length).finished
          = true →
        (aeron_network_publication_resend c e p fuel term_id term_offset
          length).pub.retransmits_sent_counter = wrap64 (p.retransmits_sent_counter + 1) ∧
        (InRange64 (p.retransmits_sent_counter + 1) →
          (aeron_network_publication_resend c e p fuel term_id term_offset
            length).pub.retransmits_sent_counter = p.retransmits_sent_counter + 1) ∧
        ((aeron_network_publication_resend c e p fuel term_id term_offset length).pub =
            { p with retransmits_sent_counter := wrap64 (p.retransmits_sent_counter + 1) } ∨
          (aeron_network_publication_resend c e p fuel term_id term_offset length).pub =
            { p with
              short_sends_counter := wrap64 (p.short_sends_counter + 1)
              retransmits_sent_counter := wrap64 (p.retransmits_sent_counter + 1) })) ∧
      ((∀ index offset left limit,
          (e.scan index offset left limit).1 + (e.scan index offset left limit).2 ≤ left) →
        0 ≤ term_offset → term_offset ≤ p.term_length_mask + 1 →
        ∀ fuel : Nat, p.term_length_mask + 1 - term_offset < fuel →
          (aeron_network_publication_resend c e p fuel term_id term_offset length).finished
            = true)) := by
  obtain ⟨hs, hw⟩ := resend_term_length p hmask0 hmask1
  have hb : wrap64 (p.snd_pos_position.value -
      wrap32 (toSize (wrap32 (p.term_length_mask + 1)) : Int)) =
      p.snd_pos_position.value - (p.term_length_mask + 1) := by
    rw [hw]
    exact wrap64_eq_self hr
  constructor
  · intro hn fuel
    unfold aeron_network_publication_resend
    simp only []
    rw [hb]
    have : ¬ (aeron_logbuffer_compute_position term_id term_offset p.position_bits_to_shift
          p.initial_term_id < p.snd_pos_position.value ∧
        aeron_logbuffer_compute_position term_id term_offset p.position_bits_to_shift
          p.initial_term_id ≥ p.snd_pos_position.value - (p.term_length_mask + 1)) :=
      fun h => hn ⟨h.2, h.1⟩
    rw [if_neg this]
    exact ⟨rfl, rfl, rfl, rfl⟩
  · intro hy
    have hc : aeron_logbuffer_compute_position term_id term_offset p.position_bits_to_shift
          p.initial_term_id < p.snd_pos_position.value ∧
        aeron_logbuffer_compute_position term_id term_offset p.position_bits_to_shift
          p.initial_term_id ≥ p.snd_pos_position.value - (p.term_length_mask + 1) :=
      ⟨hy.2, hy.1⟩
    constructor
    · intro fuel
      unfold aeron_network_publication_resend
      simp only []
      rw [hb, if_pos hc]
      intro hfin
      split_ifs at hfin ⊢ with hf
      · have hpub := resend_loop_pub e p
          (aeron_logbuffer_index_by_position c
            (aeron_logbuffer_compute_position term_id term_offset p.position_bits_to_shift
              p.initial_term_id) p.position_bits_to_shift)
          (toSize (wrap32 (p.term_length_mask + 1))) fuel 0 term_offset length []
        rcases hpub with h | h
        · rw [h]
          exact ⟨rfl, fun hi => wrap64_eq_self hi, Or.inl rfl⟩
        · rw [h]
          exact ⟨rfl, fun hi => wrap64_eq_self hi, Or.inr rfl⟩
      · exact absurd hfin hf
    · intro hscan ht0 ht1 fuel hfuel
      unfold aeron_network_publication_resend
      simp only []
      rw [hb, if_pos hc]
      have hfin := resend_loop_finishes e p
        (aeron_logbuffer_index_by_position c
          (aeron_logbuffer_compute_position term_id term_offset p.position_bits_to_shift
            p.initial_term_id) p.position_bits_to_shift)
        (toSize (wrap32 (p.term_length_mask + 1)))
        (by
          have : (toSize (wrap32 (p.term_length_mask + 1)) : Int) ≤ 1073741824 := by omega
          exact_mod_cast this)
        hscan fuel 0 term_offset length [] (by omega) (by omega) (by omega)
      rw [if_pos hfin]
      exact hfin


/-- C15, the code at the failing input: frames of 32 bytes are committed from
offset 0 to 8192, the sender position is 8192 and the MTU 1408; a resend of the
64 bytes at offset 2048 of the initial term hands five datagrams to the
endpoint, of 1408, 1408, 1408, 1408 and 512 bytes, from offset 2048 up to the
sender position. -/
theorem resend_sends_beyond_length :
    (aeron_network_publication_resend defaults (demo_env (frames_of_32 8192)) (demo_sent 8192)
      10 7 2048 64).finished = true ∧
    datagrams (aeron_network_publication_resend defaults (demo_env (frames_of_32 8192))
      (demo_sent 8192) 10 7 2048 64).events =
      [{ index := 0, offset := 2048, len := 1408 }, { index := 0, offset := 3456, len := 1408 },
        { index := 0, offset := 4864, len := 1408 }, { index := 0, offset := 6272, len := 1408 },
        { index := 0, offset := 7680, len := 512 }] := by
  decide

/-! ## Status messages, round-trip measurement and the publisher limit -/

/-- C16: `aeron_network_publication_on_status_message` sets
`time_of_last_status_message` to the reading of the epoch clock, leaves
`is_connected` true, calls the flow control strategy once, with the sender
limit as it was, the initial term id and `position_bits_to_shift` of the
publication, and stores the value it returns in the sender limit; no other field
changes, in particular not the sender position, the publisher limit,
`clean_position`, the status, the reference count or
`should_send_setup_frame`. -/
theorem on_status_message_effect (e : Env) (p : Publication) (buffer : List Nat)
    (length addr : Nat) :
    (aeron_network_publication_on_status_message e p buffer length addr).pub =
      { p with
        time_of_last_status_message := e.epoch_clock
        is_connected := true
        snd_lmt_position :=
          { p.snd_lmt_position with
            value := e.on_status_message buffer length addr p.snd_lmt_position.value
              p.initial_term_id p.position_bits_to_shift e.nano_clock } } ∧
    (aeron_network_publication_on_status_message e p buffer length addr).events =
      [Event.flow_control_on_status_message buffer length addr p.snd_lmt_position.value
        p.initial_term_id p.position_bits_to_shift e.nano_clock] ∧
    (aeron_network_publication_on_status_message e p buffer length
      addr).pub.time_of_last_status_message = e.epoch_clock ∧
    (aeron_network_publication_on_status_message e p buffer length addr).pub.is_connected
      = true ∧
    (aeron_network_publication_on_status_message e p buffer length
      addr).pub.snd_lmt_position.value =
        e.on_status_message buffer length addr p.snd_lmt_position.value
          p.initial_term_id p.position_bits_to_shift e.nano_clock ∧
    (aeron_network_publication_on_status_message e p buffer length addr).pub.snd_pos_position
      = p.snd_pos_position ∧
    (aeron_network_publication_on_status_message e p buffer length addr).pub.pub_lmt_position
      = p.pub_lmt_position ∧
    (aeron_network_publication_on_status_message e p buffer length addr).pub.clean_position
      = p.clean_position ∧
    (aeron_network_publication_on_status_message e p buffer length addr).pub.status
      = p.status ∧
    (aeron_network_publication_on_status_message e p buffer length addr).pub.refcnt
      = p.refcnt ∧
    (aeron_network_publication_on_status_message e p buffer length
      addr).pub.should_send_setup_frame = p.should_send_setup_frame := by
  unfold aeron_network_publication_on_status_message
  cases hc : p.is_connected
  · simp [hc]
  · simp only [hc, not_true_eq_false, if_false]
    and_intros
    all_goals first | rfl | trivial

theorem and_reply_flag_ne_zero (n : Nat) :
    n &&& AERON_RTTM_HEADER_REPLY_FLAG ≠ 0 ↔ n.testBit 7 = true := by
  have h128 : AERON_RTTM_HEADER_REPLY_FLAG = 2 ^ 7 := rfl
  rw [h128]
  constructor
  · intro h
    by_contra hb
    apply h
    apply Nat.zero_of_testBit_eq_false
    intro i
    rw [Nat.testBit_and, Nat.testBit_two_pow]
    by_cases hi : 7 = i
    · subst hi
      simp at hb
      simp [hb]
    · simp [hi]
  · intro h hz
    have := Nat.testBit_and n (2 ^ 7) 7
    rw [hz, Nat.testBit_two_pow_self, h] at this
    simp at this

/-- C17: `aeron_network_publication_on_rttm` sends a reply exactly when bit `0x80`
(REPLY) of the flags of the incoming frame is set: one RTTM frame with the
size of the RTTM header as frame length, flags 0, the session and stream id of
the publication, `echo_timestamp` and `receiver_id` of the incoming frame and
`reception_delta` 0. Without the bit it sends nothing. In both cases no field
of the publication changes, except `short_sends` when a reply was sent. -/
theorem on_rttm_reply (c : Constants) (e : Env) (p : Publication)
    (rttm_in_header : RttmHeader) :
    (rttm_in_header.frame_header.flags.testBit 7 = true →
      (aeron_network_publication_on_rttm c e p rttm_in_header).events =
        [Event.sendmsg_rttm
          { frame_header :=
              { frame_length := 40
                version := c.AERON_FRAME_HEADER_VERSION
                flags := 0
                type := HdrType.RTTM }
            session_id := p.session_id
            stream_id := p.stream_id
            echo_timestamp := rttm_in_header.echo_timestamp
            reception_delta := 0
            receiver_id := rttm_in_header.receiver_id }] ∧
      ((aeron_network_publication_on_rttm c e p rttm_in_header).pub = p ∨
        (aeron_network_publication_on_rttm c e p rttm_in_header).pub =
          { p with short_sends_counter := wrap64 (p.short_sends_counter + 1) })) ∧
    (rttm_in_header.frame_header.flags.testBit 7 = false →
      (aeron_network_publication_on_rttm c e p rttm_in_header).events = [] ∧
      (aeron_network_publication_on_rttm c e p rttm_in_header).pub = p) := by
  unfold aeron_network_publication_on_rttm
  constructor
  · intro h
    rw [if_pos ((and_reply_flag_ne_zero _).2 h)]
    simp only []
    refine ⟨rfl, ?_⟩
    split_ifs
    · exact Or.inr rfl
    · exact Or.inl rfl
  · intro h
    have hn : ¬ (rttm_in_header.frame_header.flags &&& AERON_RTTM_HEADER_REPLY_FLAG ≠ 0) := by
      rw [and_reply_flag_ne_zero, h]
      simp
    rw [if_neg hn]
    exact ⟨rfl, rfl⟩


theorem min_consumer_position_spec (spies : List Position) (init : Int) :
    (spies.foldl (fun min_consumer_position position =>
        if position.value < min_consumer_position then position.value
        else min_consumer_position) init = init ∨
      ∃ position ∈ spies,
        spies.foldl (fun min_consumer_position position =>
          if position.value < min_consumer_position then position.value
          else min_consumer_position) init = position.value) ∧
    spies.foldl (fun min_consumer_position position =>
        if position.value < min_consumer_position then position.value
        else min_consumer_position) init ≤ init ∧
    ∀ position ∈ spies,
      spies.foldl (fun min_consumer_position position =>
        if position.value < min_consumer_position then position.value
        else min_consumer_position) init ≤ position.value := by
  induction spies generalizing init with
  | nil => simp
  | cons first rest ih =>
    rw [List.foldl_cons]
    obtain ⟨h1, h2, h3⟩ := ih (if first.value < init then first.value else init)
    refine ⟨?_, ?_, ?_⟩
    · rcases h1 with h | ⟨position, hm, h⟩
      · by_cases hlt : first.value < init
        · right
          exact ⟨first, List.mem_cons_self _ _, by rw [h, if_pos hlt]⟩
        · left
          rw [h, if_neg hlt]
      · right
        exact ⟨position, List.mem_cons_of_mem _ hm, h⟩
    · refine le_trans h2 ?_
      split_ifs <;> omega
    · intro position hm
      rcases List.mem_cons.1 hm with h | h
      · subst h
        refine le_trans h2 ?_
        split_ifs <;> omega
      · exact h3 position h

theorem clean_buffer_pub_lmt (c : Constants) (q : Publication) (x : Int) :
    (aeron_network_publication_clean_buffer c q x).pub.pub_lmt_position = q.pub_lmt_position := by
  unfold aeron_network_publication_clean_buffer
  simp only []
  split_ifs <;> rfl

theorem update_pub_lmt_connected_eq (c : Constants) (p : Publication)
    (hc : p.is_connected = true) :
    aeron_network_publication_update_pub_lmt c p =
      if p.pub_lmt_position.value <
          wrap64 (p.subscribeable.foldl (fun min_consumer_position position =>
            if position.value < min_consumer_position then position.value
            else min_consumer_position) p.snd_pos_position.value + p.term_window_length) then
        { pub := (aeron_network_publication_clean_buffer c
            { p with
              pub_lmt_position :=
                { p.pub_lmt_position with
                  value := wrap64 (p.subscribeable.foldl (fun min_consumer_position position =>
                    if position.value < min_consumer_position then position.value
                    else min_consumer_position) p.snd_pos_position.value +
                    p.term_window_length) } }
            (wrap64 (p.subscribeable.foldl (fun min_consumer_position position =>
              if position.value < min_consumer_position then position.value
              else min_consumer_position) p.snd_pos_position.value + p.term_window_length))).pub
          events := (aeron_network_publication_clean_buffer c
            { p with
              pub_lmt_position :=
                { p.pub_lmt_position with
                  value := wrap64 (p.subscribeable.foldl (fun min_consumer_position position =>
                    if position.value < min_consumer_position then position.value
                    else min_consumer_position) p.snd_pos_position.value +
                    p.term_window_length) } }
            (wrap64 (p.subscribeable.foldl (fun min_consumer_position position =>
              if position.value < min_consumer_position then position.value
              else min_consumer_position) p.snd_pos_position.value +
              p.term_window_length))).events
          result := 1 }
      else { pub := p, events := [], result := 0 } := by
  unfold aeron_network_publication_update_pub_lmt
  simp only []
  rw [if_pos hc]

/-- C18: for a connected publication, with `m` the minimum of the sender position
and the positions of the spies, `aeron_network_publication_update_pub_lmt` leaves
the publisher limit at the maximum of its previous value and
`m + term_window_length` (a 64-bit value), returns 1 when the proposed value is
greater than the previous limit and 0 otherwise, and changes nothing, the clean
position included, in a call that returns 0. -/
theorem update_pub_lmt_connected (c : Constants) (p : Publication)
    (hc : p.is_connected = true) :
    ∃ m : Int,
      (m = p.snd_pos_position.value ∨ ∃ position ∈ p.subscribeable, m = position.value) ∧
      m ≤ p.snd_pos_position.value ∧
      (∀ position ∈ p.subscribeable, m ≤ position.value) ∧
      (aeron_network_publication_update_pub_lmt c p).pub.pub_lmt_position.value
        = max p.pub_lmt_position.value (wrap64 (m + p.term_window_length)) ∧
      ((aeron_network_publication_update_pub_lmt c p).result = 1 ↔
        p.pub_lmt_position.value < wrap64 (m + p.term_window_length)) ∧
      ((aeron_network_publication_update_pub_lmt c p).result = 0 ↔
        ¬ p.pub_lmt_position.value < wrap64 (m + p.term_window_length)) ∧
      (InRange64 (m + p.term_window_length) →
        (aeron_network_publication_update_pub_lmt c p).pub.pub_lmt_position.value
          = max p.pub_lmt_position.value (m + p.term_window_length) ∧
        ((aeron_network_publication_update_pub_lmt c p).result = 1 ↔
          p.pub_lmt_position.value < m + p.term_window_length)) ∧
      ((aeron_network_publication_update_pub_lmt c p).result = 0 →
        (aeron_network_publication_update_pub_lmt c p).pub = p ∧
        (aeron_network_publication_update_pub_lmt c p).events = []) ∧
      ((aeron_network_publication_update_pub_lmt c p).pub.clean_position ≠ p.clean_position →
        (aeron_network_publication_update_pub_lmt c p).result = 1) := by
  obtain ⟨h1, h2, h3⟩ := min_consumer_position_spec p.subscribeable p.snd_pos_position.value
  refine ⟨_, h1, h2, h3, ?_⟩
  rw [update_pub_lmt_connected_eq c p hc]
  generalize p.subscribeable.foldl (fun min_consumer_position position =>
        if position.value < min_consumer_position then position.value
        else min_consumer_position) p.snd_pos_position.value = m
  have h10 : ¬ ((1 : Int) = 0) := by decide
  have h01 : ¬ ((0 : Int) = 1) := by decide
  by_cases ha : p.pub_lmt_position.value < wrap64 (m + p.term_window_length)
  · rw [if_pos ha]
    refine ⟨?_, ⟨fun _ => ha, fun _ => rfl⟩, ⟨fun h => absurd h h10, fun h => absurd ha h⟩,
      fun hr => ?_, fun h => absurd h h10, fun _ => rfl⟩
    · show (aeron_network_publication_clean_buffer c _ _).pub.pub_lmt_position.value = _
      rw [clean_buffer_pub_lmt]
      exact (max_eq_right (le_of_lt ha)).symm
    · rw [wrap64_eq_self hr] at ha ⊢
      refine ⟨?_, ⟨fun _ => ha, fun _ => rfl⟩⟩
      show (aeron_network_publication_clean_buffer c _ _).pub.pub_lmt_position.value = _
      rw [clean_buffer_pub_lmt]
      exact (max_eq_right (le_of_lt ha)).symm
  · rw [if_neg ha]
    refine ⟨(max_eq_left (not_lt.1 ha)).symm, ⟨fun h => absurd h h01, fun h => absurd h ha⟩,
      ⟨fun _ => ha, fun _ => rfl⟩, fun hr => ?_, fun _ => ⟨rfl, rfl⟩, fun h => absurd rfl h⟩
    rw [wrap64_eq_self hr] at ha
    exact ⟨(max_eq_left (not_lt.1 ha)).symm, ⟨fun h => absurd h h01, fun h => absurd h ha⟩⟩

theorem update_pub_lmt_not_connected_eq (c : Constants) (p : Publication)
    (hc : p.is_connected = false) :
    aeron_network_publication_update_pub_lmt c p =
      { pub :=
          { p with
            pub_lmt_position :=
              { p.pub_lmt_position with
                value := min p.pub_lmt_position.value p.snd_pos_position.value } }
        events := []
        result := 0 } := by
  unfold aeron_network_publication_update_pub_lmt
  simp only []
  have hn : ¬ p.is_connected = true := by
    rw [hc]
    exact Bool.false_ne_true
  rw [if_neg hn]
  by_cases h : p.pub_lmt_position.value > p.snd_pos_position.value
  · rw [if_pos h, min_eq_right (le_of_lt h)]
  · rw [if_neg h, min_eq_left (not_lt.1 h)]

/-- C19: for a publication that is not connected,
`aeron_network_publication_update_pub_lmt` leaves the publisher limit at the
minimum of its previous value and the sender position, so at or below the
sender position, returns 0, zeroes nothing and changes no other field, the
clean position included. -/
theorem update_pub_lmt_not_connected (c : Constants) (p : Publication)
    (hc : p.is_connected = false) :
    (aeron_network_publication_update_pub_lmt c p).pub =
      { p with
        pub_lmt_position :=
          { p.pub_lmt_position with
            value := min p.pub_lmt_position.value p.snd_pos_position.value } } ∧
    (aeron_network_publication_update_pub_lmt c p).pub.pub_lmt_position.value
      = min p.pub_lmt_position.value p.snd_pos_position.value ∧
    (aeron_network_publication_update_pub_lmt c p).pub.pub_lmt_position.value
      ≤ (aeron_network_publication_update_pub_lmt c p).pub.snd_pos_position.value ∧
    (aeron_network_publication_update_pub_lmt c p).result = 0 ∧
    (aeron_network_publication_update_pub_lmt c p).pub.clean_position = p.clean_position ∧
    (aeron_network_publication_update_pub_lmt c p).events = [] := by
  rw [update_pub_lmt_not_connected_eq c p hc]
  exact ⟨rfl, rfl, min_le_right _ _, rfl, rfl, rfl⟩

/-- C20, as amended: while the publication is connected the publisher limit does
not decrease in `aeron_network_publication_update_pub_lmt`; for a publication
that is not connected the call does not raise it: it lowers it to the sender
position when it is above it and leaves it otherwise. -/
theorem update_pub_lmt_monotone_when_connected (c : Constants) (p : Publication) :
    (p.is_connected = true →
      p.pub_lmt_position.value
        ≤ (aeron_network_publication_update_pub_lmt c p).pub.pub_lmt_position.value) ∧
    (p.is_connected = false →
      (aeron_network_publication_update_pub_lmt c p).pub.pub_lmt_position.value
        ≤ p.pub_lmt_position.value ∧
      (aeron_network_publication_update_pub_lmt c p).pub.pub_lmt_position.value
        = min p.pub_lmt_position.value p.snd_pos_position.value) := by
  constructor
  · intro hc
    rw [update_pub_lmt_connected_eq c p hc]
    split_ifs with ha
    · show _ ≤ (aeron_network_publication_clean_buffer c _ _).pub.pub_lmt_position.value
      rw [clean_buffer_pub_lmt]
      exact le_of_lt ha
    · exact le_refl _
  · intro hc
    rw [update_pub_lmt_not_connected_eq c p hc]
    exact ⟨min_le_left _ _, rfl⟩

/-- C20, as stated, fails: a publication created at time 0 receives a status
message and its publisher limit is raised to 32768; after the connection
timeout `on_time_event` clears `is_connected`, and the next
`aeron_network_publication_update_pub_lmt` lowers the publisher limit to the
sender position, 0. -/
theorem update_pub_lmt_lowers_limit :
    (aeron_network_publication_update_pub_lmt defaults
      (aeron_network_publication_on_status_message (demo_env no_frame) demo_publication
        [] 0 0).pub).pub.pub_lmt_position.value = 32768 ∧
    (aeron_network_publication_update_pub_lmt defaults
      (aeron_network_publication_on_time_event defaults
        (aeron_network_publication_update_pub_lmt defaults
          (aeron_network_publication_on_status_message (demo_env no_frame) demo_publication
            [] 0 0).pub).pub 0 5001).pub).pub.pub_lmt_position.value = 0 := by
  decide

/-! ## The statements of the second group at concrete inputs -/

/-- C11, as amended, at a concrete input: a tick that sends one frame of 1024
bytes calls `process_timeouts` once. -/
theorem send_process_timeouts_witness :
    0 ≤ (aeron_network_publication_send defaults (demo_env one_frame) (demo_with_limit 4096)
      5).result ∧
    timeouts (aeron_network_publication_send defaults (demo_env one_frame) (demo_with_limit 4096)
      5).events = [5] :=
  ⟨by decide,
    (send_process_timeouts defaults (demo_env one_frame) (demo_with_limit 4096) 5).1
      (by decide)⟩

/-- C12 at a concrete input: one frame of 1024 bytes is handed to the endpoint
and the batched send returns 0. -/
theorem send_data_short_send_witness :
    (aeron_network_publication_send_data defaults (demo_env_batch one_frame 0)
      (demo_with_limit 4096) 5 0 0).pub.short_sends_counter = 0 + 1 ∧
    (aeron_network_publication_send_data defaults (demo_env_batch one_frame 0)
      (demo_with_limit 4096) 5 0 0).result = 1024 ∧
    (aeron_network_publication_send_data defaults (demo_env_batch one_frame 0)
      (demo_with_limit 4096) 5 0 0).pub.snd_pos_position.value = 0 + 1024 :=
  have h := send_data_short_send defaults (demo_env_batch one_frame 0) (demo_with_limit 4096)
    5 0 0 (by decide) (by decide)
  ⟨h.2.2.1 (by decide), h.2.2.2.2.1 (by decide), h.2.2.2.2.2.2.1 (by decide)⟩

/-- C13 at a concrete input: the batched send of one frame returns -1 and the
tick returns -1. -/
theorem send_fails_iff_transmission_fails_witness :
    (aeron_network_publication_send defaults (demo_env_batch one_frame (-1))
      (demo_with_limit 4096) 5).result = -1 :=
  (send_fails_iff_transmission_fails defaults (demo_env_batch one_frame (-1))
    (demo_with_limit 4096) 5).1
    ⟨Event.sendmmsg [{ index := 0, offset := 0, len := 1024 }], by decide, by decide⟩

/-- C14 at a concrete input: frames of 32 bytes committed up to the sender
position 8192; a resend at offset 2048 of the initial term is honoured, a resend
at the sender position is not. -/
theorem resend_honours_in_range_witness :
    (0 : Int) ≤ (demo_sent 8192).term_length_mask ∧
    (demo_sent 8192).term_length_mask < 1073741824 ∧
    InRange64 ((demo_sent 8192).snd_pos_position.value -
      ((demo_sent 8192).term_length_mask + 1)) ∧
    (aeron_network_publication_resend defaults (demo_env (frames_of_32 8192)) (demo_sent 8192)
      10 7 2048 64).pub.retransmits_sent_counter = 0 + 1 ∧
    (aeron_network_publication_resend defaults (demo_env (frames_of_32 8192)) (demo_sent 8192)
      10 7 8192 64).pub = demo_sent 8192 :=
  have h := resend_honours_in_range defaults (demo_env (frames_of_32 8192)) (demo_sent 8192)
    7 2048 64 (by decide) (by decide) (by decide)
  have h2 := resend_honours_in_range defaults (demo_env (frames_of_32 8192)) (demo_sent 8192)
    7 8192 64 (by decide) (by decide) (by decide)
  ⟨by decide, by decide, by decide,
    ((h.2 (by decide)).1 10 (by decide)).2.1 (by decide),
    (h2.1 (by decide) 10).1⟩

/-- C17 at a concrete input: an RTTM frame with flags `0x80` is answered, one with
flags 0 is not. -/
theorem on_rttm_reply_witness :
    ((aeron_network_publication_on_rttm defaults (demo_env no_frame) demo_publication
      { frame_header := { frame_length := 40, version := 0, flags := 128, type := HdrType.RTTM }
        session_id := 1, stream_id := 10, echo_timestamp := 77, reception_delta := 0
        receiver_id := 9 }).events).length = 1 ∧
    (aeron_network_publication_on_rttm defaults (demo_env no_frame) demo_publication
      { frame_header := { frame_length := 40, version := 0, flags := 0, type := HdrType.RTTM }
        session_id := 1, stream_id := 10, echo_timestamp := 77, reception_delta := 0
        receiver_id := 9 }).events = [] :=
  ⟨by
      rw [((on_rttm_reply defaults (demo_env no_frame) demo_publication _).1 (by decide)).1]
      rfl,
    ((on_rttm_reply defaults (demo_env no_frame) demo_publication _).2 (by decide)).1⟩

/-- C18 at a concrete input: a connected publication with the sender position
at 8192 and no spy; the publisher limit goes from 0 to 8192 + 32768. -/
theorem update_pub_lmt_connected_witness :
    ({ demo_sent 8192 with is_connected := true } : Publication).is_connected = true ∧
    ∃ m : Int, m ≤ 8192 ∧
      (aeron_network_publication_update_pub_lmt defaults
        { demo_sent 8192 with is_connected := true }).pub.pub_lmt_position.value
        = max 0 (wrap64 (m + 32768)) :=
  have h := update_pub_lmt_connected defaults { demo_sent 8192 with is_connected := true } rfl
  ⟨rfl, h.choose, h.choose_spec.2.1, h.choose_spec.2.2.2.1⟩

/-- C19 at a concrete input: a publication that is not connected, with the
publisher limit at 100 and the sender position at 0. -/
theorem update_pub_lmt_not_connected_witness :
    ({ demo_publication with pub_lmt_position := { counter_id := 0, value := 100 } } :
      Publication).is_connected = false ∧
    (aeron_network_publication_update_pub_lmt defaults
      { demo_publication with
        pub_lmt_position := { counter_id := 0, value := 100 } }).pub.pub_lmt_position.value
      = min 100 0 :=
  ⟨rfl,
    (update_pub_lmt_not_connected defaults
      { demo_publication with pub_lmt_position := { counter_id := 0, value := 100 } } rfl).2.1⟩

/-- C20, as amended, at a concrete input: the publisher limit of a connected
publication does not decrease. -/
theorem update_pub_lmt_monotone_when_connected_witness :
    ({ demo_sent 8192 with is_connected := true } : Publication).pub_lmt_position.value ≤
      (aeron_network_publication_update_pub_lmt defaults
        { demo_sent 8192 with is_connected := true }).pub.pub_lmt_position.value :=
  (update_pub_lmt_monotone_when_connected defaults
    { demo_sent 8192 with is_connected := true }).1 rfl

/-! ## Cleaning: lemmas and claims -/

theorem land_mask_bounds (x m : Int) (hm : 0 ≤ m) : 0 ≤ Int.land x m ∧ Int.land x m ≤ m := by
  obtain ⟨n, rfl⟩ := Int.eq_ofNat_of_zero_le hm
  cases x with
  | ofNat a =>
    show (0 : Int) ≤ ((a &&& n : Nat) : Int) ∧ ((a &&& n : Nat) : Int) ≤ (n : Int)
    exact ⟨Int.natCast_nonneg _, by exact_mod_cast Nat.and_le_right⟩
  | negSucc a =>
    show (0 : Int) ≤ ((Nat.ldiff n a : Nat) : Int) ∧ ((Nat.ldiff n a : Nat) : Int) ≤ (n : Int)
    refine ⟨Int.natCast_nonneg _, ?_⟩
    have : Nat.ldiff n a ≤ n := by
      apply Nat.le_of_testBit
      intro i hi
      rw [Nat.testBit_ldiff] at hi
      simp only [Bool.and_eq_true] at hi
      exact hi.1
    exact_mod_cast this

/-- The function `aeron_network_publication_clean_buffer` when its 32-bit and
64-bit values are the integers they stand for. -/
theorem clean_buffer_eq (c : Constants) (p : Publication) (pub_lmt : Int)
    (hm0 : 0 ≤ p.term_length_mask) (hm1 : p.term_length_mask < 536870912)
    (hc : 0 ≤ p.clean_position) (hl : InRange64 pub_lmt)
    (hr : InRange64 (pub_lmt - p.clean_position))
    (hd : pub_lmt - p.clean_position - 2 * (p.term_length_mask + 1) < 2147483648) :
    aeron_network_publication_clean_buffer c p pub_lmt =
      if pub_lmt - p.clean_position > 2 * (p.term_length_mask + 1) then
        { pub :=
            { p with
              clean_position := p.clean_position +
                min (pub_lmt - p.clean_position - 2 * (p.term_length_mask + 1))
                  (p.term_length_mask + 1 - Int.land p.clean_position p.term_length_mask) }
          events :=
            [Event.memset
              (aeron_logbuffer_index_by_position c p.clean_position p.position_bits_to_shift)
              (Int.land p.clean_position p.term_length_mask)
              (toSize (min (pub_lmt - p.clean_position - 2 * (p.term_length_mask + 1))
                (p.term_length_mask + 1 - Int.land p.clean_position p.term_length_mask)))] }
      else { pub := p, events := [] } := by
  obtain ⟨ho0, ho1⟩ := land_mask_bounds p.clean_position p.term_length_mask hm0
  have hdirty : wrap64 (pub_lmt - p.clean_position) = pub_lmt - p.clean_position :=
    wrap64_eq_self hr
  unfold InRange64 at hl hr
  unfold aeron_network_publication_clean_buffer
  simp only []
  generalize Int.land p.clean_position p.term_length_mask = off at ho0 ho1 ⊢
  have hcap : wrap32 (p.term_length_mask + 1) = p.term_length_mask + 1 :=
    wrap32_eq_self (by omega) (by omega)
  have hres : wrap32 ((p.term_length_mask + 1) * 2) = 2 * (p.term_length_mask + 1) := by
    rw [wrap32_eq_self (by omega) (by omega)]
    ring
  have hoff : wrap32 off = off := wrap32_eq_self (by omega) (by omega)
  have hleft : wrap32 (p.term_length_mask + 1 - off) = p.term_length_mask + 1 - off :=
    wrap32_eq_self (by omega) (by omega)
  rw [hcap, hres, hoff, hleft, hdirty]
  by_cases hgt : pub_lmt - p.clean_position > 2 * (p.term_length_mask + 1)
  · rw [if_pos hgt, if_pos hgt]
    have hbfc : wrap32 (wrap64 (pub_lmt - p.clean_position - 2 * (p.term_length_mask + 1)))
        = pub_lmt - p.clean_position - 2 * (p.term_length_mask + 1) := by
      rw [wrap64_eq_self (by unfold InRange64; omega)]
      exact wrap32_eq_self (by omega) (by omega)
    rw [hbfc]
    have hmin : (if pub_lmt - p.clean_position - 2 * (p.term_length_mask + 1)
          < p.term_length_mask + 1 - off
        then pub_lmt - p.clean_position - 2 * (p.term_length_mask + 1)
        else p.term_length_mask + 1 - off) =
        min (pub_lmt - p.clean_position - 2 * (p.term_length_mask + 1))
          (p.term_length_mask + 1 - off) := by
      split_ifs with h
      · exact (min_eq_left (le_of_lt h)).symm
      · exact (min_eq_right (not_lt.1 h)).symm
    rw [hmin]
    have hbound : min (pub_lmt - p.clean_position - 2 * (p.term_length_mask + 1))
          (p.term_length_mask + 1 - off)
        ≤ pub_lmt - p.clean_position - 2 * (p.term_length_mask + 1) := min_le_left _ _
    have hpos : 0 < min (pub_lmt - p.clean_position - 2 * (p.term_length_mask + 1))
          (p.term_length_mask + 1 - off) := lt_min (by omega) (by omega)
    rw [wrap64_eq_self (by unfold InRange64; omega)]
  · rw [if_neg hgt, if_neg hgt]

/-- C22: with a term length of at most 512 MiB, a clean position that is not
negative and a dirty range `pub_lmt - clean_position` that exceeds twice the
term length by less than `2^31`: when the dirty range is greater than twice the
term length, `aeron_network_publication_clean_buffer` zeroes
`min(dirty - 2 * term_length, term_length - (clean_position & mask))` bytes, at
offset `clean_position & mask` of the term buffer indexed by `clean_position`,
and advances `clean_position` by as much; the span is not empty and ends within
the term; otherwise it zeroes nothing and changes nothing. -/
theorem clean_buffer_zeroes_span (c : Constants) (p : Publication) (pub_lmt : Int)
    (hm0 : 0 ≤ p.term_length_mask) (hm1 : p.term_length_mask < 536870912)
    (hc : 0 ≤ p.clean_position) (hl : InRange64 pub_lmt)
    (hr : InRange64 (pub_lmt - p.clean_position))
    (hd : pub_lmt - p.clean_position - 2 * (p.term_length_mask + 1) < 2147483648) :
    (pub_lmt - p.clean_position > 2 * (p.term_length_mask + 1) →
      ∃ length : Nat,
        (length : Int) = min (pub_lmt - p.clean_position - 2 * (p.term_length_mask + 1))
          (p.term_length_mask + 1 - Int.land p.clean_position p.term_length_mask) ∧
        (aeron_network_publication_clean_buffer c p pub_lmt).events =
          [Event.memset
            (aeron_logbuffer_index_by_position c p.clean_position p.position_bits_to_shift)
            (Int.land p.clean_position p.term_length_mask) length] ∧
        (aeron_network_publication_clean_buffer c p pub_lmt).pub =
          { p with clean_position := p.clean_position + length } ∧
        0 < length ∧
        0 ≤ Int.land p.clean_position p.term_length_mask ∧
        Int.land p.clean_position p.term_length_mask + length ≤ p.term_length_mask + 1) ∧
    (pub_lmt - p.clean_position ≤ 2 * (p.term_length_mask + 1) →
      (aeron_network_publication_clean_buffer c p pub_lmt).pub = p ∧
      (aeron_network_publication_clean_buffer c p pub_lmt).events = []) := by
  have heq := clean_buffer_eq c p pub_lmt hm0 hm1 hc hl hr hd
  obtain ⟨ho0, ho1⟩ := land_mask_bounds p.clean_position p.term_length_mask hm0
  constructor
  · intro hgt
    rw [if_pos hgt] at heq
    have hpos : 0 < min (pub_lmt - p.clean_position - 2 * (p.term_length_mask + 1))
        (p.term_length_mask + 1 - Int.land p.clean_position p.term_length_mask) :=
      lt_min (by omega) (by omega)
    have hle : min (pub_lmt - p.clean_position - 2 * (p.term_length_mask + 1))
        (p.term_length_mask + 1 - Int.land p.clean_position p.term_length_mask)
        ≤ p.term_length_mask + 1 - Int.land p.clean_position p.term_length_mask :=
      min_le_right _ _
    have hsize := toSize_of_nonneg (le_of_lt hpos)
      (show min (pub_lmt - p.clean_position - 2 * (p.term_length_mask + 1))
        (p.term_length_mask + 1 - Int.land p.clean_position p.term_length_mask)
          < 18446744073709551616 by omega)
    refine ⟨_, hsize, by rw [heq], by rw [heq, hsize], ?_, ho0, ?_⟩
    · have : (0 : Int) < (toSize (min (pub_lmt - p.clean_position -
          2 * (p.term_length_mask + 1))
          (p.term_length_mask + 1 - Int.land p.clean_position p.term_length_mask)) : Int) := by
        rw [hsize]
        exact hpos
      exact_mod_cast this
    · rw [hsize]
      omega
  · intro hle
    rw [if_neg (by omega)] at heq
    rw [heq]
    exact ⟨rfl, rfl⟩

theorem clean_buffer_calls_succ (c : Constants) (pub_lmt : Int) (n : Nat) (p : Publication) :
    clean_buffer_calls c pub_lmt (n + 1) p =
      { pub := (clean_buffer_calls c pub_lmt n
          (aeron_network_publication_clean_buffer c p pub_lmt).pub).pub
        events := (aeron_network_publication_clean_buffer c p pub_lmt).events ++
          (clean_buffer_calls c pub_lmt n
            (aeron_network_publication_clean_buffer c p pub_lmt).pub).events } := rfl

/-- Every `memset` of a run of `aeron_network_publication_clean_buffer` starts
at the byte of a position `q` at or above the clean position of the start, is
not empty, ends within the term of `q` and, as positions, at or below
`pub_lmt - 2 * term_length`. -/
theorem clean_buffer_calls_events (c : Constants) (pub_lmt mask : Int) (bits : Nat)
    (hm0 : 0 ≤ mask) (hm1 : mask < 536870912) (hl : InRange64 pub_lmt) (n : Nat) :
    ∀ p : Publication,
      p.term_length_mask = mask → p.position_bits_to_shift = bits →
      0 ≤ p.clean_position → p.clean_position ≤ pub_lmt →
      pub_lmt - p.clean_position - 2 * (mask + 1) < 2147483648 →
      ∀ event ∈ (clean_buffer_calls c pub_lmt n p).events,
        ∃ (q : Int) (length : Nat),
          event = Event.memset (aeron_logbuffer_index_by_position c q bits)
            (Int.land q mask) length ∧
          p.clean_position ≤ q ∧ 0 < length ∧
          q + length ≤ pub_lmt - 2 * (mask + 1) ∧
          Int.land q mask + length ≤ mask + 1 := by
  induction n with
  | zero =>
    intro p _ _ _ _ _ event hmem
    exact absurd hmem (List.not_mem_nil _)
  | succ n ih =>
    intro p hmask hbits hc hle hd event hmem
    have hr : InRange64 (pub_lmt - p.clean_position) := by
      unfold InRange64 at hl ⊢
      omega
    have heq := clean_buffer_eq c p pub_lmt (by rw [hmask]; exact hm0)
      (by rw [hmask]; exact hm1) hc hl hr (by rw [hmask]; exact hd)
    obtain ⟨ho0, ho1⟩ := land_mask_bounds p.clean_position p.term_length_mask
      (by rw [hmask]; exact hm0)
    rw [clean_buffer_calls_succ] at hmem
    have hmem1 : event ∈ (aeron_network_publication_clean_buffer c p pub_lmt).events ++
        (clean_buffer_calls c pub_lmt n
          (aeron_network_publication_clean_buffer c p pub_lmt).pub).events := hmem
    by_cases hgt : pub_lmt - p.clean_position > 2 * (p.term_length_mask + 1)
    · rw [if_pos hgt] at heq
      have hpos : 0 < min (pub_lmt - p.clean_position - 2 * (p.term_length_mask + 1))
          (p.term_length_mask + 1 - Int.land p.clean_position p.term_length_mask) :=
        lt_min (by omega) (by omega)
      have hle1 : min (pub_lmt - p.clean_position - 2 * (p.term_length_mask + 1))
          (p.term_length_mask + 1 - Int.land p.clean_position p.term_length_mask)
          ≤ pub_lmt - p.clean_position - 2 * (p.term_length_mask + 1) := min_le_left _ _
      have hle2 : min (pub_lmt - p.clean_position - 2 * (p.term_length_mask + 1))
          (p.term_length_mask + 1 - Int.land p.clean_position p.term_length_mask)
          ≤ p.term_length_mask + 1 - Int.land p.clean_position p.term_length_mask :=
        min_le_right _ _
      have hsize := toSize_of_nonneg (le_of_lt hpos)
        (show min (pub_lmt - p.clean_position - 2 * (p.term_length_mask + 1))
          (p.term_length_mask + 1 - Int.land p.clean_position p.term_length_mask)
            < 18446744073709551616 by omega)
      generalize min (pub_lmt - p.clean_position - 2 * (p.term_length_mask + 1))
          (p.term_length_mask + 1 - Int.land p.clean_position p.term_length_mask) = len
        at heq hpos hle1 hle2 hsize
      rw [heq] at hmem1
      rcases List.mem_append.1 hmem1 with h1 | h1
      · have hev : event = Event.memset
            (aeron_logbuffer_index_by_position c p.clean_position p.position_bits_to_shift)
            (Int.land p.clean_position p.term_length_mask) (toSize len) :=
          List.mem_singleton.1 h1
        rw [hmask, hbits] at hev
        rw [hmask] at ho0 ho1 hle1 hle2
        refine ⟨p.clean_position, toSize len, hev, le_refl _, ?_, ?_, ?_⟩
        · have : (0 : Int) < (toSize len : Int) := by rw [hsize]; exact hpos
          exact_mod_cast this
        · rw [hsize]
          omega
        · rw [hsize]
          omega
      · obtain ⟨q, length, h2, h3, h4⟩ := ih { p with clean_position := p.clean_position + len }
          hmask hbits (by show 0 ≤ p.clean_position + len; omega)
          (by show p.clean_position + len ≤ pub_lmt; omega)
          (by show pub_lmt - (p.clean_position + len) - 2 * (mask + 1) < 2147483648; omega)
          event h1
        have h3' : p.clean_position + len ≤ q := h3
        exact ⟨q, length, h2, by omega, h4⟩
    · rw [if_neg hgt] at heq
      rw [heq] at hmem1
      have h1 : event ∈ (clean_buffer_calls c pub_lmt n p).events := by
        rcases List.mem_append.1 hmem1 with h | h
        · exact absurd h (List.not_mem_nil _)
        · exact h
      exact ih p hmask hbits hc hle hd event h1

theorem land_mask_eq_mod (x : Int) (k : Nat) (h : 0 ≤ x) :
    Int.land x (2 ^ k - 1) = x % 2 ^ k := by
  obtain ⟨n, rfl⟩ := Int.eq_ofNat_of_zero_le h
  have h2 : ((2 : Int) ^ k - 1) = ((2 ^ k - 1 : Nat) : Int) := by
    have : 1 ≤ 2 ^ k := Nat.one_le_two_pow
    push_cast [Nat.cast_sub this]
    rfl
  rw [h2]
  show ((n &&& (2 ^ k - 1) : Nat) : Int) = _
  rw [Nat.and_pow_two_sub_one_eq_mod]
  push_cast
  rfl

theorem index_by_position_eq (c : Constants) (x : Int) (bits : Nat)
    (hn : 0 < c.AERON_LOGBUFFER_PARTITION_COUNT)
    (hn1 : c.AERON_LOGBUFFER_PARTITION_COUNT < 18446744073709551616) :
    (aeron_logbuffer_index_by_position c x bits : Int) =
      (x / 2 ^ bits) % (c.AERON_LOGBUFFER_PARTITION_COUNT : Int) := by
  unfold aeron_logbuffer_index_by_position
  rw [Int.shiftRight_eq_div_pow]
  have hn' : (0 : Int) < (c.AERON_LOGBUFFER_PARTITION_COUNT : Int) := by exact_mod_cast hn
  have hn1' : (c.AERON_LOGBUFFER_PARTITION_COUNT : Int) < 18446744073709551616 := by
    exact_mod_cast hn1
  have h0 := Int.emod_nonneg (x / ((2 ^ bits : Nat) : Int)) (ne_of_gt hn')
  have h1 := Int.emod_lt_of_pos (x / ((2 ^ bits : Nat) : Int)) hn'
  push_cast at h0 h1 ⊢
  exact toSize_of_nonneg h0 (by omega)

/-- Two positions less than `N` terms apart, `N` the number of term buffers,
do not share a byte: a span that starts at the byte of `q` and is not longer
than `x - q` does not hold the byte of `x` when `x < q + N * term_length`. -/
theorem position_byte_distinct (c : Constants) (bits : Nat) (q x : Int) (length : Nat)
    (hn : 0 < c.AERON_LOGBUFFER_PARTITION_COUNT)
    (hn1 : c.AERON_LOGBUFFER_PARTITION_COUNT < 18446744073709551616)
    (hbelow : q + length ≤ x)
    (hnear : x < q + c.AERON_LOGBUFFER_PARTITION_COUNT * 2 ^ bits) :
    ¬ (aeron_logbuffer_index_by_position c q bits = aeron_logbuffer_index_by_position c x bits ∧
        q % 2 ^ bits ≤ x % 2 ^ bits ∧ x % 2 ^ bits < q % 2 ^ bits + length) := by
  rintro ⟨hidx, ho1, ho2⟩
  have hidx' : (aeron_logbuffer_index_by_position c q bits : Int)
      = (aeron_logbuffer_index_by_position c x bits : Int) := by rw [hidx]
  rw [index_by_position_eq c q bits hn hn1, index_by_position_eq c x bits hn hn1] at hidx'
  have htl : (0 : Int) < 2 ^ bits := by positivity
  have hxd := Int.emod_add_ediv x (2 ^ bits)
  have hqd := Int.emod_add_ediv q (2 ^ bits)
  have hq0 := Int.emod_nonneg q (ne_of_gt htl)
  have hx0 := Int.emod_nonneg x (ne_of_gt htl)
  have hx1 := Int.emod_lt_of_pos x htl
  generalize (2 : Int) ^ bits = tl at *
  generalize x % tl = r at *
  generalize q % tl = s at *
  generalize x / tl = a at *
  generalize q / tl = b at *
  generalize (c.AERON_LOGBUFFER_PARTITION_COUNT : Int) = n at *
  have hn' : 0 < n := by
    by_contra hneg
    have h1 : n * tl ≤ 0 := mul_nonpos_of_nonpos_of_nonneg (by omega) (le_of_lt htl)
    omega
  have hmod : (a - b) % n = 0 := Int.emod_eq_emod_iff_emod_sub_eq_zero.1 hidx'.symm
  have hab1 : 0 < a - b := by
    by_contra hneg
    have h1 : tl * (a - b) ≤ 0 := mul_nonpos_of_nonneg_of_nonpos (le_of_lt htl) (by omega)
    have h2 : tl * (a - b) = tl * a - tl * b := by ring
    omega
  have hab2 : a - b < n := by
    by_contra hneg
    have h1 : tl * n ≤ tl * (a - b) := mul_le_mul_of_nonneg_left (by omega) (le_of_lt htl)
    have h2 : tl * (a - b) = tl * a - tl * b := by ring
    have h3 : tl * n = n * tl := by ring
    omega
  rw [Int.emod_eq_of_lt (le_of_lt hab1) hab2] at hmod
  omega


theorem clean_buffer_calls_fixed (c : Constants) (pub_lmt : Int) (p : Publication)
    (h : aeron_network_publication_clean_buffer c p pub_lmt = { pub := p, events := [] })
    (k : Nat) :
    clean_buffer_calls c pub_lmt k p = { pub := p, events := [] } := by
  induction k with
  | zero => rfl
  | succ k ih =>
    rw [clean_buffer_calls_succ, h]
    show ({ pub := (clean_buffer_calls c pub_lmt k p).pub
            events := [] ++ (clean_buffer_calls c pub_lmt k p).events } : Effect) = _
    rw [ih]
    rfl

theorem clean_buffer_calls_converges (c : Constants) (pub_lmt : Int) (d : Nat) :
    ∀ p : Publication,
      0 ≤ p.term_length_mask → p.term_length_mask < 536870912 →
      0 ≤ p.clean_position → p.clean_position ≤ pub_lmt → InRange64 pub_lmt →
      pub_lmt - p.clean_position - 2 * (p.term_length_mask + 1) < 2147483648 →
      pub_lmt - 2 * (p.term_length_mask + 1) - p.clean_position ≤ d →
      ∃ n : Nat, n ≤ d ∧
        (clean_buffer_calls c pub_lmt n p).pub.clean_position
          = max p.clean_position (pub_lmt - 2 * (p.term_length_mask + 1)) ∧
        (∀ k : Nat, n ≤ k →
          clean_buffer_calls c pub_lmt k p = clean_buffer_calls c pub_lmt n p) ∧
        (∀ k : Nat, (clean_buffer_calls c pub_lmt k p).pub.clean_position
          ≤ max p.clean_position (pub_lmt - 2 * (p.term_length_mask + 1))) ∧
        (∀ k : Nat,
          p.clean_position ≤ (clean_buffer_calls c pub_lmt k p).pub.clean_position) := by
  induction d with
  | zero =>
    intro p hm0 hm1 hc hle hl hd hmeasure
    have hr : InRange64 (pub_lmt - p.clean_position) := by
      unfold InRange64 at hl ⊢
      omega
    have heq := clean_buffer_eq c p pub_lmt hm0 hm1 hc hl hr hd
    have hn : ¬ pub_lmt - p.clean_position > 2 * (p.term_length_mask + 1) := by
      simp only [Nat.cast_zero] at hmeasure
      omega
    rw [if_neg hn] at heq
    have hmax : max p.clean_position (pub_lmt - 2 * (p.term_length_mask + 1))
        = p.clean_position := max_eq_left (by omega)
    refine ⟨0, le_refl _, ?_, ?_, ?_, ?_⟩
    · rw [hmax]
      rfl
    · intro k _
      rw [clean_buffer_calls_fixed c pub_lmt p heq k]
      rfl
    · intro k
      rw [clean_buffer_calls_fixed c pub_lmt p heq k, hmax]
    · intro k
      rw [clean_buffer_calls_fixed c pub_lmt p heq k]
  | succ d ih =>
    intro p hm0 hm1 hc hle hl hd hmeasure
    have hr : InRange64 (pub_lmt - p.clean_position) := by
      unfold InRange64 at hl ⊢
      omega
    have heq := clean_buffer_eq c p pub_lmt hm0 hm1 hc hl hr hd
    by_cases hgt : pub_lmt - p.clean_position > 2 * (p.term_length_mask + 1)
    · rw [if_pos hgt] at heq
      obtain ⟨ho0, ho1⟩ := land_mask_bounds p.clean_position p.term_length_mask hm0
      have hlen1 : 0 < min (pub_lmt - p.clean_position - 2 * (p.term_length_mask + 1))
          (p.term_length_mask + 1 - Int.land p.clean_position p.term_length_mask) :=
        lt_min (by omega) (by omega)
      have hlen2 : min (pub_lmt - p.clean_position - 2 * (p.term_length_mask + 1))
          (p.term_length_mask + 1 - Int.land p.clean_position p.term_length_mask)
          ≤ pub_lmt - p.clean_position - 2 * (p.term_length_mask + 1) := min_le_left _ _
      generalize min (pub_lmt - p.clean_position - 2 * (p.term_length_mask + 1))
          (p.term_length_mask + 1 - Int.land p.clean_position p.term_length_mask) = len
        at heq hlen1 hlen2
      generalize [Event.memset
          (aeron_logbuffer_index_by_position c p.clean_position p.position_bits_to_shift)
          (Int.land p.clean_position p.term_length_mask) (toSize len)] = first at heq
      obtain ⟨n, hn, h1, h2, h3, h4⟩ := ih { p with clean_position := p.clean_position + len }
        hm0 hm1 (by show 0 ≤ p.clean_position + len; omega)
        (by show p.clean_position + len ≤ pub_lmt; omega) hl
        (by show pub_lmt - (p.clean_position + len) - 2 * (p.term_length_mask + 1) < _; omega)
        (by
          show pub_lmt - 2 * (p.term_length_mask + 1) - (p.clean_position + len) ≤ (d : Int)
          push_cast at hmeasure
          omega)
      have hmax' : max (p.clean_position + len) (pub_lmt - 2 * (p.term_length_mask + 1))
          = pub_lmt - 2 * (p.term_length_mask + 1) := max_eq_right (by omega)
      have hmax : max p.clean_position (pub_lmt - 2 * (p.term_length_mask + 1))
          = pub_lmt - 2 * (p.term_length_mask + 1) := max_eq_right (by omega)
      have hsucc : ∀ k : Nat, clean_buffer_calls c pub_lmt (k + 1) p =
          { pub := (clean_buffer_calls c pub_lmt k
              { p with clean_position := p.clean_position + len }).pub
            events := first ++ (clean_buffer_calls c pub_lmt k
              { p with clean_position := p.clean_position + len }).events } := by
        intro k
        rw [clean_buffer_calls_succ, heq]
      refine ⟨n + 1, by omega, ?_, ?_, ?_, ?_⟩
      · rw [hsucc, hmax]
        exact h1.trans hmax'
      · intro k hk
        obtain ⟨k', rfl⟩ : ∃ k', k = k' + 1 := ⟨k - 1, by omega⟩
        rw [hsucc, hsucc, h2 k' (by omega)]
      · intro k
        cases k with
        | zero => exact le_max_left _ _
        | succ k' =>
          rw [hsucc, hmax]
          have := h3 k'
          rw [hmax'] at this
          exact this
      · intro k
        cases k with
        | zero => exact le_refl _
        | succ k' =>
          rw [hsucc]
          have := h4 k'
          have hstart : ({ p with clean_position := p.clean_position + len } :
              Publication).clean_position = p.clean_position + len := rfl
          rw [hstart] at this
          show p.clean_position ≤ (clean_buffer_calls c pub_lmt k'
            { p with clean_position := p.clean_position + len }).pub.clean_position
          omega
    · rw [if_neg hgt] at heq
      have hmax : max p.clean_position (pub_lmt - 2 * (p.term_length_mask + 1))
          = p.clean_position := max_eq_left (by omega)
      refine ⟨0, Nat.zero_le _, ?_, ?_, ?_, ?_⟩
      · rw [hmax]
        rfl
      · intro k _
        rw [clean_buffer_calls_fixed c pub_lmt p heq k]
        rfl
      · intro k
        rw [clean_buffer_calls_fixed c pub_lmt p heq k, hmax]
      · intro k
        rw [clean_buffer_calls_fixed c pub_lmt p heq k]

/-- C24, as amended: with a term length of at most 512 MiB and a clean position
between 0 and `pub_lmt`, less than `2^31` bytes below
`pub_lmt - 2 * term_length`: repeated calls of
`aeron_network_publication_clean_buffer` with the same `pub_lmt` reach, after at
most `pub_lmt - 2 * term_length - clean_position` calls, a state from which
further calls change nothing and zero nothing, with `clean_position` at the
maximum of its starting value and `pub_lmt - 2 * term_length`;
`clean_position` never decreases on the way and never passes that maximum.
Every `memset` made starts at the byte of a position `q` at or above the
starting clean position, ends within the term of `q` and, as positions, at or
below `pub_lmt - 2 * term_length`. With `N` term buffers of `2 ^ bits` bytes,
when the starting clean position is at least `pub_lmt - N * term_length` no
byte of a position of the two terms below `pub_lmt` is zeroed. With a term
length of 64 KiB, the clean position at 0 and `pub_lmt` at 200 KiB the calls
leave the clean position at 64 KiB, then at 72 KiB, and the third call changes
nothing. -/
theorem clean_buffer_settles (c : Constants) (p : Publication) (pub_lmt : Int)
    (hm0 : 0 ≤ p.term_length_mask) (hm1 : p.term_length_mask < 536870912)
    (hc : 0 ≤ p.clean_position) (hle : p.clean_position ≤ pub_lmt) (hl : InRange64 pub_lmt)
    (hd : pub_lmt - p.clean_position - 2 * (p.term_length_mask + 1) < 2147483648) :
    (∃ n : Nat,
      (n : Int) ≤ max 0 (pub_lmt - 2 * (p.term_length_mask + 1) - p.clean_position) ∧
      (clean_buffer_calls c pub_lmt n p).pub.clean_position
        = max p.clean_position (pub_lmt - 2 * (p.term_length_mask + 1)) ∧
      (∀ k : Nat, n ≤ k →
        clean_buffer_calls c pub_lmt k p = clean_buffer_calls c pub_lmt n p) ∧
      (∀ k : Nat, (clean_buffer_calls c pub_lmt k p).pub.clean_position
        ≤ max p.clean_position (pub_lmt - 2 * (p.term_length_mask + 1))) ∧
      (∀ k : Nat, p.clean_position ≤ (clean_buffer_calls c pub_lmt k p).pub.clean_position) ∧
      (∀ k : Nat, (clean_buffer_calls c pub_lmt k p).pub.clean_position ≠ p.clean_position →
        (clean_buffer_calls c pub_lmt k p).pub.clean_position
          ≤ pub_lmt - 2 * (p.term_length_mask + 1))) ∧
    (∀ k : Nat, ∀ event ∈ (clean_buffer_calls c pub_lmt k p).events,
      ∃ (q : Int) (length : Nat),
        event = Event.memset
          (aeron_logbuffer_index_by_position c q p.position_bits_to_shift)
          (Int.land q p.term_length_mask) length ∧
        p.clean_position ≤ q ∧ 0 < length ∧
        q + length ≤ pub_lmt - 2 * (p.term_length_mask + 1) ∧
        Int.land q p.term_length_mask + length ≤ p.term_length_mask + 1) ∧
    (p.term_length_mask + 1 = 2 ^ p.position_bits_to_shift →
      0 < c.AERON_LOGBUFFER_PARTITION_COUNT →
      c.AERON_LOGBUFFER_PARTITION_COUNT < 18446744073709551616 →
      pub_lmt - c.AERON_LOGBUFFER_PARTITION_COUNT * (p.term_length_mask + 1)
        ≤ p.clean_position →
      ∀ (k : Nat) (x : Int),
        pub_lmt - 2 * (p.term_length_mask + 1) ≤ x → x < pub_lmt →
        ¬ zeroed (clean_buffer_calls c pub_lmt k p).events
          (aeron_logbuffer_index_by_position c x p.position_bits_to_shift)
          (Int.land x p.term_length_mask)) ∧
    (demo_publication.term_length_mask + 1 = 65536 ∧ demo_publication.clean_position = 0 ∧
      (clean_buffer_calls defaults 204800 1 demo_publication).pub.clean_position = 65536 ∧
      (clean_buffer_calls defaults 204800 2 demo_publication).pub.clean_position = 73728 ∧
      (clean_buffer_calls defaults 204800 3 demo_publication).pub
        = (clean_buffer_calls defaults 204800 2 demo_publication).pub ∧
      (clean_buffer_calls defaults 204800 2 demo_publication).events
        = [Event.memset 0 0 65536, Event.memset 1 0 8192] ∧
      (clean_buffer_calls defaults 204800 3 demo_publication).events
        = [Event.memset 0 0 65536, Event.memset 1 0 8192]) := by
  have hev := clean_buffer_calls_events c pub_lmt p.term_length_mask p.position_bits_to_shift
    hm0 hm1 hl
  refine ⟨?_, fun k => hev k p rfl rfl hc hle hd, ?_, by decide⟩
  · obtain ⟨n, hn, h1, h2, h3, h4⟩ := clean_buffer_calls_converges c pub_lmt
      (pub_lmt - 2 * (p.term_length_mask + 1) - p.clean_position).toNat p hm0 hm1 hc hle hl hd
      (Int.self_le_toNat _)
    refine ⟨n, ?_, h1, h2, h3, h4, ?_⟩
    · have : (n : Int) ≤
          ((pub_lmt - 2 * (p.term_length_mask + 1) - p.clean_position).toNat : Int) := by
        exact_mod_cast hn
      rw [Int.toNat_eq_max] at this
      rw [max_comm]
      exact this
    · intro k hne
      have h3k := h3 k
      have h4k := h4 k
      rcases le_total p.clean_position (pub_lmt - 2 * (p.term_length_mask + 1)) with h | h
      · rw [max_eq_right h] at h3k
        exact h3k
      · rw [max_eq_left h] at h3k
        exact absurd (le_antisymm h3k h4k) hne
  · intro hpow hn hn1 hnear k x hx0 hx1 hz
    obtain ⟨event, hmem, hcov⟩ := hz
    obtain ⟨q, length, hevent, hq1, _, hq3, _⟩ := hev k p rfl rfl hc hle hd event hmem
    rw [hevent] at hcov
    have hcov' : aeron_logbuffer_index_by_position c q p.position_bits_to_shift =
        aeron_logbuffer_index_by_position c x p.position_bits_to_shift ∧
        Int.land q p.term_length_mask ≤ Int.land x p.term_length_mask ∧
        Int.land x p.term_length_mask < Int.land q p.term_length_mask + length := by
      simpa [memset_covers] using hcov
    have hmask : p.term_length_mask = 2 ^ p.position_bits_to_shift - 1 := by omega
    rw [hmask, land_mask_eq_mod q _ (by omega), land_mask_eq_mod x _ (by omega)] at hcov'
    refine position_byte_distinct c p.position_bits_to_shift q x length hn hn1 (by omega) ?_
      hcov'
    rw [← hpow]
    omega

/-- C24, as stated, fails: the buffer bytes of the two terms below `pub_lmt` are
zeroed when the clean position starts more than three term lengths below
`pub_lmt`. In the example of the claim (term length 64 KiB, clean position 0,
`pub_lmt` 200 KiB) the first call zeroes all of term buffer 0, and position
196608, which is within two term lengths of `pub_lmt`, is held at offset 0 of
term buffer 0; the same happens with `pub_lmt` at 256 KiB, where buffer 0 holds
the term just below `pub_lmt`. -/
theorem clean_buffer_zeroes_recent_term :
    (demo_publication.clean_position ≤ 204800 ∧
      (clean_buffer_calls defaults 204800 1 demo_publication).events
        = [Event.memset 0 0 65536] ∧
      204800 - 2 * (demo_publication.term_length_mask + 1) ≤ 196608 ∧
      (196608 : Int) < 204800 ∧
      aeron_logbuffer_index_by_position defaults 196608
        demo_publication.position_bits_to_shift = 0 ∧
      Int.land 196608 demo_publication.term_length_mask = 0 ∧
      zeroed (clean_buffer_calls defaults 204800 1 demo_publication).events
        (aeron_logbuffer_index_by_position defaults 196608
          demo_publication.position_bits_to_shift)
        (Int.land 196608 demo_publication.term_length_mask)) ∧
    (demo_publication.clean_position ≤ 262144 ∧
      (clean_buffer_calls defaults 262144 1 demo_publication).events
        = [Event.memset 0 0 65536] ∧
      262144 - 2 * (demo_publication.term_length_mask + 1) ≤ 196608 ∧
      (196608 : Int) < 262144 ∧
      zeroed (clean_buffer_calls defaults 262144 1 demo_publication).events
        (aeron_logbuffer_index_by_position defaults 196608
          demo_publication.position_bits_to_shift)
        (Int.land 196608 demo_publication.term_length_mask)) := by
  decide

/-! ## The publisher limit and the clean position -/

theorem clean_buffer_frame (c : Constants) (q : Publication) (x : Int) :
    (aeron_network_publication_clean_buffer c q x).pub =
      { q with clean_position :=
          (aeron_network_publication_clean_buffer c q x).pub.clean_position } := by
  unfold aeron_network_publication_clean_buffer
  simp only []
  split_ifs <;> rfl

theorem update_pub_lmt_frame (c : Constants) (p : Publication) :
    (aeron_network_publication_update_pub_lmt c p).pub =
      { p with
        clean_position := (aeron_network_publication_update_pub_lmt c p).pub.clean_position
        pub_lmt_position :=
          { p.pub_lmt_position with
            value := (aeron_network_publication_update_pub_lmt c p).pub.pub_lmt_position.value } } := by
  unfold aeron_network_publication_update_pub_lmt aeron_network_publication_clean_buffer
  simp only []
  split_ifs <;> rfl

theorem update_pub_lmt_min_consumer_position (c : Constants) (p : Publication) :
    min_consumer_position (aeron_network_publication_update_pub_lmt c p).pub
      = min_consumer_position p := by
  rw [update_pub_lmt_frame]
  rfl

/-- What a connected call of `aeron_network_publication_update_pub_lmt` that
raises the limit leaves, when the arithmetic stays within the machine
integers. -/
theorem update_pub_lmt_raises (c : Constants) (p : Publication)
    (hc : p.is_connected = true)
    (hm0 : 0 ≤ p.term_length_mask) (hm1 : p.term_length_mask < 536870912)
    (hc0 : 0 ≤ p.clean_position)
    (hr : InRange64 (min_consumer_position p + p.term_window_length))
    (hrd : InRange64 (min_consumer_position p + p.term_window_length - p.clean_position))
    (hd : min_consumer_position p + p.term_window_length - p.clean_position -
      2 * (p.term_length_mask + 1) < 2147483648)
    (ha : p.pub_lmt_position.value < min_consumer_position p + p.term_window_length) :
    (aeron_network_publication_update_pub_lmt c p).result = 1 ∧
    (aeron_network_publication_update_pub_lmt c p).pub.pub_lmt_position.value
      = min_consumer_position p + p.term_window_length ∧
    (aeron_network_publication_update_pub_lmt c p).pub.clean_position =
      if min_consumer_position p + p.term_window_length - p.clean_position
          > 2 * (p.term_length_mask + 1) then
        p.clean_position +
          min (min_consumer_position p + p.term_window_length - p.clean_position -
              2 * (p.term_length_mask + 1))
            (p.term_length_mask + 1 - Int.land p.clean_position p.term_length_mask)
      else p.clean_position := by
  rw [update_pub_lmt_connected_eq c p hc]
  unfold min_consumer_position at hr hrd hd ha ⊢
  generalize p.subscribeable.foldl (fun min_consumer_position position =>
        if position.value < min_consumer_position then position.value
        else min_consumer_position) p.snd_pos_position.value = m at hr hrd hd ha ⊢
  rw [wrap64_eq_self hr, if_pos ha]
  have h := clean_buffer_eq c
    { p with pub_lmt_position :=
        { p.pub_lmt_position with value := m + p.term_window_length } }
    (m + p.term_window_length) hm0 hm1 hc0 hr hrd hd
  dsimp only at h
  refine ⟨rfl, ?_, ?_⟩
  · show (aeron_network_publication_clean_buffer c _ _).pub.pub_lmt_position.value = _
    rw [clean_buffer_pub_lmt]
  · show (aeron_network_publication_clean_buffer c _ _).pub.clean_position = _
    rw [h]
    by_cases hgt : m + p.term_window_length - p.clean_position > 2 * (p.term_length_mask + 1)
    · rw [if_pos hgt, if_pos hgt]
    · rw [if_neg hgt, if_neg hgt]

/-- What a call of `aeron_network_publication_update_pub_lmt` that does not
raise the limit leaves. -/
theorem update_pub_lmt_keeps (c : Constants) (p : Publication)
    (hr : InRange64 (min_consumer_position p + p.term_window_length))
    (ha : p.is_connected = true →
      ¬ p.pub_lmt_position.value < min_consumer_position p + p.term_window_length) :
    (aeron_network_publication_update_pub_lmt c p).result = 0 ∧
    (aeron_network_publication_update_pub_lmt c p).pub.clean_position = p.clean_position ∧
    (aeron_network_publication_update_pub_lmt c p).pub.pub_lmt_position.value =
      if p.is_connected = true then p.pub_lmt_position.value
      else min p.pub_lmt_position.value p.snd_pos_position.value := by
  by_cases hc : p.is_connected = true
  · have ha1 := ha hc
    rw [update_pub_lmt_connected_eq c p hc, if_pos hc]
    unfold min_consumer_position at hr ha1
    rw [wrap64_eq_self hr, if_neg ha1]
    exact ⟨rfl, rfl, rfl⟩
  · have hc1 : p.is_connected = false := by
      cases h : p.is_connected
      · rfl
      · exact absurd h hc
    rw [update_pub_lmt_not_connected_eq c p hc1, if_neg hc]
    exact ⟨rfl, rfl, rfl⟩

/-- C21, as amended: for a connected publication, with `m` the minimum of the
sender position and the spy positions and `m + term_window_length` a 64-bit
value, `aeron_network_publication_update_pub_lmt` leaves `m` as it is and the
publisher limit at the maximum of its previous value and
`m + term_window_length`. So after the call the limit exceeds `m` by at most
`term_window_length` when the previous limit did, and in every call that
returns 1; when the previous limit was above `m + term_window_length` the call
keeps it there. -/
theorem update_pub_lmt_window_bound (c : Constants) (p : Publication)
    (hc : p.is_connected = true)
    (hr : InRange64 (min_consumer_position p + p.term_window_length)) :
    min_consumer_position (aeron_network_publication_update_pub_lmt c p).pub
      = min_consumer_position p ∧
    min_consumer_position p ≤ p.snd_pos_position.value ∧
    (∀ position ∈ p.subscribeable, min_consumer_position p ≤ position.value) ∧
    (min_consumer_position p = p.snd_pos_position.value ∨
      ∃ position ∈ p.subscribeable, min_consumer_position p = position.value) ∧
    (aeron_network_publication_update_pub_lmt c p).pub.pub_lmt_position.value
      = max p.pub_lmt_position.value (min_consumer_position p + p.term_window_length) ∧
    (p.pub_lmt_position.value - min_consumer_position p ≤ p.term_window_length →
      (aeron_network_publication_update_pub_lmt c p).pub.pub_lmt_position.value -
        min_consumer_position (aeron_network_publication_update_pub_lmt c p).pub
          ≤ p.term_window_length) ∧
    ((aeron_network_publication_update_pub_lmt c p).result = 1 →
      (aeron_network_publication_update_pub_lmt c p).pub.pub_lmt_position.value -
        min_consumer_position (aeron_network_publication_update_pub_lmt c p).pub
          = p.term_window_length) ∧
    (p.term_window_length < p.pub_lmt_position.value - min_consumer_position p →
      (aeron_network_publication_update_pub_lmt c p).pub.pub_lmt_position.value
        = p.pub_lmt_position.value ∧
      p.term_window_length <
        (aeron_network_publication_update_pub_lmt c p).pub.pub_lmt_position.value -
          min_consumer_position (aeron_network_publication_update_pub_lmt c p).pub) := by
  obtain ⟨h1, h2, h3⟩ := min_consumer_position_spec p.subscribeable p.snd_pos_position.value
  have hmin := update_pub_lmt_min_consumer_position c p
  have hlim : (aeron_network_publication_update_pub_lmt c p).pub.pub_lmt_position.value
      = max p.pub_lmt_position.value (min_consumer_position p + p.term_window_length) ∧
      ((aeron_network_publication_update_pub_lmt c p).result = 1 →
        p.pub_lmt_position.value < min_consumer_position p + p.term_window_length) := by
    rw [update_pub_lmt_connected_eq c p hc]
    unfold min_consumer_position at hr ⊢
    rw [wrap64_eq_self hr]
    by_cases ha : p.pub_lmt_position.value <
        p.subscribeable.foldl (fun min_consumer_position position =>
          if position.value < min_consumer_position then position.value
          else min_consumer_position) p.snd_pos_position.value + p.term_window_length
    · rw [if_pos ha]
      refine ⟨?_, fun _ => ha⟩
      show (aeron_network_publication_clean_buffer c _ _).pub.pub_lmt_position.value = _
      rw [clean_buffer_pub_lmt]
      exact (max_eq_right (le_of_lt ha)).symm
    · rw [if_neg ha]
      refine ⟨(max_eq_left (not_lt.1 ha)).symm, fun h => ?_⟩
      have h01 : ¬ ((0 : Int) = 1) := by decide
      exact absurd h h01
  obtain ⟨hval, hres⟩ := hlim
  rw [hmin, hval]
  refine ⟨rfl, h2, h3, ?_, rfl, ?_, ?_, ?_⟩
  · rcases h1 with h | ⟨position, hmem, h⟩
    · exact Or.inl h
    · exact Or.inr ⟨position, hmem, h⟩
  · intro hle
    rw [max_eq_right (by omega)]
    omega
  · intro h
    have := hres h
    rw [max_eq_right (by omega)]
    omega
  · intro hlt
    rw [max_eq_left (by omega)]
    exact ⟨rfl, hlt⟩

/-- C21, as stated, fails: a connected publication with the publisher limit at
132768, the sender position at 100000, a window of 32768 and a spy whose
position reads 0: the call returns 0 and leaves the limit at 132768, which
exceeds the minimum consumer position, 0, by more than the window. -/
theorem update_pub_lmt_limit_beyond_window :
    (demo_connected 132768 100000 0 [{ counter_id := 5, value := 0 }]).is_connected = true ∧
    (demo_connected 132768 100000 0 [{ counter_id := 5, value := 0 }]).term_window_length
      = 32768 ∧
    min_consumer_position (demo_connected 132768 100000 0 [{ counter_id := 5, value := 0 }])
      = 0 ∧
    (aeron_network_publication_update_pub_lmt defaults
      (demo_connected 132768 100000 0 [{ counter_id := 5, value := 0 }])).result = 0 ∧
    (aeron_network_publication_update_pub_lmt defaults
      (demo_connected 132768 100000 0
        [{ counter_id := 5, value := 0 }])).pub.pub_lmt_position.value = 132768 ∧
    min_consumer_position
      (aeron_network_publication_update_pub_lmt defaults
        (demo_connected 132768 100000 0 [{ counter_id := 5, value := 0 }])).pub = 0 ∧
    ¬ (aeron_network_publication_update_pub_lmt defaults
        (demo_connected 132768 100000 0
          [{ counter_id := 5, value := 0 }])).pub.pub_lmt_position.value -
      min_consumer_position
        (aeron_network_publication_update_pub_lmt defaults
          (demo_connected 132768 100000 0 [{ counter_id := 5, value := 0 }])).pub
      ≤ (demo_connected 132768 100000 0 [{ counter_id := 5, value := 0 }]).term_window_length := by
  decide

/-- C23, as amended: with a term length of at most 512 MiB, a clean position
that is not negative, `m` the minimum of the sender position and the spy
positions, `m + term_window_length` and its distance to the clean position
64-bit values, and that distance less than `2^31` beyond twice the term
length. `aeron_network_publication_update_pub_lmt` returns 1 exactly when the
publication is connected and the limit is below `m + term_window_length`; it
then leaves the limit at that value and zeroes at most to the end of the term
of the clean position, so with `dirty` the distance of the new limit to the
previous clean position and `left` the bytes left in the term of the clean
position, the distance of the limit to the clean position after the call is
`dirty` when `dirty <= 2 * term_length` and the greater of `2 * term_length`
and `dirty - left` otherwise: at most `2 * term_length` when
`dirty <= 2 * term_length + left`, and more than that otherwise. A call that
returns 0 does not increase the distance. -/
theorem update_pub_lmt_clean_distance (c : Constants) (p : Publication)
    (hm0 : 0 ≤ p.term_length_mask) (hm1 : p.term_length_mask < 536870912)
    (hc0 : 0 ≤ p.clean_position)
    (hr : InRange64 (min_consumer_position p + p.term_window_length))
    (hrd : InRange64 (min_consumer_position p + p.term_window_length - p.clean_position))
    (hd : min_consumer_position p + p.term_window_length - p.clean_position -
      2 * (p.term_length_mask + 1) < 2147483648) :
    ((aeron_network_publication_update_pub_lmt c p).result = 1 ↔
      (p.is_connected = true ∧
        p.pub_lmt_position.value < min_consumer_position p + p.term_window_length)) ∧
    ((aeron_network_publication_update_pub_lmt c p).result = 1 →
      (aeron_network_publication_update_pub_lmt c p).pub.pub_lmt_position.value
        = min_consumer_position p + p.term_window_length ∧
      (aeron_network_publication_update_pub_lmt c p).pub.pub_lmt_position.value -
          (aeron_network_publication_update_pub_lmt c p).pub.clean_position =
        (if min_consumer_position p + p.term_window_length - p.clean_position
            ≤ 2 * (p.term_length_mask + 1) then
          min_consumer_position p + p.term_window_length - p.clean_position
        else
          max (2 * (p.term_length_mask + 1))
            (min_consumer_position p + p.term_window_length - p.clean_position -
              (p.term_length_mask + 1 - Int.land p.clean_position p.term_length_mask))) ∧
      (min_consumer_position p + p.term_window_length - p.clean_position
          ≤ 2 * (p.term_length_mask + 1) +
            (p.term_length_mask + 1 - Int.land p.clean_position p.term_length_mask) →
        (aeron_network_publication_update_pub_lmt c p).pub.pub_lmt_position.value -
          (aeron_network_publication_update_pub_lmt c p).pub.clean_position
            ≤ 2 * (p.term_length_mask + 1)) ∧
      (2 * (p.term_length_mask + 1) +
            (p.term_length_mask + 1 - Int.land p.clean_position p.term_length_mask)
          < min_consumer_position p + p.term_window_length - p.clean_position →
        2 * (p.term_length_mask + 1) <
          (aeron_network_publication_update_pub_lmt c p).pub.pub_lmt_position.value -
            (aeron_network_publication_update_pub_lmt c p).pub.clean_position)) ∧
    ((aeron_network_publication_update_pub_lmt c p).result = 0 →
      (aeron_network_publication_update_pub_lmt c p).pub.pub_lmt_position.value -
          (aeron_network_publication_update_pub_lmt c p).pub.clean_position
        ≤ p.pub_lmt_position.value - p.clean_position) := by
  obtain ⟨ho0, ho1⟩ := land_mask_bounds p.clean_position p.term_length_mask hm0
  have h10 : ¬ ((1 : Int) = 0) := by decide
  have h01 : ¬ ((0 : Int) = 1) := by decide
  by_cases hraise : p.is_connected = true ∧
      p.pub_lmt_position.value < min_consumer_position p + p.term_window_length
  · obtain ⟨hres, hlim, hclean⟩ :=
      update_pub_lmt_raises c p hraise.1 hm0 hm1 hc0 hr hrd hd hraise.2
    rw [hres, hlim, hclean]
    generalize min_consumer_position p + p.term_window_length = limit at *
    generalize Int.land p.clean_position p.term_length_mask = offset at *
    refine ⟨⟨fun _ => hraise, fun _ => rfl⟩, fun _ => ⟨rfl, ?_, ?_, ?_⟩, fun h => absurd h h10⟩
    · by_cases hgt : limit - p.clean_position > 2 * (p.term_length_mask + 1)
      · rw [if_pos hgt, if_neg (by omega)]
        rcases le_total (limit - p.clean_position - 2 * (p.term_length_mask + 1))
          (p.term_length_mask + 1 - offset) with hle | hle
        · rw [min_eq_left hle, max_eq_left (by omega)]
          omega
        · rw [min_eq_right hle, max_eq_right (by omega)]
          omega
      · rw [if_neg hgt, if_pos (by omega)]
    · intro hfit
      by_cases hgt : limit - p.clean_position > 2 * (p.term_length_mask + 1)
      · rw [if_pos hgt, min_eq_left (by omega)]
        omega
      · rw [if_neg hgt]
        omega
    · intro hbeyond
      rw [if_pos (by omega), min_eq_right (by omega)]
      omega
  · obtain ⟨hres, hclean, hlim⟩ := update_pub_lmt_keeps c p hr (fun hc hlt => hraise ⟨hc, hlt⟩)
    rw [hres, hlim, hclean]
    refine ⟨⟨fun h => absurd h h01, fun h => absurd h hraise⟩, fun h => absurd h h01, fun _ => ?_⟩
    by_cases hc : p.is_connected = true
    · rw [if_pos hc]
    · rw [if_neg hc]
      have := min_le_left p.pub_lmt_position.value p.snd_pos_position.value
      omega

/-- C23, as stated, fails. A connected publication with term length 65536 and
window 32768, clean position 65504, publisher limit and sender position at
196576 (the limit is `2 * term_length` above the clean position): the call
raises the limit to 229344 and zeroes the 32 bytes left in the term of the clean
position, which leaves the limit 163808 above the clean position, 65536. With
clean position 0, limit 0 and the sender position at 172032 the call raises the
limit to 204800, zeroes the first term and leaves the limit 139264 above the
clean position. -/
theorem update_pub_lmt_leaves_dirty_range :
    (demo_connected 196576 196576 65504 []).pub_lmt_position.value -
      (demo_connected 196576 196576 65504 []).clean_position
        = 2 * ((demo_connected 196576 196576 65504 []).term_length_mask + 1) ∧
    (aeron_network_publication_update_pub_lmt defaults
      (demo_connected 196576 196576 65504 [])).result = 1 ∧
    (aeron_network_publication_update_pub_lmt defaults
      (demo_connected 196576 196576 65504 [])).events = [Event.memset 0 65504 32] ∧
    (aeron_network_publication_update_pub_lmt defaults
      (demo_connected 196576 196576 65504 [])).pub.pub_lmt_position.value = 229344 ∧
    (aeron_network_publication_update_pub_lmt defaults
      (demo_connected 196576 196576 65504 [])).pub.clean_position = 65536 ∧
    (aeron_network_publication_update_pub_lmt defaults
      (demo_connected 196576 196576 65504 [])).pub.term_length_mask + 1 = 65536 ∧
    (aeron_network_publication_update_pub_lmt defaults
      (demo_connected 0 172032 0 [])).events = [Event.memset 0 0 65536] ∧
    (aeron_network_publication_update_pub_lmt defaults
      (demo_connected 0 172032 0 [])).pub.pub_lmt_position.value = 204800 ∧
    (aeron_network_publication_update_pub_lmt defaults
      (demo_connected 0 172032 0 [])).pub.clean_position = 65536 := by
  decide

/-! ## The clean position stays below the publisher limit -/

theorem setup_check_limit_fields (c : Constants) (e : Env) (p : Publication)
    (now_ns tid off : Int) :
    (aeron_network_publication_setup_message_check c e p now_ns tid off).pub.clean_position
      = p.clean_position ∧
    (aeron_network_publication_setup_message_check c e p now_ns tid off).pub.pub_lmt_position
      = p.pub_lmt_position ∧
    (aeron_network_publication_setup_message_check c e p now_ns tid off).pub.term_length_mask
      = p.term_length_mask ∧
    (aeron_network_publication_setup_message_check c e p now_ns tid off).pub.term_window_length
      = p.term_window_length := by
  unfold aeron_network_publication_setup_message_check
  simp only []
  split_ifs <;> exact ⟨rfl, rfl, rfl, rfl⟩

theorem heartbeat_check_limit_fields (c : Constants) (e : Env) (p : Publication)
    (now_ns tid off : Int) :
    (aeron_network_publication_heartbeat_message_check c e p now_ns tid off).pub.clean_position
      = p.clean_position ∧
    (aeron_network_publication_heartbeat_message_check c e p now_ns tid off).pub.pub_lmt_position
      = p.pub_lmt_position ∧
    (aeron_network_publication_heartbeat_message_check c e p now_ns tid off).pub.term_length_mask
      = p.term_length_mask ∧
    (aeron_network_publication_heartbeat_message_check c e p now_ns tid
      off).pub.term_window_length = p.term_window_length := by
  unfold aeron_network_publication_heartbeat_message_check
  simp only []
  split_ifs <;> exact ⟨rfl, rfl, rfl, rfl⟩

theorem send_data_limit_fields (c : Constants) (e : Env) (p : Publication)
    (now_ns sp off : Int) :
    (aeron_network_publication_send_data c e p now_ns sp off).pub.clean_position
      = p.clean_position ∧
    (aeron_network_publication_send_data c e p now_ns sp off).pub.pub_lmt_position
      = p.pub_lmt_position ∧
    (aeron_network_publication_send_data c e p now_ns sp off).pub.term_length_mask
      = p.term_length_mask ∧
    (aeron_network_publication_send_data c e p now_ns sp off).pub.term_window_length
      = p.term_window_length := by
  unfold aeron_network_publication_send_data
  simp only []
  split_ifs <;> exact ⟨rfl, rfl, rfl, rfl⟩

theorem send_setup_limit_fields (c : Constants) (e : Env) (p : Publication) (now_ns : Int) :
    (send_setup c e p now_ns).pub.clean_position = p.clean_position ∧
    (send_setup c e p now_ns).pub.pub_lmt_position = p.pub_lmt_position ∧
    (send_setup c e p now_ns).pub.term_length_mask = p.term_length_mask ∧
    (send_setup c e p now_ns).pub.term_window_length = p.term_window_length := by
  unfold send_setup
  split_ifs
  · exact setup_check_limit_fields _ _ _ _ _ _
  · exact ⟨rfl, rfl, rfl, rfl⟩

theorem send_limit_fields (c : Constants) (e : Env) (p : Publication) (now_ns : Int) :
    (aeron_network_publication_send c e p now_ns).pub.clean_position = p.clean_position ∧
    (aeron_network_publication_send c e p now_ns).pub.pub_lmt_position = p.pub_lmt_position ∧
    (aeron_network_publication_send c e p now_ns).pub.term_length_mask = p.term_length_mask ∧
    (aeron_network_publication_send c e p now_ns).pub.term_window_length
      = p.term_window_length := by
  obtain ⟨hs1, hs2, hs3, hs4⟩ := send_setup_limit_fields c e p now_ns
  obtain ⟨hd1, hd2, hd3, hd4⟩ := send_data_limit_fields c e (send_setup c e p now_ns).pub now_ns
    p.snd_pos_position.value (send_term_offset p)
  have hh := heartbeat_check_limit_fields c e (send_send_data c e p now_ns).pub now_ns
    (send_active_term_id p) (send_term_offset p)
  unfold send_send_data at hh
  obtain ⟨hh1, hh2, hh3, hh4⟩ := hh
  rw [hd1, hs1] at hh1
  rw [hd2, hs2] at hh2
  rw [hd3, hs3] at hh3
  rw [hd4, hs4] at hh4
  rw [hs1] at hd1
  rw [hs2] at hd2
  rw [hs3] at hd3
  rw [hs4] at hd4
  unfold aeron_network_publication_send send_send_data
  simp only []
  split_ifs
  · exact ⟨hs1, hs2, hs3, hs4⟩
  · exact ⟨hd1, hd2, hd3, hd4⟩
  · exact ⟨hh1, hh2, hh3, hh4⟩
  · exact ⟨hh1, hh2, hh3, hh4⟩
  · exact ⟨hd1, hd2, hd3, hd4⟩

theorem send_snd_pos_le (c : Constants) (e : Env) (p : Publication) (now_ns : Int)
    (hr : InRange64 (p.snd_pos_position.value + advance (send_send_data c e p now_ns).scans)) :
    p.snd_pos_position.value
      ≤ (aeron_network_publication_send c e p now_ns).pub.snd_pos_position.value := by
  rcases send_snd_pos c e p now_ns with h | h
  · rw [h]
  · rw [h]
    unfold send_send_data at hr ⊢
    rw [send_data_snd_pos_value]
    split_ifs
    · rw [send_setup_snd_pos]
    · rw [wrap64_eq_self hr]
      omega

theorem on_status_message_limit_fields (e : Env) (p : Publication) (buffer : List Nat)
    (length addr : Nat) :
    (aeron_network_publication_on_status_message e p buffer length addr).pub.clean_position
      = p.clean_position ∧
    (aeron_network_publication_on_status_message e p buffer length addr).pub.pub_lmt_position
      = p.pub_lmt_position ∧
    (aeron_network_publication_on_status_message e p buffer length addr).pub.term_length_mask
      = p.term_length_mask ∧
    (aeron_network_publication_on_status_message e p buffer length addr).pub.term_window_length
      = p.term_window_length := by
  unfold aeron_network_publication_on_status_message
  simp only []
  split_ifs <;> exact ⟨rfl, rfl, rfl, rfl⟩

theorem on_time_event_limit_fields (c : Constants) (p : Publication) (now_ns now_ms : Int) :
    (aeron_network_publication_on_time_event c p now_ns now_ms).pub.clean_position
      = p.clean_position ∧
    (aeron_network_publication_on_time_event c p now_ns now_ms).pub.pub_lmt_position
      = p.pub_lmt_position ∧
    (aeron_network_publication_on_time_event c p now_ns now_ms).pub.term_length_mask
      = p.term_length_mask ∧
    (aeron_network_publication_on_time_event c p now_ns now_ms).pub.term_window_length
      = p.term_window_length := by
  unfold aeron_network_publication_on_time_event
    aeron_network_publication_spies_not_behind_sender
  cases p.status <;> simp only [] <;> (try split_ifs) <;>
    (and_intros <;> first | rfl | trivial)

theorem update_pub_lmt_term_fields (c : Constants) (p : Publication) :
    (aeron_network_publication_update_pub_lmt c p).pub.term_length_mask = p.term_length_mask ∧
    (aeron_network_publication_update_pub_lmt c p).pub.term_window_length
      = p.term_window_length := by
  rw [update_pub_lmt_frame]
  exact ⟨rfl, rfl⟩

/-- One call keeps the clean position between 0 and both the publisher limit and
the sender position. -/
theorem after_call_clean_position (c : Constants) (p : Publication) (call : Call)
    (hm0 : 0 ≤ p.term_length_mask) (hm1 : p.term_length_mask < 536870912)
    (hw : p.term_window_length ≤ 2 * (p.term_length_mask + 1))
    (h0 : 0 ≤ p.clean_position) (h1 : p.clean_position ≤ p.pub_lmt_position.value)
    (h2 : p.clean_position ≤ p.snd_pos_position.value)
    (hr : CallInRange c p call) :
    0 ≤ (after_call c p call).clean_position ∧
    (after_call c p call).clean_position ≤ (after_call c p call).pub_lmt_position.value ∧
    (after_call c p call).clean_position ≤ (after_call c p call).snd_pos_position.value ∧
    (after_call c p call).term_length_mask = p.term_length_mask ∧
    (after_call c p call).term_window_length = p.term_window_length := by
  cases call with
  | send e now_ns =>
    obtain ⟨f1, f2, f3, f4⟩ := send_limit_fields c e p now_ns
    have hle := send_snd_pos_le c e p now_ns hr
    show 0 ≤ (aeron_network_publication_send c e p now_ns).pub.clean_position ∧
      (aeron_network_publication_send c e p now_ns).pub.clean_position
        ≤ (aeron_network_publication_send c e p now_ns).pub.pub_lmt_position.value ∧
      (aeron_network_publication_send c e p now_ns).pub.clean_position
        ≤ (aeron_network_publication_send c e p now_ns).pub.snd_pos_position.value ∧ _ ∧ _
    rw [f1, f2]
    exact ⟨h0, h1, le_trans h2 hle, f3, f4⟩
  | on_status_message e buffer length addr =>
    obtain ⟨f1, f2, f3, f4⟩ := on_status_message_limit_fields e p buffer length addr
    have f5 := on_status_message_snd_pos e p buffer length addr
    show 0 ≤ (aeron_network_publication_on_status_message e p buffer length
        addr).pub.clean_position ∧
      (aeron_network_publication_on_status_message e p buffer length addr).pub.clean_position
        ≤ (aeron_network_publication_on_status_message e p buffer length
          addr).pub.pub_lmt_position.value ∧
      (aeron_network_publication_on_status_message e p buffer length addr).pub.clean_position
        ≤ (aeron_network_publication_on_status_message e p buffer length
          addr).pub.snd_pos_position.value ∧ _ ∧ _
    rw [f1, f2, f5]
    exact ⟨h0, h1, h2, f3, f4⟩
  | on_time_event now_ns now_ms =>
    obtain ⟨f1, f2, f3, f4⟩ := on_time_event_limit_fields c p now_ns now_ms
    have f5 := on_time_event_snd_pos c p now_ns now_ms
    show 0 ≤ (aeron_network_publication_on_time_event c p now_ns now_ms).pub.clean_position ∧
      (aeron_network_publication_on_time_event c p now_ns now_ms).pub.clean_position
        ≤ (aeron_network_publication_on_time_event c p now_ns now_ms).pub.pub_lmt_position.value ∧
      (aeron_network_publication_on_time_event c p now_ns now_ms).pub.clean_position
        ≤ (aeron_network_publication_on_time_event c p now_ns now_ms).pub.snd_pos_position.value
        ∧ _ ∧ _
    rw [f1, f2, f5]
    exact ⟨h0, h1, h2, f3, f4⟩
  | update_pub_lmt =>
    obtain ⟨hr1, hr2⟩ := hr
    obtain ⟨f3, f4⟩ := update_pub_lmt_term_fields c p
    have f5 := update_pub_lmt_snd_pos c p
    have hmin1 : min_consumer_position p ≤ p.snd_pos_position.value :=
      (min_consumer_position_spec p.subscribeable p.snd_pos_position.value).2.1
    obtain ⟨ho0, ho1⟩ := land_mask_bounds p.clean_position p.term_length_mask hm0
    show 0 ≤ (aeron_network_publication_update_pub_lmt c p).pub.clean_position ∧
      (aeron_network_publication_update_pub_lmt c p).pub.clean_position
        ≤ (aeron_network_publication_update_pub_lmt c p).pub.pub_lmt_position.value ∧
      (aeron_network_publication_update_pub_lmt c p).pub.clean_position
        ≤ (aeron_network_publication_update_pub_lmt c p).pub.snd_pos_position.value ∧ _ ∧ _
    rw [f5]
    refine ⟨?_, ?_, ?_, f3, f4⟩
    all_goals
      by_cases hraise : p.is_connected = true ∧
        p.pub_lmt_position.value < min_consumer_position p + p.term_window_length
      · have hrd : InRange64
            (min_consumer_position p + p.term_window_length - p.clean_position) := by
          unfold InRange64 at hr1 ⊢
          omega
        obtain ⟨_, hlim, hclean⟩ :=
          update_pub_lmt_raises c p hraise.1 hm0 hm1 h0 hr1 hrd hr2 hraise.2
        rw [hclean]
        try rw [hlim]
        clear hclean
        generalize min_consumer_position p = m at *
        generalize Int.land p.clean_position p.term_length_mask = offset at *
        by_cases hgt : m + p.term_window_length - p.clean_position
            > 2 * (p.term_length_mask + 1)
        · rw [if_pos hgt]
          have hlen0 : 0 < min (m + p.term_window_length - p.clean_position -
              2 * (p.term_length_mask + 1))
              (p.term_length_mask + 1 - offset) := lt_min (by omega) (by omega)
          have hlen1 : min (m + p.term_window_length - p.clean_position -
              2 * (p.term_length_mask + 1))
              (p.term_length_mask + 1 - offset)
              ≤ m + p.term_window_length - p.clean_position -
                2 * (p.term_length_mask + 1) := min_le_left _ _
          omega
        · rw [if_neg hgt]
          omega
      · obtain ⟨_, hclean, hlim⟩ :=
          update_pub_lmt_keeps c p hr1 (fun hc hlt => hraise ⟨hc, hlt⟩)
        rw [hclean]
        try rw [hlim]
        try
          (by_cases hc : p.is_connected = true
           · rw [if_pos hc]
             exact h1
           · rw [if_neg hc]
             exact le_min h1 h2)
        try exact h0
        try exact h2

theorem after_calls_clean_position (c : Constants) (calls : List Call) :
    ∀ p : Publication,
      0 ≤ p.term_length_mask → p.term_length_mask < 536870912 →
      p.term_window_length ≤ 2 * (p.term_length_mask + 1) →
      0 ≤ p.clean_position → p.clean_position ≤ p.pub_lmt_position.value →
      p.clean_position ≤ p.snd_pos_position.value →
      CallsInRange c p calls →
      0 ≤ (after_calls c p calls).clean_position ∧
      (after_calls c p calls).clean_position ≤ (after_calls c p calls).pub_lmt_position.value ∧
      (after_calls c p calls).clean_position
        ≤ (after_calls c p calls).snd_pos_position.value := by
  induction calls with
  | nil =>
    intro p _ _ _ h0 h1 h2 _
    exact ⟨h0, h1, h2⟩
  | cons call rest ih =>
    intro p hm0 hm1 hw h0 h1 h2 hr
    obtain ⟨hr1, hr2⟩ := hr
    obtain ⟨g0, g1, g2, g3, g4⟩ := after_call_clean_position c p call hm0 hm1 hw h0 h1 h2 hr1
    show 0 ≤ (after_calls c (after_call c p call) rest).clean_position ∧
      (after_calls c (after_call c p call) rest).clean_position
        ≤ (after_calls c (after_call c p call) rest).pub_lmt_position.value ∧
      (after_calls c (after_call c p call) rest).clean_position
        ≤ (after_calls c (after_call c p call) rest).snd_pos_position.value
    exact ih (after_call c p call) (by rw [g3]; exact hm0) (by rw [g3]; exact hm1)
      (by rw [g3, g4]; exact hw) g0 g1 g2 hr2

/-- C25: from a publication with the clean position, the publisher limit and
the sender position at 0, a term length of at most 512 MiB and
`term_window_length <= 2 * term_length`, every sequence of calls of
`aeron_network_publication_send`, `aeron_network_publication_on_status_message`,
`aeron_network_publication_update_pub_lmt` and
`aeron_network_publication_on_time_event` whose arithmetic stays within the
machine integers leaves `clean_position <= pub_lmt`, also after a call that has
pulled the limit back to the sender position; the clean position is not
negative and not above the sender position either. -/
theorem clean_position_below_publisher_limit (c : Constants) (p : Publication)
    (calls : List Call)
    (hm0 : 0 ≤ p.term_length_mask) (hm1 : p.term_length_mask < 536870912)
    (hw : p.term_window_length ≤ 2 * (p.term_length_mask + 1))
    (hclean : p.clean_position = 0) (hlmt : p.pub_lmt_position.value = 0)
    (hpos : p.snd_pos_position.value = 0)
    (hr : CallsInRange c p calls) :
    (after_calls c p calls).clean_position ≤ (after_calls c p calls).pub_lmt_position.value ∧
    0 ≤ (after_calls c p calls).clean_position ∧
    (after_calls c p calls).clean_position ≤ (after_calls c p calls).snd_pos_position.value := by
  obtain ⟨g0, g1, g2⟩ := after_calls_clean_position c calls p hm0 hm1 hw
    (by rw [hclean]) (by rw [hclean, hlmt]) (by rw [hclean, hpos]) hr
  exact ⟨g1, g0, g2⟩

/-! ## Life cycle: lemmas and claims -/

theorem spies_not_behind_of_all (p : Publication) (snd_pos : Int)
    (h : ∀ position ∈ p.subscribeable, snd_pos ≤ position.value) :
    aeron_network_publication_spies_not_behind_sender p snd_pos =
      if p.subscribeable = [] then ({ pub := p, events := [] }, true)
      else
        ({ pub := { p with subscribeable := [], subscribeable_capacity := 0 }
           events :=
             Event.cleanup_spies ::
               p.subscribeable.map
                 (fun position => Event.counters_manager_free (wrap32 position.counter_id)) },
          true) := by
  unfold aeron_network_publication_spies_not_behind_sender
  have hany : p.subscribeable.any (fun position => decide (position.value < snd_pos)) = false := by
    rw [List.any_eq_false]
    intro position hmem
    have := h position hmem
    simp only [decide_eq_true_eq]
    omega
  by_cases hnil : p.subscribeable = []
  · rw [if_pos hnil, if_neg (by rw [hnil]; simp)]
  · rw [if_neg hnil, if_pos (List.length_pos.mpr hnil), hany]
    rfl

theorem spies_not_behind_of_behind (p : Publication) (snd_pos : Int)
    (h : ∃ position ∈ p.subscribeable, position.value < snd_pos) :
    aeron_network_publication_spies_not_behind_sender p snd_pos =
      ({ pub := p, events := [] }, false) := by
  unfold aeron_network_publication_spies_not_behind_sender
  obtain ⟨position, hmem, hlt⟩ := h
  have hany : p.subscribeable.any (fun position => decide (position.value < snd_pos)) = true := by
    rw [List.any_eq_true]
    exact ⟨position, hmem, by simpa using hlt⟩
  have hpos : p.subscribeable.length > 0 := List.length_pos_of_mem hmem
  rw [if_pos hpos, hany]
  rfl

theorem on_time_event_draining_settled (c : Constants) (p : Publication) (now_ns now_ms : Int)
    (hs : p.status = Status.DRAINING) (heq : p.snd_pos_position.value = p.last_snd_pos)
    (h : ∀ position ∈ p.subscribeable, p.snd_pos_position.value ≤ position.value) :
    aeron_network_publication_on_time_event c p now_ns now_ms =
      { pub :=
          { p with
            subscribeable := []
            subscribeable_capacity := if p.subscribeable = [] then p.subscribeable_capacity else 0
            is_complete := true
            time_of_last_activity_ns := now_ns
            status := Status.LINGER }
        events :=
          if p.subscribeable = [] then []
          else
            Event.cleanup_spies ::
              p.subscribeable.map
                (fun position => Event.counters_manager_free (wrap32 position.counter_id)) } := by
  unfold aeron_network_publication_on_time_event
  rw [hs]
  simp only []
  rw [if_pos heq, spies_not_behind_of_all p _ h]
  by_cases hnil : p.subscribeable = []
  · rw [if_pos hnil, if_pos hnil, if_pos hnil]
    simp only [if_true]
    rw [hnil]
  · rw [if_neg hnil, if_neg hnil, if_neg hnil]
    simp only [if_true]

theorem on_time_event_draining_moved (c : Constants) (p : Publication) (now_ns now_ms : Int)
    (hs : p.status = Status.DRAINING) (hne : p.snd_pos_position.value ≠ p.last_snd_pos) :
    aeron_network_publication_on_time_event c p now_ns now_ms =
      { pub := { p with last_snd_pos := p.snd_pos_position.value
                        time_of_last_activity_ns := now_ns }
        events := [] } := by
  unfold aeron_network_publication_on_time_event
  rw [hs]
  simp only []
  rw [if_neg hne]

/-- C26: `aeron_network_publication_decref` writes `refcnt - 1` (as a 32-bit
value, which is `refcnt - 1` itself for every 32-bit `refcnt` but the least) to
the reference count; when the result is zero it also sets the status to
DRAINING and `time_of_last_status_change` to the value of the nano clock, and
when it is not zero no other field changes.
`aeron_network_publication_incref` only writes `refcnt + 1` to the reference
count. -/
theorem decref_incref_effect (e : Env) (p : Publication) :
    (aeron_network_publication_decref e p).refcnt = wrap32 (p.refcnt - 1) ∧
    (-2147483648 < p.refcnt → p.refcnt < 2147483648 →
      (aeron_network_publication_decref e p).refcnt = p.refcnt - 1) ∧
    (wrap32 (p.refcnt - 1) = 0 →
      aeron_network_publication_decref e p =
        { p with refcnt := 0, status := Status.DRAINING
                 time_of_last_status_change := e.nano_clock }) ∧
    (wrap32 (p.refcnt - 1) ≠ 0 →
      aeron_network_publication_decref e p = { p with refcnt := wrap32 (p.refcnt - 1) }) ∧
    (p.refcnt = 1 →
      aeron_network_publication_decref e p =
        { p with refcnt := 0, status := Status.DRAINING
                 time_of_last_status_change := e.nano_clock }) ∧
    aeron_network_publication_incref p = { p with refcnt := wrap32 (p.refcnt + 1) } ∧
    (-2147483648 ≤ p.refcnt → p.refcnt < 2147483647 →
      aeron_network_publication_incref p = { p with refcnt := p.refcnt + 1 }) := by
  have hzero : wrap32 (p.refcnt - 1) = 0 →
      aeron_network_publication_decref e p =
        { p with refcnt := 0, status := Status.DRAINING
                 time_of_last_status_change := e.nano_clock } := by
    intro h0
    unfold aeron_network_publication_decref
    simp only []
    rw [if_pos h0.symm, h0]
  have hnonzero : wrap32 (p.refcnt - 1) ≠ 0 →
      aeron_network_publication_decref e p = { p with refcnt := wrap32 (p.refcnt - 1) } := by
    intro h0
    unfold aeron_network_publication_decref
    simp only []
    rw [if_neg (fun h => h0 h.symm)]
  have hcnt : (aeron_network_publication_decref e p).refcnt = wrap32 (p.refcnt - 1) := by
    by_cases h0 : wrap32 (p.refcnt - 1) = 0
    · rw [hzero h0, h0]
    · rw [hnonzero h0]
  refine ⟨hcnt, ?_, hzero, hnonzero, ?_, rfl, ?_⟩
  · intro h1 h2
    rw [hcnt, wrap32_eq_self (by omega) (by omega)]
  · intro h1
    apply hzero
    rw [h1]
    decide
  · intro h1 h2
    unfold aeron_network_publication_incref
    rw [wrap32_eq_self (by omega) (by omega)]

/-- C27, as amended: `aeron_network_publication_on_time_event` in status DRAINING.
With `snd_pos` equal to `last_snd_pos` and no spy position below `snd_pos` it
sets `is_complete`, sets `time_of_last_activity_ns` to `now_ns`, moves the
status to LINGER and leaves the subscribeable set empty; when there was at
least one spy it calls the conductor's cleanup of spies, frees the counter id
of every spy and sets the capacity to 0, and when the set was already empty it
makes no call and keeps the capacity. With `snd_pos` different from
`last_snd_pos` it only sets `last_snd_pos` to `snd_pos` and
`time_of_last_activity_ns` to `now_ns`, and the status stays DRAINING. -/
theorem on_time_event_draining (c : Constants) (p : Publication) (now_ns now_ms : Int)
    (hs : p.status = Status.DRAINING) :
    (p.snd_pos_position.value = p.last_snd_pos →
      (∀ position ∈ p.subscribeable, p.snd_pos_position.value ≤ position.value) →
      (aeron_network_publication_on_time_event c p now_ns now_ms).pub =
        { p with
          subscribeable := []
          subscribeable_capacity := if p.subscribeable = [] then p.subscribeable_capacity else 0
          is_complete := true
          time_of_last_activity_ns := now_ns
          status := Status.LINGER } ∧
      (aeron_network_publication_on_time_event c p now_ns now_ms).events =
        (if p.subscribeable = [] then []
         else
          Event.cleanup_spies ::
            p.subscribeable.map
              (fun position => Event.counters_manager_free (wrap32 position.counter_id)))) ∧
    (p.snd_pos_position.value ≠ p.last_snd_pos →
      (aeron_network_publication_on_time_event c p now_ns now_ms).pub =
        { p with last_snd_pos := p.snd_pos_position.value
                 time_of_last_activity_ns := now_ns } ∧
      (aeron_network_publication_on_time_event c p now_ns now_ms).pub.status = Status.DRAINING ∧
      (aeron_network_publication_on_time_event c p now_ns now_ms).events = []) := by
  constructor
  · intro heq h
    rw [on_time_event_draining_settled c p now_ns now_ms hs heq h]
    exact ⟨rfl, rfl⟩
  · intro hne
    rw [on_time_event_draining_moved c p now_ns now_ms hs hne]
    exact ⟨rfl, hs, rfl⟩

/-- C27, as stated, fails: a DRAINING publication whose subscribeable set is
empty with capacity 4 (its spies were removed before), `snd_pos` equal to
`last_snd_pos`: the tick moves it to LINGER with `is_complete` set and leaves
the capacity at 4, not 0. -/
theorem on_time_event_keeps_capacity :
    (demo_draining 100 100 [] 4).status = Status.DRAINING ∧
    (demo_draining 100 100 [] 4).snd_pos_position.value = (demo_draining 100 100 [] 4).last_snd_pos ∧
    (∀ position ∈ (demo_draining 100 100 [] 4).subscribeable,
      (demo_draining 100 100 [] 4).snd_pos_position.value ≤ position.value) ∧
    (aeron_network_publication_on_time_event defaults (demo_draining 100 100 [] 4) 7 0).pub.status
      = Status.LINGER ∧
    (aeron_network_publication_on_time_event defaults (demo_draining 100 100 [] 4) 7 0).pub.is_complete
      = true ∧
    (aeron_network_publication_on_time_event defaults (demo_draining 100 100 [] 4) 7
      0).pub.subscribeable.length = 0 ∧
    (aeron_network_publication_on_time_event defaults (demo_draining 100 100 [] 4) 7
      0).pub.subscribeable_capacity = 4 := by
  refine ⟨rfl, rfl, ?_, ?_, ?_, ?_, ?_⟩
  · intro position hmem
    exact absurd hmem (List.not_mem_nil _)
  all_goals decide

/-- C28: `aeron_network_publication_on_time_event` in status DRAINING with
`snd_pos` equal to `last_snd_pos` and a spy position below `snd_pos` leaves
every field of the publication as it was (status DRAINING, `is_complete`,
`time_of_last_activity_ns`, `last_snd_pos`, the subscribeable set) and makes no
call: no counter is freed. -/
theorem on_time_event_draining_spy_behind (c : Constants) (p : Publication)
    (now_ns now_ms : Int) (hs : p.status = Status.DRAINING)
    (heq : p.snd_pos_position.value = p.last_snd_pos)
    (hb : ∃ position ∈ p.subscribeable, position.value < p.snd_pos_position.value) :
    (aeron_network_publication_on_time_event c p now_ns now_ms).pub = p ∧
    (aeron_network_publication_on_time_event c p now_ns now_ms).events = [] ∧
    (aeron_network_publication_on_time_event c p now_ns now_ms).pub.status = Status.DRAINING := by
  have h : aeron_network_publication_on_time_event c p now_ns now_ms =
      { pub := p, events := [] } := by
    unfold aeron_network_publication_on_time_event
    rw [hs]
    simp only []
    rw [if_pos heq, spies_not_behind_of_behind p _ hb]
    rfl
  rw [h]
  exact ⟨rfl, rfl, hs⟩

/-- C29: `aeron_network_publication_on_time_event` in status LINGER, with
`time_of_last_activity_ns + linger_timeout_ns` a 64-bit value: when `now_ns` is
greater than that sum it moves the status to CLOSING, changes no other field
and calls the conductor's cleanup of the publication once; when `now_ns` is at
most that sum it changes nothing and makes no call. So the move to CLOSING and
the cleanup happen exactly when `now_ns` is greater than the sum. -/
theorem on_time_event_linger (c : Constants) (p : Publication) (now_ns now_ms : Int)
    (hs : p.status = Status.LINGER)
    (hr : InRange64 (p.time_of_last_activity_ns + p.linger_timeout_ns)) :
    (now_ns > p.time_of_last_activity_ns + p.linger_timeout_ns →
      (aeron_network_publication_on_time_event c p now_ns now_ms).pub =
        { p with status := Status.CLOSING } ∧
      (aeron_network_publication_on_time_event c p now_ns now_ms).events =
        [Event.cleanup_network_publication]) ∧
    (now_ns ≤ p.time_of_last_activity_ns + p.linger_timeout_ns →
      (aeron_network_publication_on_time_event c p now_ns now_ms).pub = p ∧
      (aeron_network_publication_on_time_event c p now_ns now_ms).events = []) ∧
    (((aeron_network_publication_on_time_event c p now_ns now_ms).pub.status = Status.CLOSING ∧
        Event.cleanup_network_publication ∈
          (aeron_network_publication_on_time_event c p now_ns now_ms).events) ↔
      now_ns > p.time_of_last_activity_ns + p.linger_timeout_ns) := by
  have h : aeron_network_publication_on_time_event c p now_ns now_ms =
      if now_ns > p.time_of_last_activity_ns + p.linger_timeout_ns then
        { pub := { p with status := Status.CLOSING }
          events := [Event.cleanup_network_publication] }
      else { pub := p, events := [] } := by
    unfold aeron_network_publication_on_time_event
    rw [hs]
    simp only []
    rw [wrap64_eq_self hr]
  rw [h]
  refine ⟨?_, ?_, ?_⟩
  · intro hgt
    rw [if_pos hgt]
    exact ⟨rfl, rfl⟩
  · intro hle
    rw [if_neg (by omega)]
    exact ⟨rfl, rfl⟩
  · by_cases hgt : now_ns > p.time_of_last_activity_ns + p.linger_timeout_ns
    · rw [if_pos hgt]
      exact ⟨fun _ => hgt, fun _ => ⟨rfl, List.mem_singleton.mpr rfl⟩⟩
    · rw [if_neg hgt]
      constructor
      · intro hcl
        exact absurd hcl.2 (List.not_mem_nil _)
      · intro h1
        exact absurd h1 hgt

/-- C30: when `aeron_network_publication_decref` leaves the reference count at
0 the status is DRAINING; from there, with no spy position below `snd_pos`, one
call of `aeron_network_publication_on_time_event` moves the status to LINGER
with `is_complete` set when `snd_pos` equals `last_snd_pos`, and otherwise the
first call keeps the status DRAINING and `snd_pos` as it is and a second call
moves the status to LINGER with `is_complete` set, for every `snd_pos` and
every time of the two calls. -/
theorem draining_reaches_linger (c : Constants) (e : Env) (p : Publication)
    (now_ns1 now_ms1 now_ns2 now_ms2 : Int)
    (href : (aeron_network_publication_decref e p).refcnt = 0)
    (hsp : ∀ position ∈ p.subscribeable, p.snd_pos_position.value ≤ position.value) :
    (aeron_network_publication_decref e p).status = Status.DRAINING ∧
    (p.snd_pos_position.value = p.last_snd_pos →
      (aeron_network_publication_on_time_event c (aeron_network_publication_decref e p)
        now_ns1 now_ms1).pub.status = Status.LINGER ∧
      (aeron_network_publication_on_time_event c (aeron_network_publication_decref e p)
        now_ns1 now_ms1).pub.is_complete = true) ∧
    (p.snd_pos_position.value ≠ p.last_snd_pos →
      (aeron_network_publication_on_time_event c (aeron_network_publication_decref e p)
        now_ns1 now_ms1).pub.status = Status.DRAINING ∧
      (aeron_network_publication_on_time_event c (aeron_network_publication_decref e p)
        now_ns1 now_ms1).pub.snd_pos_position = p.snd_pos_position ∧
      (aeron_network_publication_on_time_event c
        (aeron_network_publication_on_time_event c (aeron_network_publication_decref e p)
          now_ns1 now_ms1).pub now_ns2 now_ms2).pub.status = Status.LINGER ∧
      (aeron_network_publication_on_time_event c
        (aeron_network_publication_on_time_event c (aeron_network_publication_decref e p)
          now_ns1 now_ms1).pub now_ns2 now_ms2).pub.is_complete = true) := by
  have hd : aeron_network_publication_decref e p =
      { p with refcnt := 0, status := Status.DRAINING
               time_of_last_status_change := e.nano_clock } := by
    have h0 : wrap32 (p.refcnt - 1) = 0 := by
      by_cases h : (0 : Int) = wrap32 (p.refcnt - 1)
      · exact h.symm
      · have hcnt : (aeron_network_publication_decref e p).refcnt = wrap32 (p.refcnt - 1) := by
          unfold aeron_network_publication_decref
          simp only []
          rw [if_neg h]
        rw [href] at hcnt
        exact hcnt.symm
    unfold aeron_network_publication_decref
    simp only []
    rw [if_pos h0.symm, h0]
  have hst : (aeron_network_publication_decref e p).status = Status.DRAINING := by rw [hd]
  have hpos : (aeron_network_publication_decref e p).snd_pos_position = p.snd_pos_position := by
    rw [hd]
  have hlast : (aeron_network_publication_decref e p).last_snd_pos = p.last_snd_pos := by
    rw [hd]
  have hsub : (aeron_network_publication_decref e p).subscribeable = p.subscribeable := by
    rw [hd]
  generalize aeron_network_publication_decref e p = d at hst hpos hlast hsub
  have hsp1 : ∀ position ∈ d.subscribeable, d.snd_pos_position.value ≤ position.value := by
    rw [hsub, hpos]
    exact hsp
  refine ⟨hst, ?_, ?_⟩
  · intro heq
    have heq1 : d.snd_pos_position.value = d.last_snd_pos := by rw [hpos, hlast]; exact heq
    rw [on_time_event_draining_settled c d now_ns1 now_ms1 hst heq1 hsp1]
    exact ⟨rfl, rfl⟩
  · intro hne
    have hne1 : d.snd_pos_position.value ≠ d.last_snd_pos := by rw [hpos, hlast]; exact hne
    rw [on_time_event_draining_moved c d now_ns1 now_ms1 hst hne1]
    refine ⟨hst, hpos, ?_⟩
    rw [on_time_event_draining_settled c
      { d with last_snd_pos := d.snd_pos_position.value, time_of_last_activity_ns := now_ns1 }
      now_ns2 now_ms2 hst rfl hsp1]
    exact ⟨rfl, rfl⟩

/-! ## The statements of the third group at concrete inputs -/

/-- C21, as amended, at a concrete input: a connected publication with the
limit at 0, the sender position at 8192 and no spy; the limit goes to
8192 + 32768. -/
theorem update_pub_lmt_window_bound_witness :
    (demo_connected 0 8192 0 []).is_connected = true ∧
    InRange64 (min_consumer_position (demo_connected 0 8192 0 []) +
      (demo_connected 0 8192 0 []).term_window_length) ∧
    (aeron_network_publication_update_pub_lmt defaults
      (demo_connected 0 8192 0 [])).pub.pub_lmt_position.value
      = max (demo_connected 0 8192 0 []).pub_lmt_position.value
          (min_consumer_position (demo_connected 0 8192 0 []) +
            (demo_connected 0 8192 0 []).term_window_length) :=
  ⟨rfl, by decide,
    (update_pub_lmt_window_bound defaults (demo_connected 0 8192 0 []) rfl
      (by decide)).2.2.2.2.1⟩

/-- C22 at a concrete input: term length 64 KiB, clean position 0 and
`pub_lmt` at 200 KiB; the first term is zeroed. -/
theorem clean_buffer_zeroes_span_witness :
    (0 : Int) ≤ demo_publication.term_length_mask ∧
    demo_publication.term_length_mask < 536870912 ∧
    (0 : Int) ≤ demo_publication.clean_position ∧
    InRange64 204800 ∧
    InRange64 (204800 - demo_publication.clean_position) ∧
    204800 - demo_publication.clean_position - 2 * (demo_publication.term_length_mask + 1)
      < 2147483648 ∧
    204800 - demo_publication.clean_position > 2 * (demo_publication.term_length_mask + 1) ∧
    ∃ length : Nat,
      (length : Int) = 65536 ∧
      (aeron_network_publication_clean_buffer defaults demo_publication 204800).pub =
        { demo_publication with clean_position := demo_publication.clean_position + length } :=
  have h := clean_buffer_zeroes_span defaults demo_publication 204800
    (by decide) (by decide) (by decide) (by decide) (by decide) (by decide)
  ⟨by decide, by decide, by decide, by decide, by decide, by decide, by decide,
    (h.1 (by decide)).choose,
    (h.1 (by decide)).choose_spec.1.trans (by decide),
    (h.1 (by decide)).choose_spec.2.2.1⟩

/-- C23, as amended, at concrete inputs: from limit 0 and sender position 8192
the call leaves the limit within twice the term length of the clean position;
from clean position 65504 and limit 196576 it does not. -/
theorem update_pub_lmt_clean_distance_witness :
    (0 : Int) ≤ (demo_connected 0 8192 0 []).term_length_mask ∧
    (demo_connected 0 8192 0 []).term_length_mask < 536870912 ∧
    (0 : Int) ≤ (demo_connected 0 8192 0 []).clean_position ∧
    InRange64 (min_consumer_position (demo_connected 0 8192 0 []) +
      (demo_connected 0 8192 0 []).term_window_length) ∧
    (aeron_network_publication_update_pub_lmt defaults
        (demo_connected 0 8192 0 [])).pub.pub_lmt_position.value -
      (aeron_network_publication_update_pub_lmt defaults
        (demo_connected 0 8192 0 [])).pub.clean_position
      ≤ 2 * ((demo_connected 0 8192 0 []).term_length_mask + 1) ∧
    2 * ((demo_connected 196576 196576 65504 []).term_length_mask + 1) <
      (aeron_network_publication_update_pub_lmt defaults
          (demo_connected 196576 196576 65504 [])).pub.pub_lmt_position.value -
        (aeron_network_publication_update_pub_lmt defaults
          (demo_connected 196576 196576 65504 [])).pub.clean_position :=
  have h := update_pub_lmt_clean_distance defaults (demo_connected 0 8192 0 [])
    (by decide) (by decide) (by decide) (by decide) (by decide) (by decide)
  have h2 := update_pub_lmt_clean_distance defaults (demo_connected 196576 196576 65504 [])
    (by decide) (by decide) (by decide) (by decide) (by decide) (by decide)
  ⟨by decide, by decide, by decide, by decide,
    (h.2.1 (by decide)).2.2.1 (by decide),
    (h2.2.1 (by decide)).2.2.2 (by decide)⟩

/-- C24, as amended, at a concrete input: term length 64 KiB, clean position at
8 KiB, three term lengths below `pub_lmt` at 200 KiB: the clean position never
passes 72 KiB and the byte of position 196608 is not zeroed. -/
theorem clean_buffer_settles_witness :
    (0 : Int) ≤ (demo_connected 0 0 8192 []).term_length_mask ∧
    (demo_connected 0 0 8192 []).term_length_mask < 536870912 ∧
    (0 : Int) ≤ (demo_connected 0 0 8192 []).clean_position ∧
    (demo_connected 0 0 8192 []).clean_position ≤ 204800 ∧
    InRange64 204800 ∧
    204800 - (demo_connected 0 0 8192 []).clean_position -
      2 * ((demo_connected 0 0 8192 []).term_length_mask + 1) < 2147483648 ∧
    (∀ k : Nat,
      (clean_buffer_calls defaults 204800 k (demo_connected 0 0 8192 [])).pub.clean_position
        ≤ max (demo_connected 0 0 8192 []).clean_position
            (204800 - 2 * ((demo_connected 0 0 8192 []).term_length_mask + 1))) ∧
    ∀ k : Nat,
      ¬ zeroed (clean_buffer_calls defaults 204800 k (demo_connected 0 0 8192 [])).events
        (aeron_logbuffer_index_by_position defaults 196608
          (demo_connected 0 0 8192 []).position_bits_to_shift)
        (Int.land 196608 (demo_connected 0 0 8192 []).term_length_mask) :=
  have h := clean_buffer_settles defaults (demo_connected 0 0 8192 []) 204800
    (by decide) (by decide) (by decide) (by decide) (by decide) (by decide)
  ⟨by decide, by decide, by decide, by decide, by decide, by decide,
    h.1.choose_spec.2.2.2.1,
    fun k => h.2.2.1 (by decide) (by decide) (by decide) (by decide) k 196608
      (by decide) (by decide)⟩

/-- C25 at a concrete run: a status message connects the publication, the
limit is raised, a frame of 1024 bytes is sent, the limit is raised again, the
connection times out and the limit is pulled back to the sender position. -/
theorem clean_position_below_publisher_limit_witness :
    (0 : Int) ≤ (demo_with_limit 4096).term_length_mask ∧
    (demo_with_limit 4096).term_length_mask < 536870912 ∧
    (demo_with_limit 4096).term_window_length
      ≤ 2 * ((demo_with_limit 4096).term_length_mask + 1) ∧
    (demo_with_limit 4096).clean_position = 0 ∧
    (demo_with_limit 4096).pub_lmt_position.value = 0 ∧
    (demo_with_limit 4096).snd_pos_position.value = 0 ∧
    CallsInRange defaults (demo_with_limit 4096)
      [Call.on_status_message (demo_env no_frame) [] 0 0, Call.update_pub_lmt,
        Call.send (demo_env one_frame) 5, Call.update_pub_lmt,
        Call.on_time_event 0 5001, Call.update_pub_lmt] ∧
    (after_calls defaults (demo_with_limit 4096)
      [Call.on_status_message (demo_env no_frame) [] 0 0, Call.update_pub_lmt,
        Call.send (demo_env one_frame) 5, Call.update_pub_lmt,
        Call.on_time_event 0 5001, Call.update_pub_lmt]).pub_lmt_position.value = 1024 ∧
    (after_calls defaults (demo_with_limit 4096)
      [Call.on_status_message (demo_env no_frame) [] 0 0, Call.update_pub_lmt,
        Call.send (demo_env one_frame) 5, Call.update_pub_lmt,
        Call.on_time_event 0 5001, Call.update_pub_lmt]).clean_position
      ≤ (after_calls defaults (demo_with_limit 4096)
        [Call.on_status_message (demo_env no_frame) [] 0 0, Call.update_pub_lmt,
          Call.send (demo_env one_frame) 5, Call.update_pub_lmt,
          Call.on_time_event 0 5001, Call.update_pub_lmt]).pub_lmt_position.value :=
  ⟨by decide, by decide, by decide, rfl, rfl, rfl, by decide, by decide,
    (clean_position_below_publisher_limit defaults (demo_with_limit 4096)
      [Call.on_status_message (demo_env no_frame) [] 0 0, Call.update_pub_lmt,
        Call.send (demo_env one_frame) 5, Call.update_pub_lmt,
        Call.on_time_event 0 5001, Call.update_pub_lmt]
      (by decide) (by decide) (by decide) rfl rfl rfl (by decide)).1⟩

/-- C27, as amended, at a concrete input: a DRAINING publication with `snd_pos`
and `last_snd_pos` at 100 and two spies, at 100 and at 200. -/
theorem on_time_event_draining_witness :
    (demo_draining 100 100 [{ counter_id := 5, value := 100 }, { counter_id := 6, value := 200 }]
      2).status = Status.DRAINING ∧
    (aeron_network_publication_on_time_event defaults
      (demo_draining 100 100
        [{ counter_id := 5, value := 100 }, { counter_id := 6, value := 200 }] 2) 7 0).events
      = [Event.cleanup_spies, Event.counters_manager_free 5, Event.counters_manager_free 6] ∧
    (aeron_network_publication_on_time_event defaults
      (demo_draining 100 100
        [{ counter_id := 5, value := 100 }, { counter_id := 6, value := 200 }] 2) 7 0).pub
      = { demo_draining 100 100 [] 0 with
          is_complete := true, time_of_last_activity_ns := 7, status := Status.LINGER } :=
  have h := on_time_event_draining defaults
    (demo_draining 100 100
      [{ counter_id := 5, value := 100 }, { counter_id := 6, value := 200 }] 2) 7 0 rfl
  ⟨rfl, (h.1 rfl (by decide)).2.trans (by decide), (h.1 rfl (by decide)).1.trans (by decide)⟩

/-- C28 at a concrete input: a DRAINING publication with `snd_pos` and
`last_snd_pos` at 100 and a spy at 50. -/
theorem on_time_event_draining_spy_behind_witness :
    (demo_draining 100 100 [{ counter_id := 5, value := 50 }] 1).status = Status.DRAINING ∧
    (demo_draining 100 100 [{ counter_id := 5, value := 50 }] 1).snd_pos_position.value
      = (demo_draining 100 100 [{ counter_id := 5, value := 50 }] 1).last_snd_pos ∧
    (∃ position ∈ (demo_draining 100 100 [{ counter_id := 5, value := 50 }] 1).subscribeable,
      position.value
        < (demo_draining 100 100 [{ counter_id := 5, value := 50 }] 1).snd_pos_position.value) ∧
    (aeron_network_publication_on_time_event defaults
      (demo_draining 100 100 [{ counter_id := 5, value := 50 }] 1) 7 0).pub
      = demo_draining 100 100 [{ counter_id := 5, value := 50 }] 1 ∧
    (aeron_network_publication_on_time_event defaults
      (demo_draining 100 100 [{ counter_id := 5, value := 50 }] 1) 7 0).events = [] :=
  have h := on_time_event_draining_spy_behind defaults
    (demo_draining 100 100 [{ counter_id := 5, value := 50 }] 1) 7 0 rfl rfl (by decide)
  ⟨rfl, rfl, by decide, h.1, h.2.1⟩

/-- C29 at a concrete input: a LINGER publication with the last activity at 7
and a linger timeout of 5000000000: nothing happens at 5000000007, the status
moves to CLOSING at 5000000008. -/
theorem on_time_event_linger_witness :
    ({ demo_publication with status := Status.LINGER, time_of_last_activity_ns := 7 } :
      Publication).status = Status.LINGER ∧
    InRange64
      (({ demo_publication with status := Status.LINGER, time_of_last_activity_ns := 7 } :
          Publication).time_of_last_activity_ns +
        ({ demo_publication with status := Status.LINGER, time_of_last_activity_ns := 7 } :
          Publication).linger_timeout_ns) ∧
    (aeron_network_publication_on_time_event defaults
      { demo_publication with status := Status.LINGER, time_of_last_activity_ns := 7 }
      5000000007 0).pub
      = { demo_publication with status := Status.LINGER, time_of_last_activity_ns := 7 } ∧
    (aeron_network_publication_on_time_event defaults
      { demo_publication with status := Status.LINGER, time_of_last_activity_ns := 7 }
      5000000008 0).events = [Event.cleanup_network_publication] :=
  ⟨rfl, by decide,
    ((on_time_event_linger defaults
      { demo_publication with status := Status.LINGER, time_of_last_activity_ns := 7 }
      5000000007 0 rfl (by decide)).2.1 (by decide)).1,
    ((on_time_event_linger defaults
      { demo_publication with status := Status.LINGER, time_of_last_activity_ns := 7 }
      5000000008 0 rfl (by decide)).1 (by decide)).2⟩

/-- C30 at a concrete input: the only reference to a publication with the
sender position at 100 and `last_snd_pos` at 0 is dropped; the second tick
moves it to LINGER. -/
theorem draining_reaches_linger_witness :
    (aeron_network_publication_decref (demo_env no_frame) (demo_sent 100)).refcnt = 0 ∧
    (∀ position ∈ (demo_sent 100).subscribeable,
      (demo_sent 100).snd_pos_position.value ≤ position.value) ∧
    (aeron_network_publication_on_time_event defaults
      (aeron_network_publication_decref (demo_env no_frame) (demo_sent 100))
      7 0).pub.status = Status.DRAINING ∧
    (aeron_network_publication_on_time_event defaults
      (aeron_network_publication_on_time_event defaults
        (aeron_network_publication_decref (demo_env no_frame) (demo_sent 100)) 7 0).pub
      8 0).pub.status = Status.LINGER ∧
    (aeron_network_publication_on_time_event defaults
      (aeron_network_publication_on_time_event defaults
        (aeron_network_publication_decref (demo_env no_frame) (demo_sent 100)) 7 0).pub
      8 0).pub.is_complete = true :=
  have h := draining_reaches_linger defaults (demo_env no_frame) (demo_sent 100) 7 0 8 0
    (by decide) (by decide)
  ⟨by decide, by decide, (h.2.2 (by decide)).1, (h.2.2 (by decide)).2.2.1,
    (h.2.2 (by decide)).2.2.2⟩

/-! ## Runs of the life cycle -/

theorem on_time_event_closing (c : Constants) (p : Publication) (now_ns now_ms : Int)
    (hs : p.status = Status.CLOSING) :
    aeron_network_publication_on_time_event c p now_ns now_ms = { pub := p, events := [] } := by
  unfold aeron_network_publication_on_time_event
  rw [hs]

theorem on_time_event_active (c : Constants) (p : Publication) (now_ns now_ms : Int)
    (hs : p.status = Status.ACTIVE) :
    aeron_network_publication_on_time_event c p now_ns now_ms =
      if p.is_connected = true ∧ now_ms > wrap64 (p.time_of_last_status_message +
          c.AERON_NETWORK_PUBLICATION_CONNECTION_TIMEOUT_MS) then
        { pub := { p with is_connected := false }, events := [] }
      else { pub := p, events := [] } := by
  unfold aeron_network_publication_on_time_event
  rw [hs]
  simp only []
  by_cases hc : p.is_connected = true
  · rw [if_pos hc]
    by_cases ht : now_ms > wrap64 (p.time_of_last_status_message +
        c.AERON_NETWORK_PUBLICATION_CONNECTION_TIMEOUT_MS)
    · rw [if_pos ht, if_pos ⟨hc, ht⟩]
    · rw [if_neg ht, if_neg (fun h => ht h.2)]
  · rw [if_neg hc, if_neg (fun h => hc h.1)]

theorem on_time_event_linger_eq (c : Constants) (p : Publication) (now_ns now_ms : Int)
    (hs : p.status = Status.LINGER) :
    aeron_network_publication_on_time_event c p now_ns now_ms =
      if now_ns > wrap64 (p.time_of_last_activity_ns + p.linger_timeout_ns) then
        { pub := { p with status := Status.CLOSING }
          events := [Event.cleanup_network_publication] }
      else { pub := p, events := [] } := by
  unfold aeron_network_publication_on_time_event
  rw [hs]

theorem cleanups_append (a b : List Event) : cleanups (a ++ b) = cleanups a + cleanups b := by
  unfold cleanups
  exact List.count_append _ _ _

theorem cleanups_frees (spies : List Position) :
    cleanups (spies.map
      (fun position => Event.counters_manager_free (wrap32 position.counter_id))) = 0 := by
  unfold cleanups
  rw [List.count_eq_zero]
  intro h
  obtain ⟨position, _, hp⟩ := List.mem_map.1 h
  cases hp

/-- One call of `aeron_network_publication_on_time_event`: the status does not
move backwards, and the conductor's cleanup of the publication is called, once,
exactly when the status moves to CLOSING. -/
theorem on_time_event_step (c : Constants) (p : Publication) (now_ns now_ms : Int) :
    p.status.order ≤ (aeron_network_publication_on_time_event c p now_ns now_ms).pub.status.order ∧
    cleanups (aeron_network_publication_on_time_event c p now_ns now_ms).events =
      (if p.status ≠ Status.CLOSING ∧
          (aeron_network_publication_on_time_event c p now_ns now_ms).pub.status = Status.CLOSING
        then 1 else 0) := by
  cases hs : p.status with
  | ACTIVE =>
    rw [on_time_event_active c p now_ns now_ms hs]
    split_ifs <;> simp_all [Status.order, cleanups]
  | DRAINING =>
    unfold aeron_network_publication_on_time_event
      aeron_network_publication_spies_not_behind_sender
    rw [hs]
    simp only []
    split_ifs <;> simp_all [Status.order, cleanups, List.count_cons]
    exact cleanups_frees p.subscribeable
  | LINGER =>
    rw [on_time_event_linger_eq c p now_ns now_ms hs]
    split_ifs <;> simp_all [Status.order, cleanups]
  | CLOSING =>
    rw [on_time_event_closing c p now_ns now_ms hs]
    simp [hs, cleanups]

theorem time_events_cons (c : Constants) (p : Publication) (now_ns now_ms : Int)
    (rest : List (Int × Int)) :
    time_events c p ((now_ns, now_ms) :: rest) =
      { pub := (time_events c
          (aeron_network_publication_on_time_event c p now_ns now_ms).pub rest).pub
        events := (aeron_network_publication_on_time_event c p now_ns now_ms).events ++
          (time_events c (aeron_network_publication_on_time_event c p now_ns now_ms).pub
            rest).events } := rfl

theorem time_events_nil (c : Constants) (p : Publication) :
    time_events c p [] = { pub := p, events := [] } := rfl

theorem time_events_closing (c : Constants) (ticks : List (Int × Int)) (p : Publication)
    (hs : p.status = Status.CLOSING) :
    time_events c p ticks = { pub := p, events := [] } := by
  induction ticks with
  | nil => rfl
  | cons tick rest ih =>
    obtain ⟨now_ns, now_ms⟩ := tick
    rw [time_events_cons, on_time_event_closing c p now_ns now_ms hs, ih]
    rfl

theorem time_events_cleanups (c : Constants) (ticks : List (Int × Int)) :
    ∀ p : Publication,
      cleanups (time_events c p ticks).events =
        (if p.status ≠ Status.CLOSING ∧ (time_events c p ticks).pub.status = Status.CLOSING
          then 1 else 0) ∧
      p.status.order ≤ (time_events c p ticks).pub.status.order := by
  induction ticks with
  | nil =>
    intro p
    refine ⟨?_, le_refl _⟩
    show cleanups [] = if p.status ≠ Status.CLOSING ∧ p.status = Status.CLOSING then 1 else 0
    rw [if_neg (fun h => h.1 h.2)]
    rfl
  | cons tick rest ih =>
    intro p
    obtain ⟨now_ns, now_ms⟩ := tick
    obtain ⟨hord, hstep⟩ := on_time_event_step c p now_ns now_ms
    obtain ⟨ih1, ih2⟩ := ih (aeron_network_publication_on_time_event c p now_ns now_ms).pub
    rw [time_events_cons]
    show cleanups ((aeron_network_publication_on_time_event c p now_ns now_ms).events ++
        (time_events c (aeron_network_publication_on_time_event c p now_ns now_ms).pub
          rest).events) =
        (if p.status ≠ Status.CLOSING ∧
            (time_events c (aeron_network_publication_on_time_event c p now_ns now_ms).pub
              rest).pub.status = Status.CLOSING then 1 else 0) ∧
      p.status.order ≤ (time_events c
        (aeron_network_publication_on_time_event c p now_ns now_ms).pub rest).pub.status.order
    refine ⟨?_, le_trans hord ih2⟩
    rw [cleanups_append, hstep, ih1]
    by_cases hp : p.status = Status.CLOSING
    · have hq : (aeron_network_publication_on_time_event c p now_ns now_ms).pub.status
          = Status.CLOSING := by
        rw [on_time_event_closing c p now_ns now_ms hp]
        exact hp
      simp [hp, hq]
    · by_cases hq : (aeron_network_publication_on_time_event c p now_ns now_ms).pub.status
          = Status.CLOSING
      · have hfin := time_events_closing c rest _ hq
        rw [hfin]
        simp [hp, hq]
      · simp [hp, hq]

/-- C31: over every sequence of calls of
`aeron_network_publication_on_time_event` on one publication the conductor's
cleanup of the publication is called at most once; for a publication that is
not in status CLOSING at the start it is called exactly once when the status
after the calls is CLOSING and not at all otherwise; in status CLOSING a call,
and so every sequence of calls, leaves the publication as it is and calls
nothing. -/
theorem cleanup_called_once (c : Constants) (p : Publication) (ticks : List (Int × Int)) :
    cleanups (time_events c p ticks).events ≤ 1 ∧
    (p.status ≠ Status.CLOSING →
      (cleanups (time_events c p ticks).events = 1 ↔
        (time_events c p ticks).pub.status = Status.CLOSING) ∧
      (cleanups (time_events c p ticks).events = 0 ↔
        (time_events c p ticks).pub.status ≠ Status.CLOSING)) ∧
    (p.status = Status.CLOSING →
      (∀ now_ns now_ms : Int,
        (aeron_network_publication_on_time_event c p now_ns now_ms).pub = p ∧
        (aeron_network_publication_on_time_event c p now_ns now_ms).events = []) ∧
      (time_events c p ticks).pub = p ∧ (time_events c p ticks).events = []) := by
  obtain ⟨h, _⟩ := time_events_cleanups c ticks p
  refine ⟨?_, ?_, ?_⟩
  · rw [h]
    split_ifs <;> omega
  · intro hp
    rw [h]
    by_cases hq : (time_events c p ticks).pub.status = Status.CLOSING
    · rw [if_pos ⟨hp, hq⟩]
      exact ⟨⟨fun _ => hq, fun _ => rfl⟩, ⟨fun h10 => absurd h10 (by decide), fun hn => absurd hq hn⟩⟩
    · rw [if_neg (fun hh => hq hh.2)]
      exact ⟨⟨fun h01 => absurd h01 (by decide), fun hh => absurd hh hq⟩, ⟨fun _ => hq, fun _ => rfl⟩⟩
  · intro hp
    refine ⟨fun now_ns now_ms => ?_, ?_⟩
    · rw [on_time_event_closing c p now_ns now_ms hp]
      exact ⟨rfl, rfl⟩
    · rw [time_events_closing c ticks p hp]
      exact ⟨rfl, rfl⟩

/-- C32, as amended: `aeron_network_publication_on_time_event` never moves the
status backwards in the order ACTIVE, DRAINING, LINGER, CLOSING and
`aeron_network_publication_incref` leaves it as it is;
`aeron_network_publication_decref` sets it to DRAINING when the reference count
it writes is 0 and leaves it otherwise. So a call leaves the status equal to or
later than the status before it unless it is a `decref` that brings the
reference count to 0 in status LINGER or CLOSING, which moves the status back
to DRAINING. -/
theorem status_moves_forward (c : Constants) (p : Publication) (call : LifeCall)
    (h : ∀ e : Env, call = LifeCall.decref e → wrap32 (p.refcnt - 1) = 0 →
      p.status = Status.ACTIVE ∨ p.status = Status.DRAINING) :
    p.status.order ≤ (after_life_call c p call).status.order ∧
    (∀ now_ns now_ms : Int,
      p.status.order ≤
        (aeron_network_publication_on_time_event c p now_ns now_ms).pub.status.order) ∧
    (aeron_network_publication_incref p).status = p.status ∧
    (∀ e : Env,
      (aeron_network_publication_decref e p).status =
        if wrap32 (p.refcnt - 1) = 0 then Status.DRAINING else p.status) := by
  have hdec : ∀ e : Env,
      (aeron_network_publication_decref e p).status =
        if wrap32 (p.refcnt - 1) = 0 then Status.DRAINING else p.status := by
    intro e
    unfold aeron_network_publication_decref
    simp only []
    by_cases h0 : wrap32 (p.refcnt - 1) = 0
    · rw [if_pos h0.symm, if_pos h0]
    · rw [if_neg (fun hh => h0 hh.symm), if_neg h0]
  refine ⟨?_, fun now_ns now_ms => (on_time_event_step c p now_ns now_ms).1, rfl, hdec⟩
  cases call with
  | incref => exact le_refl _
  | decref e =>
    show p.status.order ≤ (aeron_network_publication_decref e p).status.order
    rw [hdec e]
    by_cases h0 : wrap32 (p.refcnt - 1) = 0
    · rw [if_pos h0]
      rcases h e rfl h0 with hs | hs
      · rw [hs]
        decide
      · rw [hs]
    · rw [if_neg h0]
  | on_time_event now_ns now_ms => exact (on_time_event_step c p now_ns now_ms).1

/-- C32, as stated, fails: the only reference to a publication is dropped
(DRAINING), a tick moves it to LINGER, a reference is taken and dropped again,
and the status is back at DRAINING. -/
theorem status_moves_back_to_draining :
    (after_life_calls defaults demo_publication
      [LifeCall.decref (demo_env no_frame), LifeCall.on_time_event 7 0]).status
      = Status.LINGER ∧
    (after_life_calls defaults demo_publication
      [LifeCall.decref (demo_env no_frame), LifeCall.on_time_event 7 0,
        LifeCall.incref]).status = Status.LINGER ∧
    (after_life_calls defaults demo_publication
      [LifeCall.decref (demo_env no_frame), LifeCall.on_time_event 7 0,
        LifeCall.incref, LifeCall.decref (demo_env no_frame)]).status = Status.DRAINING ∧
    ¬ (after_life_calls defaults demo_publication
        [LifeCall.decref (demo_env no_frame), LifeCall.on_time_event 7 0,
          LifeCall.incref]).status.order ≤
      (after_life_call defaults
        (after_life_calls defaults demo_publication
          [LifeCall.decref (demo_env no_frame), LifeCall.on_time_event 7 0, LifeCall.incref])
        (LifeCall.decref (demo_env no_frame))).status.order := by
  decide

/-- C33: `aeron_network_publication_on_time_event` in status ACTIVE, with
`time_of_last_status_message + CONNECTION_TIMEOUT_MS` a 64-bit value: when the
publication is connected and `now_ms` is greater than that sum it clears
`is_connected` and changes no other field; otherwise (at `now_ms` equal to the
sum too) it changes no field; the status stays ACTIVE and no call is made in
both cases. -/
theorem on_time_event_active_timeout (c : Constants) (p : Publication) (now_ns now_ms : Int)
    (hs : p.status = Status.ACTIVE)
    (hr : InRange64 (p.time_of_last_status_message +
      c.AERON_NETWORK_PUBLICATION_CONNECTION_TIMEOUT_MS)) :
    ((p.is_connected = true ∧ now_ms > p.time_of_last_status_message +
        c.AERON_NETWORK_PUBLICATION_CONNECTION_TIMEOUT_MS) →
      (aeron_network_publication_on_time_event c p now_ns now_ms).pub =
        { p with is_connected := false }) ∧
    (¬ (p.is_connected = true ∧ now_ms > p.time_of_last_status_message +
        c.AERON_NETWORK_PUBLICATION_CONNECTION_TIMEOUT_MS) →
      (aeron_network_publication_on_time_event c p now_ns now_ms).pub = p) ∧
    ((p.is_connected = true ∧
        (aeron_network_publication_on_time_event c p now_ns now_ms).pub.is_connected = false) ↔
      (p.is_connected = true ∧ now_ms > p.time_of_last_status_message +
        c.AERON_NETWORK_PUBLICATION_CONNECTION_TIMEOUT_MS)) ∧
    (aeron_network_publication_on_time_event c p now_ns now_ms).pub.status = Status.ACTIVE ∧
    (aeron_network_publication_on_time_event c p now_ns now_ms).events = [] := by
  rw [on_time_event_active c p now_ns now_ms hs, wrap64_eq_self hr]
  by_cases hcond : p.is_connected = true ∧ now_ms > p.time_of_last_status_message +
      c.AERON_NETWORK_PUBLICATION_CONNECTION_TIMEOUT_MS
  · rw [if_pos hcond]
    exact ⟨fun _ => rfl, fun hn => absurd hcond hn, ⟨fun _ => hcond, fun _ => ⟨hcond.1, rfl⟩⟩,
      hs, rfl⟩
  · rw [if_neg hcond]
    refine ⟨fun hh => absurd hh hcond, fun _ => rfl, ⟨fun hh => ?_, fun hh => absurd hh hcond⟩,
      hs, rfl⟩
    rw [hh.1] at hh
    exact absurd hh.2 (by decide)

theorem time_events_active (c : Constants) (ticks : List (Int × Int)) :
    ∀ p : Publication, p.status = Status.ACTIVE →
      (time_events c p ticks).pub =
        { p with is_connected := (time_events c p ticks).pub.is_connected } ∧
      (time_events c p ticks).events = [] := by
  induction ticks with
  | nil =>
    intro p _
    exact ⟨rfl, rfl⟩
  | cons tick rest ih =>
    intro p hs
    obtain ⟨now_ns, now_ms⟩ := tick
    rw [time_events_cons, on_time_event_active c p now_ns now_ms hs]
    by_cases hcond : p.is_connected = true ∧ now_ms > wrap64 (p.time_of_last_status_message +
        c.AERON_NETWORK_PUBLICATION_CONNECTION_TIMEOUT_MS)
    · rw [if_pos hcond]
      obtain ⟨ih1, ih2⟩ := ih { p with is_connected := false } hs
      refine ⟨?_, ?_⟩
      · show (time_events c { p with is_connected := false } rest).pub = _
        rw [ih1]
      · show [] ++ (time_events c { p with is_connected := false } rest).events = []
        rw [ih2]
        rfl
    · rw [if_neg hcond]
      obtain ⟨ih1, ih2⟩ := ih p hs
      refine ⟨?_, ?_⟩
      · show (time_events c p rest).pub = _
        exact ih1
      · show [] ++ (time_events c p rest).events = []
        rw [ih2]
        rfl

/-- C35: for a publication in status ACTIVE, every sequence of calls of
`aeron_network_publication_on_time_event`, whatever their `now_ns` and
`now_ms`, leaves the status ACTIVE, `is_complete` and the reference count as
they were (every field but `is_connected`, in fact) and makes no call: the
conductor's cleanup is never called. -/
theorem active_publication_stays_active (c : Constants) (p : Publication)
    (ticks : List (Int × Int)) (hs : p.status = Status.ACTIVE) :
    (time_events c p ticks).pub.status = Status.ACTIVE ∧
    (time_events c p ticks).pub.is_complete = p.is_complete ∧
    (p.is_complete = false → (time_events c p ticks).pub.is_complete = false) ∧
    (time_events c p ticks).pub.refcnt = p.refcnt ∧
    (time_events c p ticks).pub =
      { p with is_connected := (time_events c p ticks).pub.is_connected } ∧
    (time_events c p ticks).events = [] ∧
    cleanups (time_events c p ticks).events = 0 := by
  obtain ⟨h1, h2⟩ := time_events_active c ticks p hs
  refine ⟨?_, ?_, ?_, ?_, h1, h2, ?_⟩
  · rw [h1]
    exact hs
  · rw [h1]
  · intro h
    rw [h1]
    exact h
  · rw [h1]
  · rw [h2]
    rfl

theorem time_events_linger (c : Constants) (later : List (Int × Int)) :
    ∀ q : Publication, q.status = Status.LINGER →
      InRange64 (q.time_of_last_activity_ns + q.linger_timeout_ns) →
      ((time_events c q later).pub.status = Status.CLOSING ↔
        ∃ tick ∈ later, tick.1 > q.time_of_last_activity_ns + q.linger_timeout_ns) ∧
      ((time_events c q later).pub.status = Status.LINGER ↔
        ∀ tick ∈ later, tick.1 ≤ q.time_of_last_activity_ns + q.linger_timeout_ns) ∧
      (cleanups (time_events c q later).events = 1 ↔
        ∃ tick ∈ later, tick.1 > q.time_of_last_activity_ns + q.linger_timeout_ns) := by
  induction later with
  | nil =>
    intro q hs _
    refine ⟨⟨fun h => ?_, fun h => ?_⟩, ⟨fun _ tick hmem => ?_, fun _ => hs⟩,
      ⟨fun h => ?_, fun h => ?_⟩⟩
    · have h1 : q.status = Status.CLOSING := h
      rw [hs] at h1
      cases h1
    · obtain ⟨tick, hmem, _⟩ := h
      exact absurd hmem (List.not_mem_nil _)
    · exact absurd hmem (List.not_mem_nil _)
    · have h1 : cleanups [] = 1 := h
      exact absurd h1 (by decide)
    · obtain ⟨tick, hmem, _⟩ := h
      exact absurd hmem (List.not_mem_nil _)
  | cons tick rest ih =>
    intro q hs hr
    obtain ⟨now_ns, now_ms⟩ := tick
    rw [time_events_cons, on_time_event_linger_eq c q now_ns now_ms hs, wrap64_eq_self hr]
    by_cases hgt : now_ns > q.time_of_last_activity_ns + q.linger_timeout_ns
    · rw [if_pos hgt]
      have hfin := time_events_closing c rest { q with status := Status.CLOSING } rfl
      have hex : ∃ tick ∈ (now_ns, now_ms) :: rest,
          tick.1 > q.time_of_last_activity_ns + q.linger_timeout_ns :=
        ⟨(now_ns, now_ms), List.mem_cons_self _ _, hgt⟩
      refine ⟨⟨fun _ => hex, fun _ => ?_⟩, ⟨fun h => ?_, fun h => ?_⟩, ⟨fun _ => hex, fun _ => ?_⟩⟩
      · show (time_events c { q with status := Status.CLOSING } rest).pub.status = _
        rw [hfin]
      · have h1 : (time_events c { q with status := Status.CLOSING } rest).pub.status
            = Status.LINGER := h
        rw [hfin] at h1
        have h2 : Status.CLOSING = Status.LINGER := h1
        cases h2
      · have := h (now_ns, now_ms) (List.mem_cons_self _ _)
        have h2 : now_ns ≤ q.time_of_last_activity_ns + q.linger_timeout_ns := this
        omega
      · show cleanups ([Event.cleanup_network_publication] ++
          (time_events c { q with status := Status.CLOSING } rest).events) = 1
        rw [hfin]
        rfl
    · rw [if_neg hgt]
      obtain ⟨ih1, ih2, ih3⟩ := ih q hs hr
      have hex : (∃ tick ∈ (now_ns, now_ms) :: rest,
          tick.1 > q.time_of_last_activity_ns + q.linger_timeout_ns) ↔
          ∃ tick ∈ rest, tick.1 > q.time_of_last_activity_ns + q.linger_timeout_ns := by
        constructor
        · rintro ⟨tick, hmem, ht⟩
          rcases List.mem_cons.1 hmem with h | h
          · rw [h] at ht
            exact absurd ht hgt
          · exact ⟨tick, h, ht⟩
        · rintro ⟨tick, hmem, ht⟩
          exact ⟨tick, List.mem_cons_of_mem _ hmem, ht⟩
      have hall : (∀ tick ∈ (now_ns, now_ms) :: rest,
          tick.1 ≤ q.time_of_last_activity_ns + q.linger_timeout_ns) ↔
          ∀ tick ∈ rest, tick.1 ≤ q.time_of_last_activity_ns + q.linger_timeout_ns := by
        constructor
        · intro h tick hmem
          exact h tick (List.mem_cons_of_mem _ hmem)
        · intro h tick hmem
          rcases List.mem_cons.1 hmem with h1 | h1
          · rw [h1]
            show now_ns ≤ _
            omega
          · exact h tick h1
      rw [hex, hall]
      refine ⟨ih1, ih2, ?_⟩
      show cleanups ([] ++ (time_events c q rest).events) = 1 ↔ _
      exact ih3

theorem on_time_event_enters_linger (c : Constants) (d : Publication) (t m : Int)
    (hst : d.status = Status.DRAINING) (heq : d.snd_pos_position.value = d.last_snd_pos)
    (hsp : ∀ position ∈ d.subscribeable, d.snd_pos_position.value ≤ position.value) :
    (aeron_network_publication_on_time_event c d t m).pub.status = Status.LINGER ∧
    (aeron_network_publication_on_time_event c d t m).pub.time_of_last_activity_ns = t ∧
    (aeron_network_publication_on_time_event c d t m).pub.linger_timeout_ns
      = d.linger_timeout_ns ∧
    cleanups (aeron_network_publication_on_time_event c d t m).events = 0 := by
  rw [on_time_event_draining_settled c d t m hst heq hsp]
  refine ⟨rfl, rfl, rfl, ?_⟩
  show cleanups (if d.subscribeable = [] then []
    else Event.cleanup_spies :: d.subscribeable.map
      (fun position => Event.counters_manager_free (wrap32 position.counter_id))) = 0
  by_cases hnil : d.subscribeable = []
  · rw [if_pos hnil]
    rfl
  · rw [if_neg hnil]
    have h := cleanups_frees d.subscribeable
    unfold cleanups at h ⊢
    rw [List.count_cons, h]
    rfl

theorem on_time_event_stays_draining (c : Constants) (d : Publication) (t m : Int)
    (hst : d.status = Status.DRAINING) (hne : d.snd_pos_position.value ≠ d.last_snd_pos) :
    (aeron_network_publication_on_time_event c d t m).pub.status = Status.DRAINING ∧
    (aeron_network_publication_on_time_event c d t m).pub.snd_pos_position
      = d.snd_pos_position ∧
    (aeron_network_publication_on_time_event c d t m).pub.last_snd_pos
      = d.snd_pos_position.value ∧
    (aeron_network_publication_on_time_event c d t m).pub.subscribeable = d.subscribeable ∧
    (aeron_network_publication_on_time_event c d t m).pub.linger_timeout_ns
      = d.linger_timeout_ns ∧
    (aeron_network_publication_on_time_event c d t m).events = [] := by
  rw [on_time_event_draining_moved c d t m hst hne]
  exact ⟨hst, rfl, rfl, rfl, rfl, rfl⟩

/-- C34: a publication in status ACTIVE with one reference and no spy, after
`aeron_network_publication_decref`, is in status DRAINING; when `snd_pos`
equals `last_snd_pos` the
first tick moves it to LINGER, and otherwise the first tick leaves it DRAINING
and the second moves it to LINGER. With `t` the `now_ns` of the tick that
entered LINGER and `t + linger_timeout_ns` a 64-bit value, after any further
ticks the status is CLOSING, and the conductor's cleanup has been called once,
exactly when one of them had `now_ns > t + linger_timeout_ns`; it is LINGER
when none had. -/
theorem released_publication_closes (c : Constants) (e : Env) (p : Publication)
    (hs : p.status = Status.ACTIVE) (href : p.refcnt = 1) (hspies : p.subscribeable = []) :
    (aeron_network_publication_decref e p).status = Status.DRAINING ∧
    p.status.order < (aeron_network_publication_decref e p).status.order ∧
    (p.snd_pos_position.value = p.last_snd_pos →
      ∀ (t m : Int) (later : List (Int × Int)), InRange64 (t + p.linger_timeout_ns) →
        (time_events c (aeron_network_publication_decref e p) [(t, m)]).pub.status
          = Status.LINGER ∧
        ((time_events c (aeron_network_publication_decref e p)
            ((t, m) :: later)).pub.status = Status.CLOSING ↔
          ∃ tick ∈ later, tick.1 > t + p.linger_timeout_ns) ∧
        ((time_events c (aeron_network_publication_decref e p)
            ((t, m) :: later)).pub.status = Status.LINGER ↔
          ∀ tick ∈ later, tick.1 ≤ t + p.linger_timeout_ns) ∧
        (cleanups (time_events c (aeron_network_publication_decref e p)
            ((t, m) :: later)).events = 1 ↔
          ∃ tick ∈ later, tick.1 > t + p.linger_timeout_ns)) ∧
    (p.snd_pos_position.value ≠ p.last_snd_pos →
      ∀ (t1 m1 t m : Int) (later : List (Int × Int)), InRange64 (t + p.linger_timeout_ns) →
        (time_events c (aeron_network_publication_decref e p) [(t1, m1)]).pub.status
          = Status.DRAINING ∧
        (time_events c (aeron_network_publication_decref e p) [(t1, m1), (t, m)]).pub.status
          = Status.LINGER ∧
        ((time_events c (aeron_network_publication_decref e p)
            ((t1, m1) :: (t, m) :: later)).pub.status = Status.CLOSING ↔
          ∃ tick ∈ later, tick.1 > t + p.linger_timeout_ns) ∧
        ((time_events c (aeron_network_publication_decref e p)
            ((t1, m1) :: (t, m) :: later)).pub.status = Status.LINGER ↔
          ∀ tick ∈ later, tick.1 ≤ t + p.linger_timeout_ns) ∧
        (cleanups (time_events c (aeron_network_publication_decref e p)
            ((t1, m1) :: (t, m) :: later)).events = 1 ↔
          ∃ tick ∈ later, tick.1 > t + p.linger_timeout_ns)) := by
  have hd : aeron_network_publication_decref e p =
      { p with refcnt := 0, status := Status.DRAINING
               time_of_last_status_change := e.nano_clock } := by
    unfold aeron_network_publication_decref
    simp only []
    have h0 : (0 : Int) = wrap32 (p.refcnt - 1) := by
      rw [href]
      decide
    rw [if_pos h0, ← h0]
  have hst : (aeron_network_publication_decref e p).status = Status.DRAINING := by rw [hd]
  have hord : p.status.order < (aeron_network_publication_decref e p).status.order := by
    rw [hst, hs]
    decide
  have hpos : (aeron_network_publication_decref e p).snd_pos_position = p.snd_pos_position := by
    rw [hd]
  have hlast : (aeron_network_publication_decref e p).last_snd_pos = p.last_snd_pos := by
    rw [hd]
  have hsub : (aeron_network_publication_decref e p).subscribeable = [] := by
    rw [hd]
    exact hspies
  have hlinger : (aeron_network_publication_decref e p).linger_timeout_ns
      = p.linger_timeout_ns := by rw [hd]
  generalize aeron_network_publication_decref e p = d at hst hord hpos hlast hsub hlinger
  have hsp : ∀ position ∈ d.subscribeable, d.snd_pos_position.value ≤ position.value := by
    rw [hsub]
    intro position hmem
    exact absurd hmem (List.not_mem_nil _)
  refine ⟨hst, hord, ?_, ?_⟩
  · intro heq t m later hr
    have heq1 : d.snd_pos_position.value = d.last_snd_pos := by rw [hpos, hlast]; exact heq
    obtain ⟨q1, q2, q3, q4⟩ := on_time_event_enters_linger c d t m hst heq1 hsp
    simp only [time_events_cons, time_events_nil]
    generalize aeron_network_publication_on_time_event c d t m = o at q1 q2 q3 q4
    have hr1 : InRange64 (o.pub.time_of_last_activity_ns + o.pub.linger_timeout_ns) := by
      rw [q2, q3, hlinger]
      exact hr
    obtain ⟨h1, h2, h3⟩ := time_events_linger c later o.pub q1 hr1
    rw [q2, q3, hlinger] at h1 h2 h3
    refine ⟨q1, h1, h2, ?_⟩
    show cleanups (o.events ++ (time_events c o.pub later).events) = 1 ↔ _
    rw [cleanups_append, q4, Nat.zero_add]
    exact h3
  · intro hne t1 m1 t m later hr
    have hne1 : d.snd_pos_position.value ≠ d.last_snd_pos := by rw [hpos, hlast]; exact hne
    obtain ⟨r1, r2, r3, r4, r5, r6⟩ := on_time_event_stays_draining c d t1 m1 hst hne1
    simp only [time_events_cons, time_events_nil]
    generalize aeron_network_publication_on_time_event c d t1 m1 = o1 at r1 r2 r3 r4 r5 r6
    have hsp1 : ∀ position ∈ o1.pub.subscribeable,
        o1.pub.snd_pos_position.value ≤ position.value := by
      rw [r4, r2]
      exact hsp
    obtain ⟨q1, q2, q3, q4⟩ := on_time_event_enters_linger c o1.pub t m r1
      (by rw [r2, r3]) hsp1
    generalize aeron_network_publication_on_time_event c o1.pub t m = o at q1 q2 q3 q4
    have hr1 : InRange64 (o.pub.time_of_last_activity_ns + o.pub.linger_timeout_ns) := by
      rw [q2, q3, r5, hlinger]
      exact hr
    obtain ⟨h1, h2, h3⟩ := time_events_linger c later o.pub q1 hr1
    rw [q2, q3, r5, hlinger] at h1 h2 h3
    refine ⟨r1, q1, h1, h2, ?_⟩
    show cleanups (o1.events ++ (o.events ++ (time_events c o.pub later).events)) = 1 ↔ _
    rw [cleanups_append, cleanups_append, q4, r6, Nat.zero_add]
    show 0 + cleanups (time_events c o.pub later).events = 1 ↔ _
    rw [Nat.zero_add]
    exact h3

/-! ## The window of a send and the frames of one tick -/

theorem collect_scans (idx : Nat) (s : SendDataLoop) (call : ScanCall) :
    (send_data_collect idx s call).scans = s.scans ++ [call] := by
  unfold send_data_collect
  split_ifs <;> rfl

theorem send_data_loop_first_scan (c : Constants) (e : Env) (p : Publication) (sp : Int)
    (tl n : Nat) (s : SendDataLoop) (hw : 0 < s.available_window) :
    ∃ rest : List ScanCall,
      (send_data_loop c e p sp tl (n + 1) s).scans =
        s.scans ++ send_data_scan c e p sp tl s :: rest := by
  rw [send_data_loop_succ, if_pos hw]
  by_cases hb : (send_data_scan c e p sp tl s).available = 0 ∨
      tl = toSize (send_data_collect
        (aeron_logbuffer_index_by_position c sp p.position_bits_to_shift) s
        (send_data_scan c e p sp tl s)).term_offset
  · rw [if_pos hb]
    exact ⟨[], collect_scans _ _ _⟩
  · rw [if_neg hb]
    obtain ⟨calls, _, heq, _⟩ := send_data_loop_trace c e p sp tl n
      (send_data_collect (aeron_logbuffer_index_by_position c sp p.position_bits_to_shift) s
        (send_data_scan c e p sp tl s))
    refine ⟨calls, ?_⟩
    rw [heq, replay_scans, collect_scans, List.append_assoc]
    rfl

theorem send_data_scan_limit (c : Constants) (e : Env) (p : Publication) (sp : Int) (tl : Nat)
    (s : SendDataLoop) (h0 : 0 < s.available_window) (h1 : s.available_window < 2147483648) :
    (send_data_scan c e p sp tl s).available_window = s.available_window ∧
    ((send_data_scan c e p sp tl s).scan_limit : Int) = min s.available_window p.mtu_length := by
  refine ⟨rfl, ?_⟩
  have hsize := toSize_of_nonneg (le_of_lt h0)
    (show s.available_window < 18446744073709551616 by omega)
  show ((if toSize s.available_window < p.mtu_length then toSize s.available_window
    else p.mtu_length : Nat) : Int) = _
  by_cases hlt : toSize s.available_window < p.mtu_length
  · rw [if_pos hlt, hsize]
    have : s.available_window < (p.mtu_length : Int) := by
      rw [← hsize]
      exact_mod_cast hlt
    exact (min_eq_left (le_of_lt this)).symm
  · rw [if_neg hlt]
    have : (p.mtu_length : Int) ≤ s.available_window := by
      rw [← hsize]
      exact_mod_cast (not_lt.1 hlt)
    exact (min_eq_right this).symm

/-- C36, as amended: `aeron_network_publication_send_data` works with the
window `(int32_t)(snd_lmt - snd_pos)`: it calls the scanner (when
`MAX_MESSAGES_PER_SEND` is not 0) exactly when that 32-bit value is positive,
the first time with that value as the window and the lesser of it and the MTU
as the limit. The 32-bit value is `snd_lmt - snd_pos` when the difference is
within `[-2^31, 2^31)`; so for such positions no scan is made when
`snd_lmt <= snd_pos`, and the first scan is made with limit
`min(snd_lmt - snd_pos, MTU)` when `snd_lmt > snd_pos`. -/
theorem send_data_window (c : Constants) (e : Env) (p : Publication)
    (now_ns snd_pos term_offset : Int)
    (hmax : 0 < c.AERON_NETWORK_PUBLICATION_MAX_MESSAGES_PER_SEND) :
    (wrap32 (wrap64 (p.snd_lmt_position.value - snd_pos)) ≤ 0 →
      (aeron_network_publication_send_data c e p now_ns snd_pos term_offset).scans = []) ∧
    (0 < wrap32 (wrap64 (p.snd_lmt_position.value - snd_pos)) →
      ∃ (first : ScanCall) (rest : List ScanCall),
        (aeron_network_publication_send_data c e p now_ns snd_pos term_offset).scans
          = first :: rest ∧
        first.available_window = wrap32 (wrap64 (p.snd_lmt_position.value - snd_pos)) ∧
        (first.scan_limit : Int) =
          min (wrap32 (wrap64 (p.snd_lmt_position.value - snd_pos))) p.mtu_length) ∧
    (-2147483648 ≤ p.snd_lmt_position.value - snd_pos →
      p.snd_lmt_position.value - snd_pos < 2147483648 →
      wrap32 (wrap64 (p.snd_lmt_position.value - snd_pos))
        = p.snd_lmt_position.value - snd_pos ∧
      (p.snd_lmt_position.value ≤ snd_pos →
        (aeron_network_publication_send_data c e p now_ns snd_pos term_offset).scans = []) ∧
      (snd_pos < p.snd_lmt_position.value →
        ∃ (first : ScanCall) (rest : List ScanCall),
          (aeron_network_publication_send_data c e p now_ns snd_pos term_offset).scans
            = first :: rest ∧
          first.available_window = p.snd_lmt_position.value - snd_pos ∧
          (first.scan_limit : Int) =
            min (p.snd_lmt_position.value - snd_pos) p.mtu_length)) := by
  have hstall : wrap32 (wrap64 (p.snd_lmt_position.value - snd_pos)) ≤ 0 →
      (aeron_network_publication_send_data c e p now_ns snd_pos term_offset).scans = [] := by
    intro hw
    rw [send_data_scans]
    unfold send_data_scanned
    simp only []
    rw [send_data_loop_stalled c e p snd_pos _ _ _ hw]
  have hscan : 0 < wrap32 (wrap64 (p.snd_lmt_position.value - snd_pos)) →
      ∃ (first : ScanCall) (rest : List ScanCall),
        (aeron_network_publication_send_data c e p now_ns snd_pos term_offset).scans
          = first :: rest ∧
        first.available_window = wrap32 (wrap64 (p.snd_lmt_position.value - snd_pos)) ∧
        (first.scan_limit : Int) =
          min (wrap32 (wrap64 (p.snd_lmt_position.value - snd_pos))) p.mtu_length := by
    intro hw
    obtain ⟨n, hn⟩ : ∃ n, c.AERON_NETWORK_PUBLICATION_MAX_MESSAGES_PER_SEND = n + 1 :=
      ⟨c.AERON_NETWORK_PUBLICATION_MAX_MESSAGES_PER_SEND - 1, by omega⟩
    obtain ⟨rest, hrest⟩ := send_data_loop_first_scan c e p snd_pos
      ((toSize p.term_length_mask + 1) % SIZE_MOD) n
      { available_window := wrap32 (wrap64 (p.snd_lmt_position.value - snd_pos))
        term_offset := term_offset, highest_pos := snd_pos, bytes_sent := 0, iov := []
        scans := [] } hw
    obtain ⟨hl1, hl2⟩ := send_data_scan_limit c e p snd_pos
      ((toSize p.term_length_mask + 1) % SIZE_MOD)
      { available_window := wrap32 (wrap64 (p.snd_lmt_position.value - snd_pos))
        term_offset := term_offset, highest_pos := snd_pos, bytes_sent := 0, iov := []
        scans := [] } hw (wrap32_bounds _).2
    refine ⟨_, rest, ?_, hl1, hl2⟩
    rw [send_data_scans]
    unfold send_data_scanned
    simp only []
    rw [hn, hrest]
    rfl
  refine ⟨hstall, hscan, fun h1 h2 => ?_⟩
  have hw : wrap32 (wrap64 (p.snd_lmt_position.value - snd_pos))
      = p.snd_lmt_position.value - snd_pos := by
    unfold wrap32 wrap64
    omega
  refine ⟨hw, fun hle => hstall (by rw [hw]; omega), fun hlt => ?_⟩
  have := hscan (by rw [hw]; omega)
  rw [hw] at this
  exact this

/-- C36, as stated, fails where `snd_lmt - snd_pos` is not a 32-bit value. With
`snd_pos = 0` and `snd_lmt = 2^31` the window is `-2^31` and no scan is made
although `snd_lmt > snd_pos`; with `snd_lmt = 2^32 + 5` the scan is made with
window and limit 5, not the MTU; with `snd_pos = 2^32` and `snd_lmt = 100` a
scan is made, with limit 100, although `snd_lmt < snd_pos`. -/
theorem send_data_window_wraps :
    (aeron_network_publication_send_data defaults (demo_env one_frame)
      (demo_with_limit 2147483648) 5 0 0).scans = [] ∧
    ((aeron_network_publication_send_data defaults (demo_env one_frame)
      (demo_with_limit 4294967301) 5 0 0).scans.map
        (fun call => (call.available_window, call.scan_limit))) = [(5, 5)] ∧
    (demo_with_limit 4294967301).mtu_length = 1408 ∧
    ((aeron_network_publication_send_data defaults (demo_env one_frame)
      (demo_with_limit 100) 5 4294967296 0).scans.map
        (fun call => (call.available_window, call.scan_limit))) = [(100, 100)] := by
  decide

/-- C37 fails for a term length of 1 GiB: `buffer_capacity * 2` is `2^31`,
which as an `int32_t` is `-2^31`, so the reserved range is negative and every
dirty range exceeds it. With the clean position and `pub_lmt` at 0 the length
is `(int32_t)(0 + 2^31) = -2^31`: `memset` is called with that length converted
to `size_t` and the clean position moves back to `-2^31`. The same happens for
every `pub_lmt` less than `2^31` above a clean position that is not negative:
the length is `dirty - 2^31` and the clean position decreases. -/
theorem clean_buffer_gigabyte_term :
    (wrap32 (wrap32 (demo_gigabyte.term_length_mask + 1) * 2) = -2147483648 ∧
      demo_gigabyte.term_length_mask + 1 = 1073741824 ∧
      (aeron_network_publication_clean_buffer defaults demo_gigabyte 0).events
        = [Event.memset 0 0 18446744071562067968] ∧
      (aeron_network_publication_clean_buffer defaults demo_gigabyte 0).pub.clean_position
        = -2147483648) ∧
    ∀ (c : Constants) (p : Publication) (pub_lmt : Int),
      p.term_length_mask = 1073741823 → 0 ≤ p.clean_position →
      p.clean_position ≤ pub_lmt → pub_lmt - p.clean_position < 2147483648 →
      InRange64 pub_lmt →
        (aeron_network_publication_clean_buffer c p pub_lmt).pub.clean_position
          = pub_lmt - 2147483648 ∧
        (aeron_network_publication_clean_buffer c p pub_lmt).pub.clean_position
          < p.clean_position ∧
        (aeron_network_publication_clean_buffer c p pub_lmt).events =
          [Event.memset
            (aeron_logbuffer_index_by_position c p.clean_position p.position_bits_to_shift)
            (Int.land p.clean_position p.term_length_mask)
            (toSize (pub_lmt - p.clean_position - 2147483648))] := by
  refine ⟨by decide, ?_⟩
  intro c p pub_lmt hm hc hle hd hl
  obtain ⟨ho0, ho1⟩ := land_mask_bounds p.clean_position p.term_length_mask (by rw [hm]; decide)
  have hdirty : wrap64 (pub_lmt - p.clean_position) = pub_lmt - p.clean_position := by
    unfold InRange64 at hl
    unfold wrap64
    omega
  unfold aeron_network_publication_clean_buffer
  simp only []
  generalize Int.land p.clean_position p.term_length_mask = off at ho0 ho1 ⊢
  rw [hm] at ho1 ⊢
  have hcap : wrap32 ((1073741823 : Int) + 1) = 1073741824 := by decide
  have hres : wrap32 ((1073741824 : Int) * 2) = -2147483648 := by decide
  have hoff : wrap32 off = off := wrap32_eq_self (by omega) (by omega)
  rw [hcap, hres, hoff, hdirty]
  have hleft : wrap32 (1073741824 - off) = 1073741824 - off :=
    wrap32_eq_self (by omega) (by omega)
  have hshift : wrap64 (pub_lmt - p.clean_position - -2147483648)
      = pub_lmt - p.clean_position + 2147483648 := by
    unfold InRange64 at hl
    unfold wrap64
    omega
  have hbfc : wrap32 (pub_lmt - p.clean_position + 2147483648)
      = pub_lmt - p.clean_position - 2147483648 := by
    unfold wrap32
    omega
  rw [hleft, hshift, hbfc]
  have hgt : pub_lmt - p.clean_position > -2147483648 := by omega
  rw [if_pos hgt]
  have hlt : pub_lmt - p.clean_position - 2147483648 < 1073741824 - off := by omega
  rw [if_pos hlt]
  have hpos : wrap64 (p.clean_position + (pub_lmt - p.clean_position - 2147483648))
      = pub_lmt - 2147483648 := by
    unfold InRange64 at hl
    unfold wrap64
    omega
  refine ⟨hpos, ?_, rfl⟩
  show wrap64 (p.clean_position + (pub_lmt - p.clean_position - 2147483648)) < p.clean_position
  rw [hpos]
  omega

theorem heartbeats_append (a b : List Event) :
    heartbeats (a ++ b) = heartbeats a ++ heartbeats b := by
  induction a with
  | nil => rfl
  | cons x xs ih => cases x <;> simp [heartbeats, ih]

theorem heartbeats_send_setup (c : Constants) (e : Env) (p : Publication) (now_ns : Int) :
    heartbeats (send_setup c e p now_ns).events = [] ∧
    (send_setup c e p now_ns).pub.heartbeats_sent_counter = p.heartbeats_sent_counter := by
  unfold send_setup aeron_network_publication_setup_message_check
  simp only []
  split_ifs <;> exact ⟨rfl, rfl⟩

theorem heartbeats_send_data (c : Constants) (e : Env) (p : Publication)
    (now_ns sp off : Int) :
    heartbeats (aeron_network_publication_send_data c e p now_ns sp off).events = [] ∧
    (aeron_network_publication_send_data c e p now_ns sp off).pub.heartbeats_sent_counter
      = p.heartbeats_sent_counter := by
  constructor
  · rw [send_data_events]
    split_ifs <;> rfl
  · unfold aeron_network_publication_send_data
    simp only []
    split_ifs <;> rfl

theorem heartbeat_check_quiet (c : Constants) (e : Env) (p : Publication)
    (now_ns tid off : Int)
    (h : ¬ now_ns > wrap64 (p.time_of_last_send_or_heartbeat_ns +
      c.AERON_NETWORK_PUBLICATION_HEARTBEAT_TIMEOUT_NS)) :
    aeron_network_publication_heartbeat_message_check c e p now_ns tid off =
      { pub := p, events := [], result := 0 } := by
  unfold aeron_network_publication_heartbeat_message_check
  rw [if_neg h]

/-- A send tick whose setup check has left `time_of_last_send_or_heartbeat_ns`
at `now_ns` sends no heartbeat. -/
theorem send_after_setup_quiet (c : Constants) (e : Env) (p : Publication) (now_ns : Int)
    (hhb : 0 ≤ c.AERON_NETWORK_PUBLICATION_HEARTBEAT_TIMEOUT_NS)
    (hr : InRange64 (now_ns + c.AERON_NETWORK_PUBLICATION_HEARTBEAT_TIMEOUT_NS))
    (htime : (send_setup c e p now_ns).pub.time_of_last_send_or_heartbeat_ns = now_ns) :
    heartbeats (aeron_network_publication_send c e p now_ns).events = [] ∧
    (aeron_network_publication_send c e p now_ns).pub.heartbeats_sent_counter
      = p.heartbeats_sent_counter := by
  obtain ⟨hs1, hs2⟩ := heartbeats_send_setup c e p now_ns
  obtain ⟨hd1, hd2⟩ := heartbeats_send_data c e (send_setup c e p now_ns).pub now_ns
    p.snd_pos_position.value (send_term_offset p)
  have hdt : (aeron_network_publication_send_data c e (send_setup c e p now_ns).pub now_ns
      p.snd_pos_position.value (send_term_offset p)).pub.time_of_last_send_or_heartbeat_ns
      = now_ns := by
    rw [send_data_time]
    split_ifs
    · rfl
    · exact htime
  have hq := heartbeat_check_quiet c e
    (aeron_network_publication_send_data c e (send_setup c e p now_ns).pub now_ns
      p.snd_pos_position.value (send_term_offset p)).pub now_ns
    (send_active_term_id p) (send_term_offset p) (by
      rw [hdt, wrap64_eq_self hr]
      omega)
  rw [hs2] at hd2
  unfold aeron_network_publication_send send_send_data
  simp only []
  rw [hq]
  simp only []
  split_ifs
  · exact ⟨hs1, hs2⟩
  · refine ⟨?_, hd2⟩
    rw [heartbeats_append, hs1, hd1]
    rfl
  · refine ⟨?_, hd2⟩
    rw [heartbeats_append, heartbeats_append, hs1, hd1]
    rfl
  · refine ⟨?_, hd2⟩
    rw [heartbeats_append, heartbeats_append, heartbeats_append, hs1, hd1]
    rfl
  · refine ⟨?_, hd2⟩
    rw [heartbeats_append, heartbeats_append, hs1, hd1]
    rfl

/-- C39: with a heartbeat timeout that is not negative and
`now_ns + HEARTBEAT_TIMEOUT` a 64-bit value, a send tick that emits a SETUP
frame emits no heartbeat and leaves `heartbeats_sent` as it was: the setup
check sets `time_of_last_send_or_heartbeat_ns` to `now_ns`, so the heartbeat
check of the same tick, when it is reached, finds nothing due. In particular
the first tick of a publication just created, at any `now_ns` from the creation
time on, sends one SETUP and no heartbeat. -/
theorem setup_excludes_heartbeat (c : Constants) (e : Env) (p : Publication) (now_ns : Int)
    (hhb : 0 ≤ c.AERON_NETWORK_PUBLICATION_HEARTBEAT_TIMEOUT_NS)
    (hr : InRange64 (now_ns + c.AERON_NETWORK_PUBLICATION_HEARTBEAT_TIMEOUT_NS)) :
    (setups (aeron_network_publication_send c e p now_ns).events ≠ [] →
      heartbeats (aeron_network_publication_send c e p now_ns).events = [] ∧
      (aeron_network_publication_send c e p now_ns).pub.heartbeats_sent_counter
        = p.heartbeats_sent_counter) ∧
    (∀ tid off : Int,
      (aeron_network_publication_setup_message_check c e p now_ns tid off).events ≠ [] →
      ∀ (e1 : Env) (q : Publication) (tid1 off1 : Int),
        q.time_of_last_send_or_heartbeat_ns =
          (aeron_network_publication_setup_message_check c e p now_ns tid
            off).pub.time_of_last_send_or_heartbeat_ns →
        aeron_network_publication_heartbeat_message_check c e1 q now_ns tid1 off1 =
          { pub := q, events := [], result := 0 }) ∧
    (∀ (e0 : Env) (a : CreateArgs) (fresh : Publication),
      aeron_network_publication_create c e0 a = Except.ok fresh →
      InRange64 (e0.nano_clock - 1) → e0.nano_clock ≤ now_ns →
        (setups (aeron_network_publication_send c e fresh now_ns).events).length = 1 ∧
        heartbeats (aeron_network_publication_send c e fresh now_ns).events = [] ∧
        (aeron_network_publication_send c e fresh now_ns).pub.heartbeats_sent_counter
          = fresh.heartbeats_sent_counter) := by
  refine ⟨?_, ?_, ?_⟩
  · intro hne
    rw [send_setups] at hne
    by_cases hdue : p.should_send_setup_frame = true ∧
        now_ns > wrap64 (p.time_of_last_setup_ns + c.AERON_NETWORK_PUBLICATION_SETUP_TIMEOUT_NS)
    · obtain ⟨_, _, htime, _⟩ := (send_setup_cases c e p now_ns).1 hdue.1 hdue.2
      exact send_after_setup_quiet c e p now_ns hhb hr htime
    · have hq : p.should_send_setup_frame = false ∨
          ¬ now_ns > wrap64 (p.time_of_last_setup_ns +
            c.AERON_NETWORK_PUBLICATION_SETUP_TIMEOUT_NS) := by
        by_cases hf : p.should_send_setup_frame = true
        · exact Or.inr (fun h => hdue ⟨hf, h⟩)
        · left
          cases hb : p.should_send_setup_frame
          · rfl
          · exact absurd hb hf
      obtain ⟨hev, _⟩ := (send_setup_cases c e p now_ns).2 hq
      rw [hev] at hne
      exact absurd rfl hne
  · intro tid off hne e1 q tid1 off1 hq
    apply heartbeat_check_quiet
    rw [hq]
    have htime : (aeron_network_publication_setup_message_check c e p now_ns tid
        off).pub.time_of_last_send_or_heartbeat_ns = now_ns := by
      unfold aeron_network_publication_setup_message_check at hne ⊢
      simp only [] at hne ⊢
      by_cases hdue : now_ns > wrap64 (p.time_of_last_setup_ns +
          c.AERON_NETWORK_PUBLICATION_SETUP_TIMEOUT_NS)
      · rw [if_pos hdue]
        split_ifs <;> rfl
      · rw [if_neg hdue] at hne
        exact absurd rfl hne
    rw [htime, wrap64_eq_self hr]
    omega
  · intro e0 a fresh hcreate hr0 hnow
    obtain ⟨hflag, htime⟩ := create_setup_fields c e0 a fresh hcreate
    have hdue : now_ns > wrap64 (fresh.time_of_last_setup_ns +
        c.AERON_NETWORK_PUBLICATION_SETUP_TIMEOUT_NS) := by
      rw [htime]
      unfold InRange64 at hr0
      unfold wrap64
      omega
    obtain ⟨hl, _, _, _⟩ := send_due c e fresh now_ns hflag hdue
    obtain ⟨_, _, hts, _⟩ := (send_setup_cases c e fresh now_ns).1 hflag hdue
    obtain ⟨h1, h2⟩ := send_after_setup_quiet c e fresh now_ns hhb hr hts
    exact ⟨hl, h1, h2⟩

/-! ## Network utilities: claims -/

set_option maxRecDepth 100000 in
/-- C38 fails: on a little-endian host the second assignment,
`q[0] = bswap64(q[1])`, reads the `q[1]` that the first one has just
overwritten with `bswap64(q[0])`, so `q[0]` keeps the low half of the mask, the
high half is lost and the bytes are not reversed as a whole. For `prefixlen`
64 the 16 bytes written are all 0, not eight `0xFF` followed by eight `0x00`;
of the lengths 0 to 128 only 0 and 128 give the prefix mask. -/
theorem ipv6_netmask_not_prefix_mask :
    aeron_ipv6_netmask_from_prefixlen 64 =
      some [0, 0, 0, 0, 0, 0, 0, 0, 0, 0, 0, 0, 0, 0, 0, 0] ∧
    is_prefix_mask [255, 255, 255, 255, 255, 255, 255, 255, 0, 0, 0, 0, 0, 0, 0, 0] 64 ∧
    aeron_ipv6_netmask_from_prefixlen 72 =
      some [0, 0, 0, 0, 0, 0, 0, 255, 255, 0, 0, 0, 0, 0, 0, 0] ∧
    aeron_ipv6_netmask_from_prefixlen 127 =
      some [254, 255, 255, 255, 255, 255, 255, 255, 255, 255, 255, 255, 255, 255, 255, 254] ∧
    ∀ prefixlen ≤ 128,
      (aeron_ipv6_netmask_from_prefixlen prefixlen).isSome = true ∧
      (is_prefix_mask ((aeron_ipv6_netmask_from_prefixlen prefixlen).getD []) prefixlen ↔
        prefixlen = 0 ∨ prefixlen = 128) := by
  decide

theorem digit_char_code (digit : Nat) (h : digit < 10) : (digit_char digit).toNat = 48 + digit := by
  interval_cases digit <;> rfl

theorem strtoul_digit_decimal (digit : Nat) (h : digit < 10) :
    strtoul_digit (48 + digit) = some digit := by
  unfold strtoul_digit
  rw [if_pos ⟨by omega, by omega⟩, Nat.add_sub_cancel_left]

theorem strtoul_scan_decimal (digits : List Nat) (hd : ∀ digit ∈ digits, digit < 10) :
    ∀ value count : Nat,
      strtoul_scan 10 (decimal_string digits) value count =
        (digits.foldl (fun value digit => value * 10 + digit) value, count + digits.length) := by
  induction digits with
  | nil =>
    intro value count
    rfl
  | cons digit rest ih =>
    intro value count
    have hlt : digit < 10 := hd digit (List.mem_cons_self _ _)
    show strtoul_scan 10 (digit_char digit :: decimal_string rest) value count = _
    unfold strtoul_scan
    rw [digit_char_code digit hlt, strtoul_digit_decimal digit hlt]
    simp only []
    rw [if_pos hlt, ih (fun d hmem => hd d (List.mem_cons_of_mem _ hmem))]
    simp only [List.foldl_cons, List.length_cons]
    congr 1
    omega

theorem head_code_decimal (digit : Nat) (rest : List Nat) (h : digit < 10) :
    head_code (decimal_string (digit :: rest)) = 48 + digit := by
  show (digit_char digit).toNat = _
  exact digit_char_code digit h

theorem dropWhile_isspace_decimal (digits : List Nat) (hd : ∀ digit ∈ digits, digit < 10) :
    (decimal_string digits).dropWhile isspace = decimal_string digits := by
  cases digits with
  | nil => rfl
  | cons digit rest =>
    have hlt : digit < 10 := hd digit (List.mem_cons_self _ _)
    show (digit_char digit :: decimal_string rest).dropWhile isspace = _
    have hsp : isspace (digit_char digit) = false := by
      unfold isspace
      rw [digit_char_code digit hlt]
      simp only [decide_eq_false_iff_not]
      omega
    rw [List.dropWhile_cons_of_neg (by rw [hsp]; exact Bool.false_ne_true)]
    rfl

/-- What `strtoul` with base 0 makes of decimal digits without a leading
zero: their value, or `ULONG_MAX` with `ERANGE` when the value is beyond it. -/
theorem strtoul_decimal (einval_without_digits : Bool) (errno : Int) (digits : List Nat)
    (hne : digits ≠ []) (hd : ∀ digit ∈ digits, digit < 10)
    (hcanon : digits.head? ≠ some 0 ∨ digits = [0]) :
    strtoul einval_without_digits errno (decimal_string digits) =
      if decimal_value digits > ULONG_MAX then { value := ULONG_MAX, errno := ERANGE }
      else { value := decimal_value digits, errno := errno } := by
  cases digits with
  | nil => exact absurd rfl hne
  | cons digit rest =>
    have hlt : digit < 10 := hd digit (List.mem_cons_self _ _)
    have hhead := head_code_decimal digit rest hlt
    have hsign : strtoul_sign (decimal_string (digit :: rest))
        = (false, decimal_string (digit :: rest)) := by
      unfold strtoul_sign
      rw [hhead, if_neg (by omega), if_neg (by omega)]
    unfold strtoul
    rw [dropWhile_isspace_decimal _ hd, hsign]
    simp only []
    by_cases hzero : digit = 0
    · have hrest : rest = [] := by
        rcases hcanon with h | h
        · rw [hzero] at h
          exact absurd rfl h
        · exact (List.cons.inj h).2
      rw [hzero, hrest]
      have hv : decimal_value [0] = 0 := rfl
      rw [hv]
      have hscan : strtoul_scan (strtoul_base (decimal_string [0])).1
          (strtoul_base (decimal_string [0])).2 0 0 = (0, 1) := by decide
      rw [hscan]
      rfl
    · have hbase : strtoul_base (decimal_string (digit :: rest))
          = (10, decimal_string (digit :: rest)) := by
        unfold strtoul_base
        rw [hhead, if_neg (fun h => by omega), if_neg (by omega)]
      rw [hbase]
      simp only []
      rw [strtoul_scan_decimal _ hd 0 0]
      simp only [List.length_cons, Nat.zero_add]
      rw [if_neg (by omega)]
      show (if decimal_value (digit :: rest) > ULONG_MAX then
          ({ value := ULONG_MAX, errno := ERANGE } : Strtoul)
        else { value := if false = true then _ else decimal_value (digit :: rest)
               errno := errno }) = _
      rw [if_neg Bool.false_ne_true]

/-- C40 fails at port 65535: `value >= UINT16_MAX` rejects the greatest valid
port, so `aeron_udp_port_resolver` returns -1 for `65535`, with or without the
leading colon. For every string of decimal digits without a leading zero that
denotes `p`, with an optional leading colon, it returns `p` when `p < 65535`
and -1 when `p >= 65535`, provided `errno` is not `EINVAL` when `p` is 0: the
function does not clear `errno` before `strtoul`, and with `EINVAL` left in it
by an earlier call it returns -1 for port 0. Digits with a leading zero are
read as octal (`010` gives 8). -/
theorem udp_port_resolver_range :
    (aeron_udp_port_resolver false 0 [ '6', '5', '5', '3', '5'] = -1 ∧
      aeron_udp_port_resolver false 0 [ ':', '6', '5', '5', '3', '5'] = -1 ∧
      aeron_udp_port_resolver false 0 [ '6', '5', '5', '3', '4'] = 65534 ∧
      aeron_udp_port_resolver false 0 [ '6', '5', '5', '3', '6'] = -1 ∧
      aeron_udp_port_resolver false 0 [ '0'] = 0 ∧
      aeron_udp_port_resolver false EINVAL [ '0'] = -1 ∧
      aeron_udp_port_resolver false 0 [ '0', '1', '0'] = 8) ∧
    ∀ (einval_without_digits colon : Bool) (errno : Int) (digits : List Nat),
      digits ≠ [] → (∀ digit ∈ digits, digit < 10) →
      (digits.head? ≠ some 0 ∨ digits = [0]) →
        aeron_udp_port_resolver einval_without_digits errno
            ((if colon then [ ':'] else []) ++ decimal_string digits) =
          if decimal_value digits = 0 ∧ errno = EINVAL then (-1 : Int)
          else if decimal_value digits ≥ 65535 then (-1 : Int)
          else (decimal_value digits : Int) := by
  refine ⟨by decide, ?_⟩
  intro b colon errno digits hne hd hcanon
  have hstr : (if head_code ((if colon then [ ':'] else []) ++ decimal_string digits) = 58 then
        ((if colon then [ ':'] else []) ++ decimal_string digits).tail
      else (if colon then [ ':'] else []) ++ decimal_string digits) = decimal_string digits := by
    cases colon with
    | true =>
      have h58 : head_code ((if true = true then [ ':'] else []) ++ decimal_string digits)
          = 58 := rfl
      rw [if_pos h58]
      rfl
    | false =>
      cases digits with
      | nil => exact absurd rfl hne
      | cons digit rest =>
        have hlt : digit < 10 := hd digit (List.mem_cons_self _ _)
        have hhead : head_code ((if false = true then [ ':'] else []) ++
            decimal_string (digit :: rest)) = 48 + digit := head_code_decimal digit rest hlt
        rw [if_neg (by rw [hhead]; omega)]
        rfl
  unfold aeron_udp_port_resolver
  simp only []
  rw [hstr, strtoul_decimal b errno digits hne hd hcanon]
  unfold ULONG_MAX UINT16_MAX EINVAL ERANGE
  by_cases hbig : decimal_value digits > 18446744073709551615
  · rw [if_pos hbig]
    simp only []
    have h1 : ¬ ((0 : Nat) = 18446744073709551615 ∧ (22 : Int) = 34) := by decide
    have h2 : (18446744073709551615 : Nat) ≥ 65535 := by decide
    rw [if_neg h1, if_pos h2, if_neg (fun h => by omega), if_pos (by omega)]
  · rw [if_neg hbig]
    simp only []
    by_cases hz : decimal_value digits = 0 ∧ errno = 22
    · rw [if_pos ⟨hz.1.symm, hz.2.symm⟩, if_pos hz]
    · rw [if_neg (fun h => hz ⟨h.1.symm, h.2.symm⟩), if_neg hz]
      by_cases hr : decimal_value digits ≥ 65535
      · rw [if_pos hr, if_pos hr]
      · rw [if_neg hr, if_neg hr]
        exact wrap32_eq_self (by omega) (by omega)

/-! ## The statements of the fourth group at concrete inputs -/

/-- C32, as amended, at a concrete input: the only reference to an ACTIVE
publication is dropped. -/
theorem status_moves_forward_witness :
    demo_publication.status = Status.ACTIVE ∧
    demo_publication.status.order ≤
      (after_life_call defaults demo_publication
        (LifeCall.decref (demo_env no_frame))).status.order :=
  ⟨rfl,
    (status_moves_forward defaults demo_publication (LifeCall.decref (demo_env no_frame))
      (fun _ _ _ => Or.inl rfl)).1⟩

/-- C33 at a concrete input: a connected publication with the last status
message at 0 and a connection timeout of 5000 ms: nothing changes at 5000,
`is_connected` is cleared at 5001. -/
theorem on_time_event_active_timeout_witness :
    (demo_connected 0 0 0 []).status = Status.ACTIVE ∧
    InRange64 ((demo_connected 0 0 0 []).time_of_last_status_message +
      defaults.AERON_NETWORK_PUBLICATION_CONNECTION_TIMEOUT_MS) ∧
    (aeron_network_publication_on_time_event defaults (demo_connected 0 0 0 []) 0 5000).pub
      = demo_connected 0 0 0 [] ∧
    (aeron_network_publication_on_time_event defaults (demo_connected 0 0 0 []) 0 5001).pub
      = { demo_connected 0 0 0 [] with is_connected := false } :=
  ⟨rfl, by decide,
    (on_time_event_active_timeout defaults (demo_connected 0 0 0 []) 0 5000 rfl
      (by decide)).2.1 (by decide),
    (on_time_event_active_timeout defaults (demo_connected 0 0 0 []) 0 5001 rfl
      (by decide)).1 (by decide)⟩

/-- C34 at a concrete input: the only reference to a publication with the
sender position at 100 and `last_snd_pos` at 0 is dropped; ticks at 7 and 8
enter LINGER, the tick at 5000000008 changes nothing and the tick at
5000000009 is beyond the linger timeout of 5000000000. -/
theorem released_publication_closes_witness :
    (demo_sent 100).status = Status.ACTIVE ∧ (demo_sent 100).refcnt = 1 ∧
    (demo_sent 100).subscribeable = [] ∧
    (time_events defaults (aeron_network_publication_decref (demo_env no_frame) (demo_sent 100))
      [(7, 0), (8, 0), (5000000008, 0)]).pub.status = Status.LINGER ∧
    (time_events defaults (aeron_network_publication_decref (demo_env no_frame) (demo_sent 100))
      [(7, 0), (8, 0), (5000000008, 0), (5000000009, 0)]).pub.status = Status.CLOSING :=
  have h := (released_publication_closes defaults (demo_env no_frame) (demo_sent 100)
    rfl rfl rfl).2.2.2 (by decide)
  ⟨rfl, rfl, rfl,
    (h 7 0 8 0 [(5000000008, 0)] (by decide)).2.2.2.1.2 (by decide),
    (h 7 0 8 0 [(5000000008, 0), (5000000009, 0)] (by decide)).2.2.1.2 (by decide)⟩

/-- C35 at a concrete input: an ACTIVE publication and ticks far beyond the
linger timeout. -/
theorem active_publication_stays_active_witness :
    demo_publication.status = Status.ACTIVE ∧
    (time_events defaults demo_publication
      [(1000000000000, 1000000000), (2000000000000, 2000000000)]).pub.status
      = Status.ACTIVE ∧
    (time_events defaults demo_publication
      [(1000000000000, 1000000000), (2000000000000, 2000000000)]).events = [] :=
  have h := active_publication_stays_active defaults demo_publication
    [(1000000000000, 1000000000), (2000000000000, 2000000000)] rfl
  ⟨rfl, h.1, h.2.2.2.2.2.1⟩

/-- C36, as amended, at a concrete input: `snd_pos` 0 and `snd_lmt` 4096 with
an MTU of 1408. -/
theorem send_data_window_witness :
    0 < defaults.AERON_NETWORK_PUBLICATION_MAX_MESSAGES_PER_SEND ∧
    ∃ (first : ScanCall) (rest : List ScanCall),
      (aeron_network_publication_send_data defaults (demo_env one_frame) (demo_with_limit 4096)
        5 0 0).scans = first :: rest ∧
      first.available_window = (demo_with_limit 4096).snd_lmt_position.value - 0 ∧
      (first.scan_limit : Int) =
        min ((demo_with_limit 4096).snd_lmt_position.value - 0)
          (demo_with_limit 4096).mtu_length :=
  ⟨by decide,
    ((send_data_window defaults (demo_env one_frame) (demo_with_limit 4096) 5 0 0
      (by decide)).2.2 (by decide) (by decide)).2.2 (by decide)⟩

/-- C39 at a concrete input: the first tick of `demo_publication`, at 5. -/
theorem setup_excludes_heartbeat_witness :
    (0 : Int) ≤ defaults.AERON_NETWORK_PUBLICATION_HEARTBEAT_TIMEOUT_NS ∧
    InRange64 (5 + defaults.AERON_NETWORK_PUBLICATION_HEARTBEAT_TIMEOUT_NS) ∧
    setups (aeron_network_publication_send defaults (demo_env no_frame) demo_publication
      5).events ≠ [] ∧
    heartbeats (aeron_network_publication_send defaults (demo_env no_frame) demo_publication
      5).events = [] :=
  ⟨by decide, by decide, by decide,
    ((setup_excludes_heartbeat defaults (demo_env no_frame) demo_publication 5
      (by decide) (by decide)).1 (by decide)).1⟩

end Aeron
